import Mathlib

/-!
# Acordion music bot: per-guild playback queue and session state

A shallow embedding of `index.js`.  The mutable per-guild record stored in
`guildPlayerData` becomes the structure `Session`; the `Map` itself becomes
`GuildMap`.  Every handler of the source (a command's `execute`, `playNextSong`,
`updateQueueMessage`, ...) becomes a function from the state before the handler
to the state after it.  Whatever the handler learns from its collaborators
(the voice library, the media resolver, the chat API, `Math.random`) is passed
in as an explicit outcome record, so that a statement quantified over the
outcome record speaks about every behaviour of the collaborators.

A handler is run to completion: no other handler of the same guild is
interleaved at its `await` points.  Numbers produced by `parseInt` are modelled
as `Option Int` (`none` is `NaN`) with exact integer arithmetic.
-/

namespace Acordion

/-! ## Configuration constants (index.js lines 29-34) -/

/-- Limit on the number of queued songs, `MAX_QUEUE_SIZE`. -/
def MAX_QUEUE_SIZE : Nat := 100

/-- Default volume percentage given to a new session, `DEFAULT_VOLUME`. -/
def DEFAULT_VOLUME : Int := 50

/-- Delay of the inactivity timer in milliseconds, `INACTIVITY_TIMEOUT_MS`. -/
def INACTIVITY_TIMEOUT_MS : Nat := 300000

/-- Delay of the empty-channel timer in milliseconds, `EMPTY_CHANNEL_TIMEOUT_MS`. -/
def EMPTY_CHANNEL_TIMEOUT_MS : Nat := 120000

/-! ## JavaScript primitives used by the handlers -/

/-- White space and line terminators skipped by `parseInt` before the sign. -/
def isJsWhiteSpace (c : Char) : Bool :=
  let n := c.toNat
  n == 0x09 || n == 0x0A || n == 0x0B || n == 0x0C || n == 0x0D || n == 0x20 ||
  n == 0xA0 || n == 0x1680 || (0x2000 ≤ n && n ≤ 0x200A) || n == 0x2028 ||
  n == 0x2029 || n == 0x202F || n == 0x205F || n == 0x3000 || n == 0xFEFF

/-- Value of a run of decimal digits, most significant digit first. -/
def digitsValue (ds : List Char) : Nat :=
  ds.foldl (fun acc c => 10 * acc + (c.toNat - 48)) 0

/-- The function `parseInt(s, 10)`: skip leading white space, read an optional sign,
then the longest run of decimal digits; `none` stands for `NaN`. -/
def parseInt (s : String) : Option Int :=
  let body := s.toList.dropWhile isJsWhiteSpace
  let negative := body.head? == some '-'
  let unsigned := if body.head? == some '-' || body.head? == some '+' then body.tail else body
  let ds := unsigned.takeWhile Char.isDigit
  if ds.isEmpty then none
  else if negative then some (-(digitsValue ds : Int)) else some (digitsValue ds : Int)

/-- The call `parseInt(args[0], 10)` where `args[0]` may be `undefined`:
`undefined` is first converted to the string "undefined". -/
def parseIntArg (arg : Option String) : Option Int :=
  parseInt (arg.getD "undefined")

/-- The method `Array.prototype.splice(start, deleteCount)` for `start` within
the array: the removed elements and the array that is left. -/
def splice {α : Type} (xs : List α) (start deleteCount : Nat) : List α × List α :=
  ((xs.drop start).take deleteCount, xs.take start ++ xs.drop (start + deleteCount))

/-- The method `Array.prototype.shift()`: the first element, if any, and the rest. -/
def shift {α : Type} (xs : List α) : Option α × List α :=
  (xs.head?, xs.tail)

/-- The method `Array.prototype.push(x)`. -/
def push {α : Type} (xs : List α) (x : α) : List α :=
  xs ++ [x]

/-- The destructuring swap `[q[i], q[j]] = [q[j], q[i]]` for indices within the
array: both sides are read first, then `q[i]` and `q[j]` are written. -/
def swapAt {α : Type} (q : List α) (i j : Nat) : List α :=
  match q[i]?, q[j]? with
  | some a, some b => (q.set i b).set j a
  | _, _ => q

/-! ## Utility functions -/

/-- The decimal rendering of a number inside a template string. -/
def showInt (n : Int) : String := toString n

/-- Two-digit padding used by `formatDuration`: a leading zero below ten. -/
def pad2 (n : Int) : String :=
  if n < 10 then "0" ++ showInt n else showInt n

/-- The function `formatDuration(seconds)` (lines 52-63); `none` is `NaN`. -/
def formatDuration (seconds : Option Int) : String :=
  match seconds with
  | none => "00:00"
  | some s =>
    if s = 0 then "00:00"
    else
      let hours := Int.fdiv s 3600
      let minutes := Int.fdiv (Int.tmod s 3600) 60
      let secs := Int.tmod s 60
      let hoursStr := if hours > 0 then showInt hours ++ ":" else ""
      hoursStr ++ pad2 minutes ++ ":" ++ pad2 secs

/-! ## Data model -/

/-- Identifier of a guild, the key of `guildPlayerData`. -/
abbrev GuildId := Nat

/-- Identifier of a text or voice channel. -/
abbrev ChannelId := Nat

/-- Identifier of a user. -/
abbrev UserId := Nat

/-- How a song was found: the `source` field, "url" or "search". -/
inductive Source where
  | url
  | search
deriving DecidableEq, Repr

/-- A queued song, the object built in `play.execute` (lines 586-594). -/
structure Track where
  title : String
  url : String
  thumbnail : Option String
  durationSeconds : Option Int
  durationFormatted : String
  requestedBy : UserId
  source : Source
deriving DecidableEq, Repr

/-- The `loop` field: "none", "track" or "queue". -/
inductive LoopMode where
  | none
  | track
  | queue
deriving DecidableEq, Repr

/-- The states of the audio player, `AudioPlayerStatus`. -/
inductive AudioPlayerStatus where
  | Idle
  | Buffering
  | Playing
  | Paused
  | AutoPaused
deriving DecidableEq, Repr

/-- The states of the voice connection, `VoiceConnectionStatus`. -/
inductive VoiceConnectionStatus where
  | Signalling
  | Connecting
  | Ready
  | Disconnected
  | Destroyed
deriving DecidableEq, Repr

/-- The voice connection: `state.status` and `joinConfig.channelId`. -/
structure Connection where
  status : VoiceConnectionStatus
  channelId : ChannelId
deriving DecidableEq, Repr

/-- The audio resource bound to the player; `volumePercent` records the call
`resource.volume.setVolumeLogarithmic(volumePercent / 100)`. -/
structure Resource where
  track : Track
  volumePercent : Int
deriving DecidableEq, Repr

/-- The audio player: `state.status` and `state.resource`. -/
structure Player where
  status : AudioPlayerStatus
  resource : Option Resource
deriving DecidableEq, Repr

/-- A chat message owned by the bot, identified by its id. -/
structure Message where
  id : Nat
deriving DecidableEq, Repr

/-- A pending `setTimeout` handle together with its delay. -/
structure Timeout where
  handle : Nat
  ms : Nat
deriving DecidableEq, Repr

/-- The per-guild record stored in `guildPlayerData` (lines 200-213). -/
structure Session where
  connection : Option Connection
  player : Option Player
  queue : List Track
  currentSong : Option Track
  textChannel : Option ChannelId
  loop : LoopMode
  volume : Int
  timeoutId : Option Timeout
  lockPlay : Bool
  nowPlayingMessage : Option Message
  queueMessage : Option Message
  queuePage : Int
deriving DecidableEq, Repr

/-- The map `guildPlayerData` from guild id to session. -/
abbrev GuildMap := GuildId → Option Session

/-- The empty `guildPlayerData`. -/
def GuildMap.empty : GuildMap := fun _ => none

/-- The call `guildPlayerData.set(guildId, data)`. -/
def GuildMap.set (m : GuildMap) (g : GuildId) (s : Session) : GuildMap :=
  fun k => if k = g then some s else m k

/-- The call `guildPlayerData.delete(guildId)`. -/
def GuildMap.delete (m : GuildMap) (g : GuildId) : GuildMap :=
  fun k => if k = g then none else m k

/-- The call `guildPlayerData.has(guildId)`. -/
def GuildMap.has (m : GuildMap) (g : GuildId) : Bool :=
  (m g).isSome

/-! ## Outcomes reported by the collaborators -/

/-- Error raised by a chat API call: Discord code 10008 (Unknown Message),
code 10003 (Unknown Channel), or anything else. -/
inductive ApiError where
  | unknownMessage
  | unknownChannel
  | other
deriving DecidableEq, Repr

/-- What the chat API answers when `updateQueueMessage` edits the stored queue
message or sends a new one. -/
structure QueueMessageOutcome where
  edit : Option ApiError
  send : Except ApiError Message

/-- What happens inside the `try` block of `playNextSong` (lines 344-378). -/
inductive StartOutcome where
  /-- The resource was created and played and the player entered `Playing`
  within 15 s; `npMessage` is the now-playing message that `textChannel.send`
  produced, `none` when the send failed and was swallowed by `.catch`. -/
  | playing (npMessage : Option Message)
  /-- An exception was raised by `ytdl`, `createAudioResource`, `player.play` or
  `entersState`; `playerAfter` is the state the player is left in. -/
  | failed (playerAfter : Player)

/-- Everything one run of `playNextSong` learns from its collaborators. -/
structure AdvanceOutcome where
  start : StartOutcome
  queueMessage : QueueMessageOutcome
  timerHandle : Nat

/-- Whether the `try` block of `playNextSong` ran through without an exception. -/
def StartOutcome.isPlaying : StartOutcome → Bool
  | StartOutcome.playing _ => true
  | StartOutcome.failed _ => false

/-- How one run of `playNextSong` ended. -/
inductive PlayNextResult where
  /-- The entry guard returned (line 300). -/
  | guarded
  /-- Nothing was selected (lines 333-340). -/
  | queueEmpty
  /-- The selected song is playing. -/
  | started (song : Track)
  /-- Starting the selected song failed; a retry is scheduled after 500 ms. -/
  | failed (song : Track)
deriving DecidableEq, Repr

/-! ## Player logic -/

/-- The session created by `ensurePlayerData` (lines 200-213). -/
def newSession (textChannel : Option ChannelId) : Session where
  connection := none
  player := none
  queue := []
  currentSong := none
  textChannel := textChannel
  loop := LoopMode.none
  volume := DEFAULT_VOLUME
  timeoutId := none
  lockPlay := false
  nowPlayingMessage := none
  queueMessage := none
  queuePage := 0

/-- The function `ensurePlayerData(guildId, textChannel)` (lines 198-218): the
returned session and the map afterwards. -/
def ensurePlayerData (g : GuildId) (textChannel : Option ChannelId) (m : GuildMap) :
    Session × GuildMap :=
  let m1 := if m.has g then m else m.set g (newSession textChannel)
  match m1 g with
  | some data =>
    let data1 := { data with textChannel := textChannel }
    (data1, m1.set g data1)
  | none => (newSession textChannel, m1)

/-- The function `getPlayerData(guildId)`. -/
def getPlayerData (g : GuildId) (m : GuildMap) : Option Session := m g

/-- The body of `updateQueueMessage` (lines 394-422) on the session found in the map. -/
def updateQueueMessageOn (o : QueueMessageOutcome) (playerData : Session) : Session :=
  if playerData.textChannel.isNone then playerData
  else
    match playerData.queueMessage with
    | some _ =>
      match o.edit with
      | none => playerData
      | some e =>
        if e = ApiError.unknownMessage ∨ e = ApiError.unknownChannel then
          { playerData with queueMessage := none }
        else playerData
    | none =>
      if (playerData.currentSong.isSome || decide (playerData.queue.length > 0))
          && playerData.textChannel.isSome then
        match o.send with
        | Except.ok msg => { playerData with queueMessage := some msg }
        | Except.error e =>
          if e = ApiError.unknownMessage ∨ e = ApiError.unknownChannel then
            { playerData with queueMessage := none }
          else playerData
      else playerData

/-- The function `updateQueueMessage(guildId)`. -/
def updateQueueMessage (o : QueueMessageOutcome) (g : GuildId) (m : GuildMap) : GuildMap :=
  match m g with
  | none => m
  | some playerData => m.set g (updateQueueMessageOn o playerData)

/-- The body of `startInactivityTimer` (lines 282-292) on the session found in
the map: the previous timer is cleared and `timeoutId` holds the new handle. -/
def startInactivityTimerOn (handle : Nat) (timeoutMs : Nat) (playerData : Session) : Session :=
  { playerData with timeoutId := some { handle := handle, ms := timeoutMs } }

/-- Track selection of `playNextSong` (lines 320-331): the song to play and the
session with its queue updated. -/
def selectSong (playerData : Session) : Option Track × Session :=
  if playerData.loop = LoopMode.track ∧ playerData.currentSong.isSome then
    (playerData.currentSong, playerData)
  else
    let requeued : Session :=
      match playerData.loop, playerData.currentSong with
      | LoopMode.queue, some current => { playerData with queue := push playerData.queue current }
      | _, _ => playerData
    ((shift requeued.queue).1, { requeued with queue := (shift requeued.queue).2 })

/-- The body of `playNextSong` (lines 298-390) on the session found in the map. -/
def playNextSongOn (o : AdvanceOutcome) (playerData : Session) : PlayNextResult × Session :=
  if playerData.lockPlay || playerData.player.isNone || playerData.connection.isNone then
    (PlayNextResult.guarded, { playerData with lockPlay := false })
  else
    let locked : Session :=
      { playerData with lockPlay := true, timeoutId := none, nowPlayingMessage := none }
    let selected := selectSong locked
    match selected.1 with
    | none =>
      let idle : Session := { selected.2 with currentSong := none, lockPlay := false }
      (PlayNextResult.queueEmpty,
        startInactivityTimerOn o.timerHandle INACTIVITY_TIMEOUT_MS
          (updateQueueMessageOn o.queueMessage idle))
    | some songToPlay =>
      let chosen : Session := { selected.2 with currentSong := some songToPlay }
      match o.start with
      | StartOutcome.playing npMessage =>
        let bound : Session :=
          { chosen with
            player := some { status := AudioPlayerStatus.Playing,
                             resource := some { track := songToPlay,
                                                volumePercent := chosen.volume } } }
        let announced : Session :=
          if bound.textChannel.isSome then { bound with nowPlayingMessage := npMessage }
          else bound
        (PlayNextResult.started songToPlay,
          { updateQueueMessageOn o.queueMessage announced with lockPlay := false })
      | StartOutcome.failed playerAfter =>
        (PlayNextResult.failed songToPlay,
          { chosen with player := some playerAfter, currentSong := none, lockPlay := false })

/-- The function `playNextSong(guildId)` (lines 296-391). -/
def playNextSong (o : AdvanceOutcome) (g : GuildId) (m : GuildMap) : PlayNextResult × GuildMap :=
  match m g with
  | none => (PlayNextResult.guarded, m)
  | some playerData => ((playNextSongOn o playerData).1, m.set g (playNextSongOn o playerData).2)

/-- The function `cleanupGuild(guildId)` (lines 227-274) as seen from the map:
without a session nothing happens; otherwise the session is stopped, its
messages and connection are released and its entry is deleted, after which the
session object can no longer be reached through the map. -/
def cleanupGuild (g : GuildId) (m : GuildMap) : GuildMap :=
  match m g with
  | none => m
  | some _ => m.delete g

/-! ## Queue commands -/

/-- Reply of the `remove` command. -/
inductive RemoveReply where
  /-- Reply "You need to be in a voice channel!" -/
  | notInVoiceChannel
  /-- Reply "The player is not active." -/
  | playerNotActive
  /-- Reply "You must be in the same voice channel as the bot." -/
  | wrongVoiceChannel
  /-- Reply "The queue is empty." -/
  | queueEmpty
  /-- Reply "Invalid position. Enter a number between 1 and <length>." -/
  | invalidPosition
  /-- Reply "Removed <title> from the queue." -/
  | removed (song : Track)
  /-- Reply "Could not remove song at position <position>." -/
  | couldNotRemove
deriving DecidableEq, Repr

/-- The command `remove.execute` (lines 964-990).  `voiceChannel` is the id of
`message.member?.voice?.channel`, `positionArg` is `args[0]`, `playerData` is
the result of `getPlayerData(guildId)`; the result is the reply and the
session afterwards. -/
def removeExecute (o : QueueMessageOutcome) (voiceChannel : Option ChannelId)
    (positionArg : Option String) (playerData : Option Session) :
    RemoveReply × Option Session :=
  match voiceChannel with
  | none => (RemoveReply.notInVoiceChannel, playerData)
  | some vc =>
    match playerData with
    | none => (RemoveReply.playerNotActive, playerData)
    | some pd =>
      if pd.player.isNone then (RemoveReply.playerNotActive, playerData)
      else if some vc ≠ pd.connection.map (fun c => c.channelId) then
        (RemoveReply.wrongVoiceChannel, playerData)
      else if pd.queue.length = 0 then (RemoveReply.queueEmpty, playerData)
      else
        match parseIntArg positionArg with
        | none => (RemoveReply.invalidPosition, playerData)
        | some position =>
          if position ≤ 0 ∨ position > (pd.queue.length : Int) then
            (RemoveReply.invalidPosition, playerData)
          else
            let indexToRemove := (position - 1).toNat
            let spliced := splice pd.queue indexToRemove 1
            match spliced.1.head? with
            | some removedSong =>
              (RemoveReply.removed removedSong,
                some (updateQueueMessageOn o { pd with queue := spliced.2 }))
            | none => (RemoveReply.couldNotRemove, some { pd with queue := spliced.2 })

/-- The values `Math.floor(Math.random() * (i + 1))` drawn by the shuffle loop:
for the loop index `i` an integer between `0` and `i`. -/
abbrev Draws := (i : Nat) → Fin (i + 1)

/-- The loop `for (let i = queue.length - 1; i > 0; i--)` of the `shuffle`
command (lines 949-952), entered with loop index `i`. -/
def shuffleLoop {α : Type} (draws : Draws) : Nat → List α → List α
  | 0, queue => queue
  | i + 1, queue => shuffleLoop draws i (swapAt queue (i + 1) (draws (i + 1)).val)

/-- The swap loop of the `shuffle` command on a whole queue (lines 948-952). -/
def shuffleQueue {α : Type} (draws : Draws) (queue : List α) : List α :=
  shuffleLoop draws (queue.length - 1) queue

/-- The draws that the shuffle of a queue of `n` songs consumes: component `k`
is the value drawn at loop index `k + 1`, an integer between `0` and `k + 1`. -/
abbrev DrawSeq (n : Nat) := (k : Fin (n - 1)) → Fin (k.val + 2)

/-- The draws of a `DrawSeq` indexed by the loop index; indices the loop does
not visit are given the value 0. -/
def DrawSeq.toDraws {n : Nat} (d : DrawSeq n) : Draws := fun i =>
  if h : 0 < i ∧ i < n then
    ⟨(d ⟨i - 1, by omega⟩).val, by
      have hlt := (d ⟨i - 1, by omega⟩).isLt
      simp only at hlt
      omega⟩
  else ⟨0, by omega⟩

/-- Reply of the `shuffle` command. -/
inductive ShuffleReply where
  /-- Reply "You need to be in a voice channel!" -/
  | notInVoiceChannel
  /-- Reply "The player is not active." -/
  | playerNotActive
  /-- Reply "You must be in the same voice channel as the bot." -/
  | wrongVoiceChannel
  /-- Reply "Need at least 2 songs in the queue to shuffle." -/
  | tooFewSongs
  /-- Reply "Queue shuffled!" -/
  | shuffled
deriving DecidableEq, Repr

/-- The command `shuffle.execute` (lines 937-956). -/
def shuffleExecute (draws : Draws) (o : QueueMessageOutcome) (voiceChannel : Option ChannelId)
    (playerData : Option Session) : ShuffleReply × Option Session :=
  match voiceChannel with
  | none => (ShuffleReply.notInVoiceChannel, playerData)
  | some vc =>
    match playerData with
    | none => (ShuffleReply.playerNotActive, playerData)
    | some pd =>
      if pd.player.isNone then (ShuffleReply.playerNotActive, playerData)
      else if some vc ≠ pd.connection.map (fun c => c.channelId) then
        (ShuffleReply.wrongVoiceChannel, playerData)
      else if pd.queue.length < 2 then (ShuffleReply.tooFewSongs, playerData)
      else
        (ShuffleReply.shuffled,
          some (updateQueueMessageOn o { pd with queue := shuffleQueue draws pd.queue }))

/-! ## The play command -/

/-- The part of `songInfo.videoDetails` read by `play.execute`; `thumbnail` is
the value of `thumbnails?.[0]?.url`. -/
structure VideoDetails where
  title : String
  video_url : String
  thumbnail : Option String
  lengthSeconds : String
  isLiveContent : Bool
deriving DecidableEq, Repr

/-- What `ytSearch(query)` followed by `ytdl.getInfo` of the first hit gives. -/
inductive SearchOutcome where
  /-- The call `ytSearch` raised an exception. -/
  | threw
  /-- No result, or an empty list of videos. -/
  | noResults
  /-- A first hit was found; `info` is `none` when `getInfo` failed on it. -/
  | found (info : Option VideoDetails)

/-- What the `play` command reads from the incoming message. -/
structure PlayRequest where
  /-- The text `args.join(" ")`. -/
  query : String
  /-- The id of `message.member?.voice?.channel`. -/
  voiceChannel : Option ChannelId
  /-- Whether the bot has the Connect permission in that channel. -/
  canConnect : Bool
  /-- Whether the bot has the Speak permission in that channel. -/
  canSpeak : Bool
  /-- The channel the command was sent in. -/
  channel : ChannelId
  /-- The id of `message.author`. -/
  author : UserId

/-- Everything one run of `play.execute` learns from its collaborators. -/
structure PlayOutcome where
  /-- The calls `joinVoiceChannel` and `entersState(connection, Ready, 20 s)` succeeded. -/
  joinReady : Bool
  /-- The reply "Searching for ..." could be sent. -/
  searchReply : Bool
  /-- The value of `ytdl.validateURL(query)`. -/
  validateURL : Bool
  /-- The result of `ytdl.getInfo(query)`, `none` when it failed. -/
  urlInfo : Option VideoDetails
  search : SearchOutcome
  queueMessage : QueueMessageOutcome
  advance : AdvanceOutcome

/-- Reply of the `play` command. -/
inductive PlayReply where
  /-- Reply "Usage: play <YouTube URL or Search Term>" -/
  | usage
  /-- Reply "You need to be in a voice channel!" -/
  | notInVoiceChannel
  /-- Reply "I need permission to Connect to your voice channel!" -/
  | missingConnect
  /-- Reply "I need permission to Speak in your voice channel!" -/
  | missingSpeak
  /-- Reply "The queue is full (max 100 songs)." -/
  | queueFull
  /-- Reply "Failed to join voice channel: ..." -/
  | joinFailed
  /-- Reply "Internal error: Could not establish voice connection properly." -/
  | internalError
  /-- The search reply could not be sent; the dispatcher answers
  "An error occurred while executing that command." -/
  | commandError
  /-- Reply "No results found for ..." -/
  | noResults
  /-- Reply "Could not fetch details for the found video." -/
  | fetchFailed
  /-- Reply "Live streams are not supported." -/
  | liveNotSupported
  /-- Reply "Session expired while searching. Please try again." -/
  | sessionExpired
  /-- Reply "Added to queue (#queuePosition)" -/
  | added (queuePosition : Nat) (song : Track)
  /-- Reply "An error occurred while searching or adding the song." and its variants. -/
  | searchError
deriving DecidableEq, Repr

/-- The song object built from the resolved video (lines 585-594). -/
def makeSong (info : VideoDetails) (author : UserId) (source : Source) : Track where
  title := info.title
  url := info.video_url
  thumbnail := match info.thumbnail with
    | some u => if u = "" then none else some u
    | none => none
  durationSeconds := parseInt info.lengthSeconds
  durationFormatted := formatDuration (parseInt info.lengthSeconds)
  requestedBy := author
  source := source

/-- Search and resolution of `play.execute` (lines 549-594): the song, or the
reply that ends the command. -/
def resolveSong (req : PlayRequest) (o : PlayOutcome) : Except PlayReply Track :=
  let direct : Option VideoDetails := if o.validateURL then o.urlInfo else none
  let resolved : Except PlayReply (VideoDetails × Source) :=
    match direct with
    | some info => Except.ok (info, Source.url)
    | none =>
      match o.search with
      | SearchOutcome.threw => Except.error PlayReply.searchError
      | SearchOutcome.noResults => Except.error PlayReply.noResults
      | SearchOutcome.found none => Except.error PlayReply.fetchFailed
      | SearchOutcome.found (some info) => Except.ok (info, Source.search)
  match resolved with
  | Except.error r => Except.error r
  | Except.ok (info, source) =>
    if info.isLiveContent then Except.error PlayReply.liveNotSupported
    else Except.ok (makeSong info req.author source)

/-- The statement `currentPlayerData.queue.push(song)` (line 603). -/
def enqueueSong (song : Track) (playerData : Session) : Session :=
  { playerData with queue := push playerData.queue song }

/-- The end of `play.execute` (lines 596-617): look the session up again, push
the song, refresh the queue message and start playback when the player is idle. -/
def playEnqueue (song : Track) (o : PlayOutcome) (g : GuildId) (m : GuildMap) :
    PlayReply × GuildMap :=
  match m g with
  | none => (PlayReply.sessionExpired, m)
  | some currentPlayerData =>
    let pushed : Session := enqueueSong song currentPlayerData
    let queuePosition := (if pushed.currentSong.isSome then 1 else 0) + pushed.queue.length
    let shown := updateQueueMessageOn o.queueMessage pushed
    let m1 := m.set g shown
    if shown.player.map (fun p => p.status) = some AudioPlayerStatus.Idle ∧ shown.lockPlay = false then
      (PlayReply.added queuePosition song, (playNextSong o.advance g m1).2)
    else (PlayReply.added queuePosition song, m1)

/-- The command `play.execute` (lines 431-629). -/
def playExecute (req : PlayRequest) (o : PlayOutcome) (g : GuildId) (m : GuildMap) :
    PlayReply × GuildMap :=
  if req.query = "" then (PlayReply.usage, m)
  else
    match req.voiceChannel with
    | none => (PlayReply.notInVoiceChannel, m)
    | some vc =>
      if req.canConnect = false then (PlayReply.missingConnect, m)
      else if req.canSpeak = false then (PlayReply.missingSpeak, m)
      else
        let ensured := ensurePlayerData g (some req.channel) m
        let playerData := ensured.1
        if playerData.queue.length ≥ MAX_QUEUE_SIZE then (PlayReply.queueFull, ensured.2)
        else
          let mustJoin : Bool :=
            match playerData.connection with
            | none => true
            | some c => decide (c.status = VoiceConnectionStatus.Destroyed)
          if mustJoin ∧ o.joinReady = false then
            (PlayReply.joinFailed, cleanupGuild g ensured.2)
          else
            let joined : Session :=
              if mustJoin then
                { playerData with
                  connection := some { status := VoiceConnectionStatus.Ready, channelId := vc } }
              else playerData
            let connectionValid : Bool :=
              match joined.connection with
              | none => false
              | some c => decide (c.status ≠ VoiceConnectionStatus.Destroyed)
            if joined.player.isNone ∧ connectionValid = false then
              (PlayReply.internalError, cleanupGuild g (ensured.2.set g joined))
            else
              let equipped : Session :=
                if joined.player.isNone then
                  { joined with player := some { status := AudioPlayerStatus.Idle, resource := none } }
                else joined
              let m1 := ensured.2.set g equipped
              if o.searchReply = false then (PlayReply.commandError, m1)
              else
                match resolveSong req o with
                | Except.error r => (r, m1)
                | Except.ok song => playEnqueue song o g m1

/-- A run of `play` commands for one guild, one after the other: the replies in
order and the map after the last one. -/
def playAll (g : GuildId) : List (PlayRequest × PlayOutcome) → GuildMap → List PlayReply × GuildMap
  | [], m => ([], m)
  | (req, o) :: rest, m =>
    let step := playExecute req o g m
    let tail := playAll g rest step.2
    (step.1 :: tail.1, tail.2)

/-- The request passes the argument, voice channel and permission checks of
`play.execute` (lines 432-444). -/
def PlayRequest.passesChecks (req : PlayRequest) : Bool :=
  req.query != "" && req.voiceChannel.isSome && req.canConnect && req.canSpeak

/-- The search reply is sent and the query resolves to a song that is not live. -/
def resolves (req : PlayRequest) (o : PlayOutcome) : Bool :=
  o.searchReply &&
    (match resolveSong req o with
     | Except.ok _ => true
     | Except.error _ => false)

/-- The session has a live voice connection and a player that is not idle, so
that a `play` command neither joins a channel nor starts playback. -/
def Session.isStreaming (s : Session) : Bool :=
  match s.connection, s.player with
  | some c, some p =>
    decide (c.status ≠ VoiceConnectionStatus.Destroyed) && decide (p.status ≠ AudioPlayerStatus.Idle)
  | _, _ => false

/-- One step of a run on a session: a song is pushed onto the queue (line 603)
or `playNextSong` is called. -/
inductive QueueOp where
  | enqueue (song : Track)
  | advance (o : AdvanceOutcome)

/-- A run of pushes and `playNextSong` calls on one session: the results of the
`playNextSong` calls in order and the session after the last step. -/
def runOps : List QueueOp → Session → List PlayNextResult × Session
  | [], s => ([], s)
  | QueueOp.enqueue song :: rest, s => runOps rest (enqueueSong song s)
  | QueueOp.advance o :: rest, s =>
    let step := playNextSongOn o s
    let tail := runOps rest step.2
    (step.1 :: tail.1, tail.2)

/-- The songs that were started, in the order of the calls. -/
def startedSongs : List PlayNextResult → List Track
  | [] => []
  | PlayNextResult.started song :: rest => song :: startedSongs rest
  | _ :: rest => startedSongs rest

/-- The songs that were pushed, in the order of the pushes. -/
def enqueuedSongs : List QueueOp → List Track
  | [] => []
  | QueueOp.enqueue song :: rest => song :: enqueuedSongs rest
  | QueueOp.advance _ :: rest => enqueuedSongs rest

/-- A run of `playNextSong` calls on one session, one after the other: the
results in order and the session after the last one. -/
def advanceAll : List AdvanceOutcome → Session → List PlayNextResult × Session
  | [], s => ([], s)
  | o :: rest, s =>
    let step := playNextSongOn o s
    let tail := advanceAll rest step.2
    (step.1 :: tail.1, tail.2)

/-! ## Sample data for concrete runs -/

/-- A song of 180 seconds. -/
def sampleTrackA : Track where
  title := "A"
  url := "https://youtu.be/a"
  thumbnail := none
  durationSeconds := some 180
  durationFormatted := "03:00"
  requestedBy := 1
  source := Source.search

/-- A song of 200 seconds. -/
def sampleTrackB : Track where
  title := "B"
  url := "https://youtu.be/b"
  thumbnail := none
  durationSeconds := some 200
  durationFormatted := "03:20"
  requestedBy := 2
  source := Source.search

/-- A chat API that accepts every edit and answers every send with message 2. -/
def sampleChat : QueueMessageOutcome where
  edit := none
  send := Except.ok { id := 2 }

/-- A run of `playNextSong` in which the song starts and message 1 is sent. -/
def sampleStart : AdvanceOutcome where
  start := StartOutcome.playing (some { id := 1 })
  queueMessage := sampleChat
  timerHandle := 1

/-- A session joined to voice channel 5 with an idle player, used from text channel 9. -/
def sampleSession (queue : List Track) (currentSong : Option Track) (loop : LoopMode) : Session :=
  { newSession (some 9) with
    connection := some { status := VoiceConnectionStatus.Ready, channelId := 5 },
    player := some { status := AudioPlayerStatus.Idle, resource := none },
    queue := queue,
    currentSong := currentSong,
    loop := loop }

/-- The video every sample query resolves to. -/
def sampleVideo : VideoDetails where
  title := "A"
  video_url := "https://youtu.be/a"
  thumbnail := none
  lengthSeconds := "180"
  isLiveContent := false

/-- A `play` command sent from text channel 9 by user 1 sitting in voice channel 5. -/
def sampleRequest : PlayRequest where
  query := "a"
  voiceChannel := some 5
  canConnect := true
  canSpeak := true
  channel := 9
  author := 1

/-- A run of `play.execute` in which joining, searching and starting all succeed. -/
def samplePlay : PlayOutcome where
  joinReady := true
  searchReply := true
  validateURL := false
  urlInfo := none
  search := SearchOutcome.found (some sampleVideo)
  queueMessage := sampleChat
  advance := sampleStart

/-- A session that is playing song A from voice channel 5, with the given queue. -/
def sampleStreaming (queue : List Track) : Session :=
  { sampleSession queue (some sampleTrackA) LoopMode.none with
    player := some { status := AudioPlayerStatus.Playing,
                     resource := some { track := sampleTrackA, volumePercent := 50 } } }


/-! ## The two halves of `playNextSong` and the player Idle event -/

/-- How the first half of one run of `playNextSong` (lines 298-342) ended. -/
inductive EnterResult where
  /-- The entry guard returned (line 300). -/
  | guarded
  /-- Nothing was selected (lines 333-340). -/
  | queueEmpty
  /-- A song was selected and stored in `currentSong` (line 342); the run goes
  on into its `try` block, where it waits for the player (line 367). -/
  | suspended (song : Track)
deriving DecidableEq, Repr

/-- The first half of `playNextSong` (lines 298-342) on the session found in
the map: entry guard, lock, timer, track selection. -/
def playNextSongEnter (o : AdvanceOutcome) (playerData : Session) : EnterResult × Session :=
  if playerData.lockPlay || playerData.player.isNone || playerData.connection.isNone then
    (EnterResult.guarded, { playerData with lockPlay := false })
  else
    let locked : Session :=
      { playerData with lockPlay := true, timeoutId := none, nowPlayingMessage := none }
    let selected := selectSong locked
    match selected.1 with
    | none =>
      let idle : Session := { selected.2 with currentSong := none, lockPlay := false }
      (EnterResult.queueEmpty,
        startInactivityTimerOn o.timerHandle INACTIVITY_TIMEOUT_MS
          (updateQueueMessageOn o.queueMessage idle))
    | some songToPlay =>
      (EnterResult.suspended songToPlay, { selected.2 with currentSong := some songToPlay })

/-- The second half of `playNextSong` (lines 344-390), run on the session as it
is when the awaited calls settle: the `try` block, or `catch`, and `finally`. -/
def playNextSongResume (o : AdvanceOutcome) (songToPlay : Track) (playerData : Session) :
    PlayNextResult × Session :=
  match o.start with
  | StartOutcome.playing npMessage =>
    let bound : Session :=
      { playerData with
        player := some { status := AudioPlayerStatus.Playing,
                         resource := some { track := songToPlay,
                                            volumePercent := playerData.volume } } }
    let announced : Session :=
      if bound.textChannel.isSome then { bound with nowPlayingMessage := npMessage }
      else bound
    (PlayNextResult.started songToPlay,
      { updateQueueMessageOn o.queueMessage announced with lockPlay := false })
  | StartOutcome.failed playerAfter =>
    (PlayNextResult.failed songToPlay,
      { playerData with player := some playerAfter, currentSong := none, lockPlay := false })

/-- The function `startInactivityTimer(guildId, timeoutMs)` (lines 278-293). -/
def startInactivityTimer (handle : Nat) (timeoutMs : Nat) (g : GuildId) (m : GuildMap) : GuildMap :=
  match m g with
  | none => m
  | some playerData => m.set g (startInactivityTimerOn handle timeoutMs playerData)

/-- What the listener of the player Idle event decides to do (lines 506-522). -/
inductive IdleAction where
  /-- The listener returns without doing anything. -/
  | nothing
  /-- The listener calls `playNextSong(guildId)`. -/
  | playNext
  /-- The listener calls `startInactivityTimer(guildId)`. -/
  | startTimer
deriving DecidableEq, Repr

/-- The branch taken by the listener of the player Idle event (lines 506-522);
`oldStatus` is `oldState.status`, `playerData` the result of the map lookup. -/
def idleAction (oldStatus : AudioPlayerStatus) (playerData : Option Session) : IdleAction :=
  match playerData with
  | none => IdleAction.nothing
  | some current =>
    if oldStatus = AudioPlayerStatus.Playing ∧ current.currentSong.isSome then IdleAction.playNext
    else if oldStatus ≠ AudioPlayerStatus.Idle then
      if current.currentSong.isNone ∧ current.queue.length > 0 ∧ current.lockPlay = false then
        IdleAction.playNext
      else if current.currentSong.isNone ∧ current.queue.length = 0 then IdleAction.startTimer
      else IdleAction.nothing
    else IdleAction.nothing

/-- The listener of the player Idle event (lines 506-522), with the call of
`playNextSong` run to completion. -/
def playerIdle (oldStatus : AudioPlayerStatus) (o : AdvanceOutcome) (g : GuildId) (m : GuildMap) :
    GuildMap :=
  match idleAction oldStatus (m g) with
  | IdleAction.nothing => m
  | IdleAction.playNext => (playNextSong o g m).2
  | IdleAction.startTimer => startInactivityTimer o.timerHandle INACTIVITY_TIMEOUT_MS g m

/-- A session together with the runs of `playNextSong` that are suspended in
their `try` block, oldest first, each with the song it selected. -/
structure InFlight where
  session : Session
  suspended : List Track
deriving DecidableEq, Repr

/-- A player Idle event arrives while runs of `playNextSong` may be suspended: the
listener runs, and a call of `playNextSong` it makes runs its first half. -/
def idleSignal (oldStatus : AudioPlayerStatus) (o : AdvanceOutcome) (st : InFlight) : InFlight :=
  match idleAction oldStatus (some st.session) with
  | IdleAction.nothing => st
  | IdleAction.startTimer =>
    { st with session := startInactivityTimerOn o.timerHandle INACTIVITY_TIMEOUT_MS st.session }
  | IdleAction.playNext =>
    match playNextSongEnter o st.session with
    | (EnterResult.suspended song, entered) =>
      { session := entered, suspended := st.suspended ++ [song] }
    | (_, entered) => { st with session := entered }

/-- The oldest suspended run of `playNextSong` gets its answer and runs its second half. -/
def settleOldest (o : AdvanceOutcome) (st : InFlight) : InFlight :=
  match st.suspended with
  | [] => st
  | song :: rest => { session := (playNextSongResume o song st.session).2, suspended := rest }

/-! ## Chat calls made by `playNextSong` -/

/-- A call to the chat API made on behalf of a session. -/
inductive ChatCall where
  /-- The call `message.delete()` on a stored message. -/
  | deleteMessage (msg : Message)
  /-- The call `queueMessage.edit(...)`. -/
  | editQueueMessage (msg : Message)
  /-- The call `textChannel.send(...)` with the queue embed. -/
  | sendQueueMessage
  /-- The call `textChannel.send(...)` with the now-playing embed. -/
  | sendNowPlaying
  /-- The call `textChannel.send(...)` with the "Failed to play" embed. -/
  | sendPlayError
deriving DecidableEq, Repr

/-- Whether a chat call sends a new message. -/
def ChatCall.isSend : ChatCall → Bool
  | ChatCall.sendQueueMessage => true
  | ChatCall.sendNowPlaying => true
  | ChatCall.sendPlayError => true
  | _ => false

/-- The chat calls made by `updateQueueMessage` (lines 403-413). -/
def updateQueueMessageCalls (playerData : Session) : List ChatCall :=
  if playerData.textChannel.isNone then []
  else
    match playerData.queueMessage with
    | some msg => [ChatCall.editQueueMessage msg]
    | none =>
      if (playerData.currentSong.isSome || decide (playerData.queue.length > 0))
          && playerData.textChannel.isSome then
        [ChatCall.sendQueueMessage]
      else []

/-- The chat calls made by one run of `playNextSong`, in order. -/
def playNextSongCalls (o : AdvanceOutcome) (playerData : Session) : List ChatCall :=
  if playerData.lockPlay || playerData.player.isNone || playerData.connection.isNone then []
  else
    let locked : Session :=
      { playerData with lockPlay := true, timeoutId := none, nowPlayingMessage := none }
    let retired : List ChatCall :=
      match playerData.nowPlayingMessage with
      | some oldNpMsg => [ChatCall.deleteMessage oldNpMsg]
      | none => []
    let selected := selectSong locked
    match selected.1 with
    | none =>
      let idle : Session := { selected.2 with currentSong := none, lockPlay := false }
      retired ++ updateQueueMessageCalls idle
    | some songToPlay =>
      let chosen : Session := { selected.2 with currentSong := some songToPlay }
      match o.start with
      | StartOutcome.playing npMessage =>
        let announced : Session :=
          if chosen.textChannel.isSome then { chosen with nowPlayingMessage := npMessage }
          else chosen
        retired ++ (if chosen.textChannel.isSome then [ChatCall.sendNowPlaying] else [])
          ++ updateQueueMessageCalls announced
      | StartOutcome.failed _ =>
        retired ++ (if chosen.textChannel.isSome then [ChatCall.sendPlayError] else [])

/-! ## The retry chain -/

/-- The chain started by one call of `playNextSong`: when starting the song
fails, the `catch` block schedules a further call after 500 ms (line 386), and
so on until a call ends otherwise.  `outcomes i` is what call number `i` meets;
`fuel` bounds the number of calls.  The result lists how the calls ended. -/
def retryChain : Nat → (Nat → AdvanceOutcome) → Session → List PlayNextResult × Session
  | 0, _, s => ([], s)
  | fuel + 1, outcomes, s =>
    let step := playNextSongOn (outcomes 0) s
    match step.1 with
    | PlayNextResult.failed _ =>
      let tail := retryChain fuel (fun i => outcomes (i + 1)) step.2
      (step.1 :: tail.1, tail.2)
    | _ => ([step.1], step.2)

/-- The songs that a retry chain tries to start, in order, when every start fails. -/
def songsToTry (s : Session) : List Track :=
  match s.loop, s.currentSong with
  | LoopMode.track, some current => current :: s.queue
  | LoopMode.queue, some current => s.queue ++ [current]
  | _, _ => s.queue

/-! ## Teardown in detail -/

/-- A call made by `cleanupGuild`, or by a listener or a run of `playNextSong`
that is woken while `cleanupGuild` is under way. -/
inductive CleanupAction where
  /-- The call `clearTimeout(playerData.timeoutId)` (lines 237, 282 and 304). -/
  | clearTimeout (t : Timeout)
  /-- The call `playerData.player.stop(true)` (line 238). -/
  | stopPlayer
  /-- The call `delete()` on the now-playing or the queue message (lines 249, 257
  and 311). -/
  | deleteMessage (msg : Message)
  /-- The call `playerData.connection.destroy()` (line 268). -/
  | destroyConnection
  /-- The call `guildPlayerData.delete(guildId)` (line 272). -/
  | deleteEntry
  /-- The call `setTimeout` of `startInactivityTimer` (line 285). -/
  | setTimeout (t : Timeout)
deriving DecidableEq, Repr

/-- What one run of `cleanupGuild` learns from its collaborators, and the order
in which awaited calls are answered. -/
structure CleanupOutcome where
  /-- The answer to the deletion of the now-playing message awaited at line 249;
  `none` is success. -/
  npDelete : Option ApiError
  /-- The answer to the deletion of the queue message awaited at line 257; `none`
  is success. -/
  queueDelete : Option ApiError
  /-- What a run of `playNextSong` learns that the Idle listener starts when
  `cleanupGuild` stops the player. -/
  advance : AdvanceOutcome
  /-- The awaited calls of that run are answered before the deletions awaited by
  `cleanupGuild` (lines 248 and 256): the run comes to its end while
  `cleanupGuild` waits.  Otherwise it is still waiting when the entry is deleted. -/
  advanceFirst : Bool
  /-- The handle of a timer set by the Idle listener inside the run of
  `cleanupGuild` that the Destroyed listener starts (lines 465-472). -/
  nestedHandle : Nat

/-- What one run of `cleanupGuild` did. -/
structure CleanupReport where
  /-- The calls made until the entry is deleted, in order. -/
  actions : List CleanupAction
  /-- The number of `console.warn` calls of lines 252 and 260 for the two
  deletions awaited by this run. -/
  warnings : Nat
  /-- The session object as it is when the entry is deleted. -/
  released : Option Session

/-- The number of warnings logged for one `delete()` call: errors other than
code 10008 are logged. -/
def deleteWarnings (msg : Option Message) (answer : Option ApiError) : Nat :=
  match msg, answer with
  | some _, some ApiError.unknownMessage => 0
  | some _, some _ => 1
  | _, _ => 0

/-- The statement `if (playerData.timeoutId) clearTimeout(playerData.timeoutId)`
as a list of calls. -/
def clearStored (timeoutId : Option Timeout) : List CleanupAction :=
  match timeoutId with
  | some t => [CleanupAction.clearTimeout t]
  | none => []

/-- The deletion of a stored message as a list of calls. -/
def deleteStored (msg : Option Message) : List CleanupAction :=
  match msg with
  | some m => [CleanupAction.deleteMessage m]
  | none => []

/-- The function `startInactivityTimer` (lines 282-292) on a session, with the
calls it makes. -/
def armTimer (handle : Nat) (playerData : Session) : Session × List CleanupAction :=
  (startInactivityTimerOn handle INACTIVITY_TIMEOUT_MS playerData,
    clearStored playerData.timeoutId ++
      [CleanupAction.setTimeout { handle := handle, ms := INACTIVITY_TIMEOUT_MS }])

/-- Where a run of `playNextSong` waits when the part before its first `await`
is over. -/
inductive Suspended where
  /-- No run is waiting: none was started, or it returned at the entry guard. -/
  | nothing
  /-- At `await oldNpMsg.delete()` (line 311). -/
  | atDelete
  /-- At `await updateQueueMessage(guildId)` (line 337): nothing was selected. -/
  | atQueueMessage
  /-- In the `try` block at `await entersState(...)` (line 367), with the song
  that was selected. -/
  | atStart (song : Track)
deriving DecidableEq, Repr

/-- The part of `playNextSong` before its first `await` (lines 298-367): the
entry guard, the lock, the timer, and the taking of the now-playing message; when
there is no such message also the selection, and for a selected song the call
`player.play(resource)`, which puts the player into Buffering. -/
def playNextSongBegin (playerData : Session) : Suspended × Session × List CleanupAction :=
  if playerData.lockPlay || playerData.player.isNone || playerData.connection.isNone then
    (Suspended.nothing, { playerData with lockPlay := false }, [])
  else
    let locked : Session :=
      { playerData with lockPlay := true, timeoutId := none, nowPlayingMessage := none }
    match playerData.nowPlayingMessage with
    | some oldNpMsg =>
      (Suspended.atDelete, locked,
        clearStored playerData.timeoutId ++ [CleanupAction.deleteMessage oldNpMsg])
    | none =>
      let selected := selectSong locked
      match selected.1 with
      | none =>
        (Suspended.atQueueMessage, { selected.2 with currentSong := none, lockPlay := false },
          clearStored playerData.timeoutId)
      | some songToPlay =>
        (Suspended.atStart songToPlay,
          { selected.2 with
            currentSong := some songToPlay,
            player := some { status := AudioPlayerStatus.Buffering,
                             resource := some { track := songToPlay,
                                                volumePercent := selected.2.volume } } },
          clearStored playerData.timeoutId)

/-- The part of a run of `playNextSong` after the point where it waited (lines
318-390), on the session as it is then and with the entry of the guild still in
the map. -/
def playNextSongRest (o : AdvanceOutcome) (point : Suspended) (playerData : Session) :
    Session × List CleanupAction :=
  match point with
  | Suspended.nothing => (playerData, [])
  | Suspended.atDelete =>
    let selected := selectSong playerData
    match selected.1 with
    | none =>
      let idle : Session := { selected.2 with currentSong := none, lockPlay := false }
      armTimer o.timerHandle (updateQueueMessageOn o.queueMessage idle)
    | some songToPlay =>
      ((playNextSongResume o songToPlay { selected.2 with currentSong := some songToPlay }).2, [])
  | Suspended.atQueueMessage =>
    armTimer o.timerHandle (updateQueueMessageOn o.queueMessage playerData)
  | Suspended.atStart songToPlay => ((playNextSongResume o songToPlay playerData).2, [])

/-- The call `playerData.player?.stop(true)` (line 238) with the listener it
wakes: a player that is not Idle enters Idle at once, and the listener of the
Idle event (lines 506-522) runs with the old state before `stop` returns; a call
of `playNextSong` by the listener runs up to its first `await`. -/
def stopForced (handle : Nat) (playerData : Session) :
    Suspended × Session × List CleanupAction :=
  match playerData.player with
  | none => (Suspended.nothing, playerData, [])
  | some player =>
    if player.status = AudioPlayerStatus.Idle then
      (Suspended.nothing, playerData, [CleanupAction.stopPlayer])
    else
      let stopped : Session :=
        { playerData with player := some { status := AudioPlayerStatus.Idle, resource := none } }
      match idleAction player.status (some stopped) with
      | IdleAction.nothing => (Suspended.nothing, stopped, [CleanupAction.stopPlayer])
      | IdleAction.startTimer =>
        (Suspended.nothing, (armTimer handle stopped).1,
          CleanupAction.stopPlayer :: (armTimer handle stopped).2)
      | IdleAction.playNext =>
        ((playNextSongBegin stopped).1, (playNextSongBegin stopped).2.1,
          CleanupAction.stopPlayer :: (playNextSongBegin stopped).2.2)

/-- A run of `cleanupGuild` that has reached its awaited deletions. -/
structure Teardown where
  /-- The session object `playerData`. -/
  session : Session
  /-- Where the run of `playNextSong` started by the Idle listener waits. -/
  run : Suspended
  /-- The calls made so far. -/
  actions : List CleanupAction
  /-- The message taken at line 241. -/
  npMsg : Option Message
  /-- The message taken at line 242. -/
  qMsg : Option Message

/-- The part of `cleanupGuild` before its awaited deletions (lines 237-246) on
the session found in the map: the stored timer is cleared, the player is stopped,
the two message references are taken and cleared. -/
def cleanupGuildEnter (handle : Nat) (playerData : Session) : Teardown :=
  { session :=
      { (stopForced handle playerData).2.1 with nowPlayingMessage := none, queueMessage := none },
    run := (stopForced handle playerData).1,
    actions := clearStored playerData.timeoutId ++ (stopForced handle playerData).2.2,
    npMsg := (stopForced handle playerData).2.1.nowPlayingMessage,
    qMsg := (stopForced handle playerData).2.1.queueMessage }

/-- The run of `playNextSong` started by the Idle listener comes to its end while
`cleanupGuild` awaits a deletion, when there is a deletion to await and the
answers arrive in that order. -/
def Teardown.settle (o : CleanupOutcome) (entered : Teardown) : Session × List CleanupAction :=
  if (entered.npMsg.isSome || entered.qMsg.isSome) && o.advanceFirst then
    playNextSongRest o.advance entered.run entered.session
  else (entered.session, [])

/-- The part of `cleanupGuild` after its awaited deletions (lines 264-272) on
the session as it is then.  A connection that is not destroyed is destroyed; it
reports Destroyed at once, and its listener (lines 465-472), finding the entry
still in the map, starts a second run of `cleanupGuild`, which runs up to its
own awaited deletions or, without any, to its end (its connection is destroyed
by then); then the entry is deleted. -/
def cleanupGuildFinish (o : CleanupOutcome) (playerData : Session) :
    Session × List CleanupAction :=
  match playerData.connection with
  | some c =>
    if c.status ≠ VoiceConnectionStatus.Destroyed then
      let destroyed : Session :=
        { playerData with
          connection := some { c with status := VoiceConnectionStatus.Destroyed } }
      let again := cleanupGuildEnter o.nestedHandle destroyed
      (again.session,
        CleanupAction.destroyConnection :: again.actions ++
          deleteStored again.npMsg ++ deleteStored again.qMsg ++
          [CleanupAction.deleteEntry, CleanupAction.deleteEntry])
    else (playerData, [CleanupAction.deleteEntry])
  | none => (playerData, [CleanupAction.deleteEntry])

/-- The function `cleanupGuild(guildId)` (lines 227-274) step by step, with the
listeners it wakes: what was done and the map afterwards. -/
def cleanupGuildRun (o : CleanupOutcome) (g : GuildId) (m : GuildMap) : CleanupReport × GuildMap :=
  match m g with
  | none => ({ actions := [], warnings := 0, released := none }, m)
  | some playerData =>
    let entered := cleanupGuildEnter o.advance.timerHandle playerData
    let settled := entered.settle o
    let finished := cleanupGuildFinish o settled.1
    ({ actions := entered.actions ++ deleteStored entered.npMsg ++ deleteStored entered.qMsg ++
         settled.2 ++ finished.2,
       warnings := deleteWarnings entered.npMsg o.npDelete
                    + deleteWarnings entered.qMsg o.queueDelete,
       released := some finished.1 },
      m.delete g)

/-! ## Further commands -/

/-- The edit of the now-playing message that follows a control action (for
example lines 921-929): it is attempted when a now-playing message and a current
song exist, and error 10008 clears the stored reference. -/
def refreshNowPlayingOn (edit : Option ApiError) (playerData : Session) : Session :=
  if playerData.nowPlayingMessage.isSome ∧ playerData.currentSong.isSome then
    match edit with
    | some ApiError.unknownMessage => { playerData with nowPlayingMessage := none }
    | _ => playerData
  else playerData

/-- What the `volume` command learns from its collaborators. -/
structure VolumeOutcome where
  /-- The value returned by `resource.volume.setVolumeLogarithmic(...)`, as a truth value. -/
  setVolume : Bool
  /-- The answer to the edit of the now-playing message; `none` is success. -/
  npEdit : Option ApiError

/-- Reply of the `volume` command. -/
inductive VolumeReply where
  /-- Reply "You need to be in a voice channel!" -/
  | notInVoiceChannel
  /-- Reply "The player is not active." -/
  | playerNotActive
  /-- Reply "You must be in the same voice channel as the bot." -/
  | wrongVoiceChannel
  /-- Reply "Current volume is <volume>%." -/
  | current (volume : Int)
  /-- Reply "Volume must be a number between 0 and 200." -/
  | invalidVolume
  /-- Reply "Could not set volume now. Is a song currently playing?" -/
  | couldNotSet
  /-- Reply "Volume set to <volume>%." -/
  | volumeSet (volume : Int)
deriving DecidableEq, Repr

/-- The command `volume.execute` (lines 881-930); `volumeArg` is `args[0]`. -/
def volumeExecute (o : VolumeOutcome) (voiceChannel : Option ChannelId)
    (volumeArg : Option String) (playerData : Option Session) : VolumeReply × Option Session :=
  match voiceChannel with
  | none => (VolumeReply.notInVoiceChannel, playerData)
  | some vc =>
    match playerData with
    | none => (VolumeReply.playerNotActive, playerData)
    | some pd =>
      match pd.player with
      | none => (VolumeReply.playerNotActive, playerData)
      | some player =>
        if some vc ≠ pd.connection.map (fun c => c.channelId) then
          (VolumeReply.wrongVoiceChannel, playerData)
        else if volumeArg = none ∨ volumeArg = some "" then
          (VolumeReply.current pd.volume, playerData)
        else
          match parseIntArg volumeArg with
          | none => (VolumeReply.invalidVolume, playerData)
          | some newVolume =>
            if newVolume < 0 ∨ newVolume > 200 then (VolumeReply.invalidVolume, playerData)
            else
              let stored : Session :=
                { pd with
                  volume := newVolume,
                  player := some { player with
                    resource := player.resource.map
                      (fun r => { r with volumePercent := newVolume }) } }
              if o.setVolume = false ∧ player.resource.isSome then
                (VolumeReply.couldNotSet, some stored)
              else
                (VolumeReply.volumeSet newVolume, some (refreshNowPlayingOn o.npEdit stored))

/-- Reply of the `clear` command. -/
inductive ClearReply where
  /-- Reply "You need to be in a voice channel!" -/
  | notInVoiceChannel
  /-- Reply "The player is not active." -/
  | playerNotActive
  /-- Reply "You must be in the same voice channel as the bot." -/
  | wrongVoiceChannel
  /-- Reply "The queue is already empty." -/
  | alreadyEmpty
  /-- Reply "Cleared <count> songs from the queue." -/
  | cleared (count : Nat)
deriving DecidableEq, Repr

/-- The command `clear.execute` (lines 998-1014). -/
def clearExecute (o : QueueMessageOutcome) (voiceChannel : Option ChannelId)
    (playerData : Option Session) : ClearReply × Option Session :=
  match voiceChannel with
  | none => (ClearReply.notInVoiceChannel, playerData)
  | some vc =>
    match playerData with
    | none => (ClearReply.playerNotActive, playerData)
    | some pd =>
      if pd.player.isNone then (ClearReply.playerNotActive, playerData)
      else if some vc ≠ pd.connection.map (fun c => c.channelId) then
        (ClearReply.wrongVoiceChannel, playerData)
      else if pd.queue.length = 0 then (ClearReply.alreadyEmpty, playerData)
      else
        (ClearReply.cleared pd.queue.length,
          some (updateQueueMessageOn o { pd with queue := [] }))

/-- The loop mode that follows the current one when the mode is toggled:
none, track, queue, none. -/
def nextLoopMode : LoopMode → LoopMode
  | LoopMode.none => LoopMode.track
  | LoopMode.track => LoopMode.queue
  | LoopMode.queue => LoopMode.none

/-- The new loop mode computed by `loop.execute` (lines 842-852); `modeArg` is
`args[0]?.toLowerCase()`. -/
def loopModeFromArg (modeArg : Option String) (current : LoopMode) : LoopMode :=
  match modeArg with
  | some mode =>
    if mode ∈ ["none", "off", "track", "song", "queue", "all"] then
      if mode ∈ ["track", "song"] then LoopMode.track
      else if mode ∈ ["queue", "all"] then LoopMode.queue
      else LoopMode.none
    else nextLoopMode current
  | none => nextLoopMode current

/-- Reply of the `loop` command. -/
inductive LoopReply where
  /-- Reply "You need to be in a voice channel!" -/
  | notInVoiceChannel
  /-- Reply "The player is not active." -/
  | playerNotActive
  /-- Reply "You must be in the same voice channel as the bot." -/
  | wrongVoiceChannel
  /-- Reply "Looping current track.", "Looping queue." or "Loop disabled." -/
  | loopSet (mode : LoopMode)
deriving DecidableEq, Repr

/-- The command `loop.execute` (lines 830-873). -/
def loopExecute (npEdit : Option ApiError) (voiceChannel : Option ChannelId)
    (modeArg : Option String) (playerData : Option Session) : LoopReply × Option Session :=
  match voiceChannel with
  | none => (LoopReply.notInVoiceChannel, playerData)
  | some vc =>
    match playerData with
    | none => (LoopReply.playerNotActive, playerData)
    | some pd =>
      if pd.player.isNone then (LoopReply.playerNotActive, playerData)
      else if some vc ≠ pd.connection.map (fun c => c.channelId) then
        (LoopReply.wrongVoiceChannel, playerData)
      else
        let newLoopMode := loopModeFromArg modeArg pd.loop
        (LoopReply.loopSet newLoopMode,
          some (refreshNowPlayingOn npEdit { pd with loop := newLoopMode }))

/-- Reply of the `skip` command. -/
inductive SkipReply where
  /-- Reply "You need to be in a voice channel!" -/
  | notInVoiceChannel
  /-- Reply "Nothing is playing to skip." -/
  | nothingPlaying
  /-- Reply "You must be in the same voice channel as the bot." -/
  | wrongVoiceChannel
  /-- Reply "Skipping <title>..."; the command then calls `player.stop()`. -/
  | skipping (song : Track)
deriving DecidableEq, Repr

/-- The command `skip.execute` (lines 637-651).  The command writes no field of
the session; after the reply `skipping` it calls `player.stop()`, and the player
reports Idle later on. -/
def skipExecute (voiceChannel : Option ChannelId) (playerData : Option Session) : SkipReply :=
  match voiceChannel with
  | none => SkipReply.notInVoiceChannel
  | some vc =>
    match playerData with
    | none => SkipReply.nothingPlaying
    | some pd =>
      match pd.player, pd.currentSong with
      | some _, some song =>
        if some vc ≠ pd.connection.map (fun c => c.channelId) then SkipReply.wrongVoiceChannel
        else SkipReply.skipping song
      | _, _ => SkipReply.nothingPlaying

/-- Reply of the `stop` command. -/
inductive StopReply where
  /-- Reply "You need to be in a voice channel!" -/
  | notInVoiceChannel
  /-- Reply "The bot is not in a voice channel or playing." -/
  | notConnected
  /-- Reply "You must be in the same voice channel as the bot." -/
  | wrongVoiceChannel
  /-- Reply "Stopping playback and leaving channel..." -/
  | stopping
deriving DecidableEq, Repr

/-- The command `stop.execute` (lines 659-674). -/
def stopExecute (voiceChannel : Option ChannelId) (g : GuildId) (m : GuildMap) :
    StopReply × GuildMap :=
  match voiceChannel with
  | none => (StopReply.notInVoiceChannel, m)
  | some vc =>
    match m g with
    | none => (StopReply.notConnected, m)
    | some currentPlayerData =>
      if some vc ≠ currentPlayerData.connection.map (fun c => c.channelId) then
        (StopReply.wrongVoiceChannel, m)
      else (StopReply.stopping, cleanupGuild g m)

/-- Reply of the `queue` command. -/
inductive QueueReply where
  /-- Reply "The queue is empty and nothing is playing." -/
  | nothingToShow
  /-- The queue message was sent, or sending it failed. -/
  | shown (msg : Option Message)
deriving DecidableEq, Repr

/-- The command `queue.execute` (lines 682-715); `channel` is `message.channel`
and `sent` the message produced by `message.channel.send`, `none` when it failed. -/
def queueExecute (sent : Option Message) (channel : ChannelId) (g : GuildId) (m : GuildMap) :
    QueueReply × GuildMap :=
  let ensured := ensurePlayerData g (some channel) m
  let reset : Session := { ensured.1 with queueMessage := none, queuePage := 0 }
  if reset.currentSong.isNone ∧ reset.queue.length = 0 then
    (QueueReply.nothingToShow, ensured.2.set g reset)
  else (QueueReply.shown sent, ensured.2.set g { reset with queueMessage := sent })

/-- Reply of the `nowplaying` command. -/
inductive NowPlayingReply where
  /-- Reply "Nothing is currently playing." -/
  | nothingPlaying
  /-- The now-playing message was sent, or sending it failed. -/
  | shown (msg : Option Message)
deriving DecidableEq, Repr

/-- The command `nowplaying.execute` (lines 723-752); `sent` is the message
produced by `message.channel.send`, `none` when it failed. -/
def nowplayingExecute (sent : Option Message) (playerData : Option Session) :
    NowPlayingReply × Option Session :=
  match playerData with
  | none => (NowPlayingReply.nothingPlaying, playerData)
  | some pd =>
    let cleared : Session := { pd with nowPlayingMessage := none }
    if cleared.currentSong.isNone ∨ cleared.player.isNone then
      (NowPlayingReply.nothingPlaying, some cleared)
    else (NowPlayingReply.shown sent, some { cleared with nowPlayingMessage := sent })

/-- What the `pause` and `resume` commands learn from their collaborators. -/
structure PauseOutcome where
  /-- The value returned by `player.pause()` or `player.unpause()`. -/
  accepted : Bool
  /-- The answer to the edit of the now-playing message; `none` is success. -/
  npEdit : Option ApiError

/-- Reply of the `pause` and `resume` commands. -/
inductive PauseReply where
  /-- Reply "You need to be in a voice channel!" -/
  | notInVoiceChannel
  /-- Reply "Nothing is playing to pause." or "The player is not active." -/
  | playerNotActive
  /-- Reply "You must be in the same voice channel as the bot." -/
  | wrongVoiceChannel
  /-- Reply "Playback is already paused." or "Playback is not paused." -/
  | alreadyThere
  /-- Reply "Playback paused." or "Playback resumed." -/
  | done
  /-- Reply "Could not pause playback." or "Could not resume playback." -/
  | failed
deriving DecidableEq, Repr

/-- The command `pause.execute` (lines 759-788). -/
def pauseExecute (o : PauseOutcome) (voiceChannel : Option ChannelId)
    (playerData : Option Session) : PauseReply × Option Session :=
  match voiceChannel with
  | none => (PauseReply.notInVoiceChannel, playerData)
  | some vc =>
    match playerData with
    | none => (PauseReply.playerNotActive, playerData)
    | some pd =>
      match pd.player, pd.currentSong with
      | some player, some _ =>
        if some vc ≠ pd.connection.map (fun c => c.channelId) then
          (PauseReply.wrongVoiceChannel, playerData)
        else if player.status = AudioPlayerStatus.Paused then (PauseReply.alreadyThere, playerData)
        else if o.accepted then
          (PauseReply.done,
            some (refreshNowPlayingOn o.npEdit
              { pd with player := some { player with status := AudioPlayerStatus.Paused } }))
        else (PauseReply.failed, playerData)
      | _, _ => (PauseReply.playerNotActive, playerData)

/-- The command `resume.execute` (lines 796-822). -/
def resumeExecute (o : PauseOutcome) (voiceChannel : Option ChannelId)
    (playerData : Option Session) : PauseReply × Option Session :=
  match voiceChannel with
  | none => (PauseReply.notInVoiceChannel, playerData)
  | some vc =>
    match playerData with
    | none => (PauseReply.playerNotActive, playerData)
    | some pd =>
      match pd.player with
      | none => (PauseReply.playerNotActive, playerData)
      | some player =>
        if some vc ≠ pd.connection.map (fun c => c.channelId) then
          (PauseReply.wrongVoiceChannel, playerData)
        else if player.status ≠ AudioPlayerStatus.Paused then (PauseReply.alreadyThere, playerData)
        else if o.accepted then
          (PauseReply.done,
            some (refreshNowPlayingOn o.npEdit
              { pd with player := some { player with status := AudioPlayerStatus.Playing } }))
        else (PauseReply.failed, playerData)

/-! ## The queue display and its page cursor -/

/-- The number of pages of the queue display,
`Math.max(1, Math.ceil(queue.length / 10))` (lines 111, 400, 1145). -/
def totalPages (queueLength : Nat) : Int :=
  max 1 (((queueLength + 9) / 10 : Nat) : Int)

/-- The page number after the clamp of `createQueueEmbed` (line 112),
`Math.max(0, Math.min(currentPage, totalPages - 1))`. -/
def clampPage (currentPage : Int) (pages : Int) : Int :=
  max 0 (min currentPage (pages - 1))

/-- The page that `createQueueEmbed(guildId, playerData.queuePage)` renders
(lines 111-116): the stored cursor, clamped in a local variable. -/
def shownPage (playerData : Session) : Int :=
  clampPage playerData.queuePage (totalPages playerData.queue.length)

/-- The two buttons made by `createQueueButtons` (lines 173-186): their custom
ids and whether they are disabled. -/
structure QueueButtons where
  prevId : String
  nextId : String
  prevDisabled : Bool
  nextDisabled : Bool
deriving DecidableEq, Repr

/-- The function `createQueueButtons(currentPage, totalPages)` (lines 173-186). -/
def createQueueButtons (currentPage : Int) (pages : Int) : QueueButtons where
  prevId := "queue_prev_" ++ showInt currentPage
  nextId := "queue_next_" ++ showInt currentPage
  prevDisabled := decide (currentPage = 0)
  nextDisabled := decide (currentPage ≥ pages - 1)

/-- The method `split("_")` on the characters of a string. -/
def splitUnderscore : List Char → List (List Char)
  | [] => [[]]
  | c :: rest =>
    if c = '_' then [] :: splitUnderscore rest
    else
      match splitUnderscore rest with
      | part :: parts => (c :: part) :: parts
      | [] => [[c]]

/-- The characters of a decimal numeral: the decimal digits. -/
def IsDigitChar (c : Char) : Prop := ∃ d : Fin 10, c = Nat.digitChar d.val

/-- Whether the characters `start` begin the string `s`, the method `startsWith`. -/
def startsWith (s : String) (start : String) : Bool :=
  s.toList.take start.length == start.toList

/-- The argument passed to `setVolumeLogarithmic` for a resource: the volume
percentage divided by 100. -/
def Resource.logarithmicVolume (r : Resource) : ℚ :=
  (r.volumePercent : ℚ) / 100

/-! ## Button interactions -/

/-- What the handler of `interactionCreate` reads from a button click. -/
structure Interaction where
  /-- The custom id of the clicked button. -/
  customId : String
  /-- The id of the message that carries the button. -/
  messageId : Nat
  /-- The id of `interaction.member?.voice?.channel`. -/
  memberVoiceChannel : Option ChannelId

/-- What the handler of `interactionCreate` learns from its collaborators. -/
structure InteractionOutcome where
  /-- The call `interaction.deferUpdate()` succeeded. -/
  deferUpdate : Bool
  queueMessage : QueueMessageOutcome
  /-- The value returned by `player.pause()` or `player.unpause()`. -/
  accepted : Bool
  /-- The answer to the edit of the now-playing message; `none` is success. -/
  npEdit : Option ApiError

/-- How the handler of `interactionCreate` ended. -/
inductive InteractionReply where
  /-- Reply "This music session has ended." -/
  | sessionEnded
  /-- Reply "You must be in the same voice channel as the bot to use player controls." -/
  | notInVoiceChannel
  /-- Reply "This queue message is outdated." -/
  | queueOutdated
  /-- Reply "This now playing message is outdated." -/
  | nowPlayingOutdated
  /-- The call `deferUpdate` failed and the handler returned. -/
  | deferFailed
  /-- The page in the button id is not the current page; the click is ignored. -/
  | staleIgnored
  /-- The queue button was handled and the queue message refreshed. -/
  | pageTurned
  /-- The message was edited to "Playback has ended." -/
  | playbackEnded
  /-- The skip button: `player.stop()` is called. -/
  | skipping
  /-- The stop button: `cleanupGuild` is called. -/
  | stopping
  /-- A control button was handled and the now-playing message refreshed. -/
  | controlDone
  /-- The button is neither a queue button nor a control button. -/
  | ignored
deriving DecidableEq, Repr

/-- The direction named by a queue button id: `customId.split("_")[1]`. -/
def buttonDirection (customId : String) : Option String :=
  ((splitUnderscore customId.toList)[1]?).map String.mk

/-- The page number carried by a queue button id:
`parseInt(customId.split("_")[2], 10)`. -/
def buttonPage (customId : String) : Option Int :=
  parseIntArg (((splitUnderscore customId.toList)[2]?).map String.mk)

/-- The queue button logic of `interactionCreate` (lines 1134-1153) on the
session found in the map. -/
def queueButtonOn (customId : String) (o : QueueMessageOutcome) (playerData : Session) :
    InteractionReply × Session :=
  if buttonPage customId ≠ some playerData.queuePage then
    (InteractionReply.staleIgnored, playerData)
  else
    let pages := totalPages playerData.queue.length
    let turned : Session :=
      if buttonDirection customId = some "next" then
        { playerData with queuePage := min (pages - 1) (playerData.queuePage + 1) }
      else if buttonDirection customId = some "prev" then
        { playerData with queuePage := max 0 (playerData.queuePage - 1) }
      else playerData
    (InteractionReply.pageTurned, updateQueueMessageOn o turned)

/-- The now-playing button logic of `interactionCreate` (lines 1156-1212). -/
def controlButton (customId : String) (o : InteractionOutcome) (g : GuildId) (m : GuildMap)
    (playerData : Session) : InteractionReply × GuildMap :=
  match playerData.player, playerData.currentSong with
  | some player, some _ =>
    if customId = "np_skip" then (InteractionReply.skipping, m)
    else if customId = "np_stop" then (InteractionReply.stopping, cleanupGuild g m)
    else
      let acted : Session :=
        if customId = "np_pause_resume" then
          if player.status = AudioPlayerStatus.Paused then
            if o.accepted then
              { playerData with player := some { player with status := AudioPlayerStatus.Playing } }
            else playerData
          else if player.status = AudioPlayerStatus.Playing then
            if o.accepted then
              { playerData with player := some { player with status := AudioPlayerStatus.Paused } }
            else playerData
          else playerData
        else if customId = "np_loop" then { playerData with loop := nextLoopMode playerData.loop }
        else playerData
      (InteractionReply.controlDone, m.set g (refreshNowPlayingOn o.npEdit acted))
  | _, _ => (InteractionReply.playbackEnded, m)

/-- The handler of `interactionCreate` for a button click in a guild (lines 1083-1221). -/
def interactionCreate (i : Interaction) (o : InteractionOutcome) (g : GuildId) (m : GuildMap) :
    InteractionReply × GuildMap :=
  match m g with
  | none => (InteractionReply.sessionEnded, m)
  | some playerData =>
    let isControlAction := startsWith i.customId "np_"
    let isQueueAction := startsWith i.customId "queue_"
    if isControlAction ∧
        (i.memberVoiceChannel = none ∨
          i.memberVoiceChannel ≠ playerData.connection.map (fun c => c.channelId)) then
      (InteractionReply.notInVoiceChannel, m)
    else if isQueueAction ∧
        playerData.queueMessage.map (fun msg => msg.id) ≠ some i.messageId then
      (InteractionReply.queueOutdated, m)
    else if isControlAction ∧
        playerData.nowPlayingMessage.map (fun msg => msg.id) ≠ some i.messageId then
      (InteractionReply.nowPlayingOutdated, m)
    else if o.deferUpdate = false then (InteractionReply.deferFailed, m)
    else if isQueueAction then
      ((queueButtonOn i.customId o.queueMessage playerData).1,
        m.set g (queueButtonOn i.customId o.queueMessage playerData).2)
    else if isControlAction then controlButton i.customId o g m playerData
    else (InteractionReply.ignored, m)

/-! ## Events -/

/-- The listener of the player `error` event (lines 524-533): the current song
is dropped; a call of `playNextSong` follows after 500 ms. -/
def playerError (g : GuildId) (m : GuildMap) : GuildMap :=
  match m g with
  | none => m
  | some currentPlayerData => m.set g { currentPlayerData with currentSong := none }

/-- The callback of the inactivity timer (lines 285-292). -/
def inactivityTimeout (g : GuildId) (m : GuildMap) : GuildMap :=
  match m g with
  | none => m
  | some currentData =>
    match currentData.connection with
    | some c => if c.status ≠ VoiceConnectionStatus.Destroyed then cleanupGuild g m else m
    | none => m

/-- The listeners of the connection events Destroyed and Disconnected without
recovery (lines 465-490): the guild is cleaned up when it still has a session. -/
def connectionLost (g : GuildId) (m : GuildMap) : GuildMap :=
  if m.has g then cleanupGuild g m else m

/-- What the handler of `voiceStateUpdate` reads from the event. -/
structure VoiceStateUpdate where
  /-- The member is the bot itself. -/
  isBot : Bool
  /-- The value of `oldState.channelId`. -/
  oldChannel : Option ChannelId
  /-- The value of `newState.channelId`. -/
  newChannel : Option ChannelId
  /-- The channel is known and has no member left that is not a bot. -/
  noHumansLeft : Bool

/-- The handler of `voiceStateUpdate` (lines 1224-1269); `handle` is the handle
of the timer it may start. -/
def voiceStateUpdate (u : VoiceStateUpdate) (handle : Nat) (g : GuildId) (m : GuildMap) :
    GuildMap :=
  if u.isBot then
    if u.newChannel = none ∧ u.oldChannel ≠ none then
      if m.has g then cleanupGuild g m else m
    else m
  else
    match m g with
    | none => m
    | some playerData =>
      match playerData.connection with
      | none => m
      | some c =>
        if c.status = VoiceConnectionStatus.Destroyed then m
        else if u.oldChannel = some c.channelId ∧ u.newChannel ≠ some c.channelId then
          if u.noHumansLeft then startInactivityTimer handle EMPTY_CHANNEL_TIMEOUT_MS g m else m
        else if u.newChannel = some c.channelId ∧ u.oldChannel ≠ some c.channelId then
          if playerData.timeoutId.isSome then m.set g { playerData with timeoutId := none } else m
        else m

/-! ## Reachable states -/

/-- The map after a command that works on the session found in the map. -/
def GuildMap.put (m : GuildMap) (g : GuildId) (after : Option Session) : GuildMap :=
  match after with
  | some s => m.set g s
  | none => m

/-- One handler of the bot runs for a guild, or the player or the connection of
a guild changes its state on its own. -/
inductive Step : GuildMap → GuildMap → Prop where
  | play (req : PlayRequest) (o : PlayOutcome) (g : GuildId) (m : GuildMap) :
      Step m (playExecute req o g m).2
  | stop (vc : Option ChannelId) (g : GuildId) (m : GuildMap) :
      Step m (stopExecute vc g m).2
  | queue (sent : Option Message) (channel : ChannelId) (g : GuildId) (m : GuildMap) :
      Step m (queueExecute sent channel g m).2
  | nowplaying (sent : Option Message) (g : GuildId) (m : GuildMap) :
      Step m (m.put g (nowplayingExecute sent (m g)).2)
  | pause (o : PauseOutcome) (vc : Option ChannelId) (g : GuildId) (m : GuildMap) :
      Step m (m.put g (pauseExecute o vc (m g)).2)
  | resume (o : PauseOutcome) (vc : Option ChannelId) (g : GuildId) (m : GuildMap) :
      Step m (m.put g (resumeExecute o vc (m g)).2)
  | loop (npEdit : Option ApiError) (vc : Option ChannelId) (modeArg : Option String)
      (g : GuildId) (m : GuildMap) :
      Step m (m.put g (loopExecute npEdit vc modeArg (m g)).2)
  | volume (o : VolumeOutcome) (vc : Option ChannelId) (volumeArg : Option String)
      (g : GuildId) (m : GuildMap) :
      Step m (m.put g (volumeExecute o vc volumeArg (m g)).2)
  | shuffle (draws : Draws) (o : QueueMessageOutcome) (vc : Option ChannelId)
      (g : GuildId) (m : GuildMap) :
      Step m (m.put g (shuffleExecute draws o vc (m g)).2)
  | remove (o : QueueMessageOutcome) (vc : Option ChannelId) (positionArg : Option String)
      (g : GuildId) (m : GuildMap) :
      Step m (m.put g (removeExecute o vc positionArg (m g)).2)
  | clear (o : QueueMessageOutcome) (vc : Option ChannelId) (g : GuildId) (m : GuildMap) :
      Step m (m.put g (clearExecute o vc (m g)).2)
  | button (i : Interaction) (o : InteractionOutcome) (g : GuildId) (m : GuildMap) :
      Step m (interactionCreate i o g m).2
  | playNext (o : AdvanceOutcome) (g : GuildId) (m : GuildMap) :
      Step m (playNextSong o g m).2
  | playerIdle (oldStatus : AudioPlayerStatus) (o : AdvanceOutcome) (g : GuildId) (m : GuildMap) :
      Step m (playerIdle oldStatus o g m)
  | playerError (g : GuildId) (m : GuildMap) :
      Step m (playerError g m)
  | timeout (g : GuildId) (m : GuildMap) :
      Step m (inactivityTimeout g m)
  | connectionLost (g : GuildId) (m : GuildMap) :
      Step m (connectionLost g m)
  | voiceState (u : VoiceStateUpdate) (handle : Nat) (g : GuildId) (m : GuildMap) :
      Step m (voiceStateUpdate u handle g m)
  | playerState (p : Player) (g : GuildId) (m : GuildMap) (s : Session) :
      m g = some s → s.player.isSome = true →
      Step m (m.set g { s with player := some p })
  | connectionState (status : VoiceConnectionStatus) (g : GuildId) (m : GuildMap)
      (s : Session) (c : Connection) :
      m g = some s → s.connection = some c →
      Step m (m.set g { s with connection := some { c with status := status } })

/-- The maps that the bot can reach from the empty map. -/
inductive Reachable : GuildMap → Prop where
  | start : Reachable GuildMap.empty
  | step (m after : GuildMap) : Reachable m → Step m after → Reachable after

/-- The volume of the session lies between 0 and 200 and its page cursor is not
negative. -/
def Session.Bounded (s : Session) : Prop :=
  0 ≤ s.volume ∧ s.volume ≤ 200 ∧ 0 ≤ s.queuePage

/-- The stored page cursor is a page of the queue display:
`0 ≤ queuePage ≤ totalPages - 1`. -/
def Session.PageValid (s : Session) : Prop :=
  0 ≤ s.queuePage ∧ s.queuePage ≤ totalPages s.queue.length - 1

/-- Every session of the map is bounded. -/
def AllBounded (m : GuildMap) : Prop := ∀ k s, m k = some s → s.Bounded

/-! ## The parts of `play.execute` by name -/

/-- The test of line 454: there is no connection, or it is destroyed. -/
def mustJoin (playerData : Session) : Bool :=
  match playerData.connection with
  | none => true
  | some c => decide (c.status = VoiceConnectionStatus.Destroyed)

/-- The session after lines 454-498 when joining succeeded or was not needed. -/
def joinedSession (vc : ChannelId) (playerData : Session) : Session :=
  if mustJoin playerData then
    { playerData with
      connection := some { status := VoiceConnectionStatus.Ready, channelId := vc } }
  else playerData

/-- The test of line 536: there is a connection and it is not destroyed. -/
def connectionValid (joined : Session) : Bool :=
  match joined.connection with
  | none => false
  | some c => decide (c.status ≠ VoiceConnectionStatus.Destroyed)

/-- The session after lines 501-543: a player is created when there was none. -/
def equippedSession (joined : Session) : Session :=
  if joined.player.isNone then
    { joined with player := some { status := AudioPlayerStatus.Idle, resource := none } }
  else joined

/-- A run of `playNextSong` on the queue `[A, B]` that has selected A and waits
for the player. -/
def sampleInFlight : InFlight where
  session :=
    (playNextSongEnter sampleStart
      (sampleSession [sampleTrackA, sampleTrackB] none LoopMode.none)).2
  suspended := [sampleTrackA]

/-- A run of `playNextSong` in which starting the song fails and the player is
left idle. -/
def sampleFailure : AdvanceOutcome where
  start := StartOutcome.failed { status := AudioPlayerStatus.Idle, resource := none }
  queueMessage := sampleChat
  timerHandle := 1

/-- A run of `cleanupGuild` in which both message deletions succeed and are
answered before the awaited calls of a run of `playNextSong` started meanwhile. -/
def sampleCleanup : CleanupOutcome where
  npDelete := none
  queueDelete := none
  advance := sampleStart
  advanceFirst := false
  nestedHandle := 3

/-- A run of `cleanupGuild` like `sampleCleanup` in which the awaited calls of
the run of `playNextSong` started meanwhile are answered first. -/
def sampleTeardown : CleanupOutcome :=
  { sampleCleanup with advanceFirst := true }

/-- The songs numbered `0` to `n - 1`, told apart by the requesting user. -/
def sampleQueue (n : Nat) : List Track :=
  (List.range n).map (fun k => { sampleTrackA with requestedBy := k })

/-- A streaming session with the given queue whose queue message is message 2. -/
def sampleShown (queue : List Track) : Session :=
  { sampleStreaming queue with queueMessage := some { id := 2 } }

/-- A click on a button of message 2 by a member sitting in voice channel 5. -/
def sampleClick (customId : String) : Interaction where
  customId := customId
  messageId := 2
  memberVoiceChannel := some 5

/-- A button click in which every call to a collaborator succeeds. -/
def sampleHandled : InteractionOutcome where
  deferUpdate := true
  queueMessage := sampleChat
  accepted := true
  npEdit := none

/-- A run of the `volume` command in which every call to a collaborator succeeds. -/
def sampleVolume : VolumeOutcome where
  setVolume := true
  npEdit := none

/-- The `play` command of `sampleRequest`, sent from text channel 8 instead. -/
def sampleRequestElsewhere : PlayRequest :=
  { sampleRequest with channel := 8 }

/-- A map in which guild 0 is streaming with 100 songs queued; its text channel is 9. -/
def sampleFullMap : GuildMap :=
  GuildMap.empty.set 0 (sampleStreaming (List.replicate 100 sampleTrackA))

/-- A click on a button of message 2 by a member sitting in voice channel 6. -/
def sampleOutsider (customId : String) : Interaction :=
  { sampleClick customId with memberVoiceChannel := some 6 }

/-- A run of `pause` or `resume` in which every call to a collaborator succeeds. -/
def samplePause : PauseOutcome where
  accepted := true
  npEdit := none

/-- The map after a first `play` command in guild 0. -/
def samplePlayedMap : GuildMap :=
  (playExecute sampleRequest samplePlay 0 GuildMap.empty).2

/-- The map after a first `play` command in guild 0 followed by `volume 150`. -/
def sampleTunedMap : GuildMap :=
  samplePlayedMap.put 0
    (volumeExecute sampleVolume (some 5) (some "150") (samplePlayedMap 0)).2

/-- The session `sampleShown (sampleQueue 11)` after a click on the button "next"
of page 0. -/
def sampleTurned : Session :=
  (queueButtonOn "queue_next_0" sampleChat (sampleShown (sampleQueue 11))).2

/-- The map in which guild 0 holds the given session and no other guild has one. -/
def sampleMapOf (s : Session) : GuildMap :=
  GuildMap.empty.set 0 s

/-! ## The progress bar -/

/-- The function `Math.round`: the nearest integer, a half rounded up. -/
def mathRound (x : ℚ) : Int := ⌊x + 1 / 2⌋

/-- The method `String.prototype.repeat(count)` for a whole number `count`: a
negative count raises a `RangeError`. -/
def jsRepeat (s : String) (count : Int) : Except String String :=
  if count < 0 then Except.error "RangeError: Invalid count value"
  else Except.ok (String.join (List.replicate count.toNat s))

/-- The bar returned by `createProgressBar` when there is no total duration or
the elapsed time is negative (line 139). -/
def defaultProgressBar : String := "`[──────────────────]`"

/-- The values `progress` and `emptyProgress` of `createProgressBar` (lines
140-143).  JavaScript numbers are doubles: `fl` is the rounding applied to the
result of the division and of the multiplication, the identity when both are
exact; the product `totalSeconds * 1000` of whole numbers is exact. -/
def progressCells (fl : ℚ → ℚ) (currentMs totalSeconds barLength : Int) : Int × Int :=
  let totalMs : Int := totalSeconds * 1000
  let percentage : ℚ := min 1 (max 0 (fl ((currentMs : ℚ) / (totalMs : ℚ))))
  let progress : Int := mathRound (fl ((barLength : ℚ) * percentage))
  let emptyProgress : Int := barLength - progress
  (progress, emptyProgress)

/-- The function `createProgressBar(currentMs, totalSeconds, barLength)` (lines
138-151); `totalSeconds = none` is `NaN` or an absent value, and the callers
leave `barLength` at its default 15. -/
def createProgressBar (fl : ℚ → ℚ) (currentMs : Int) (totalSeconds : Option Int)
    (barLength : Int) : Except String String :=
  match totalSeconds with
  | none => Except.ok defaultProgressBar
  | some total =>
    if total = 0 ∨ currentMs < 0 then Except.ok defaultProgressBar
    else
      match jsRepeat "🔘" (progressCells fl currentMs total barLength).1 with
      | Except.error e => Except.error e
      | Except.ok progressText =>
        match jsRepeat "─" (progressCells fl currentMs total barLength).2 with
        | Except.error e => Except.error e
        | Except.ok emptyProgressText =>
          let currentTimeStr := formatDuration (some ⌊fl ((currentMs : ℚ) / 1000)⌋)
          let totalTimeStr := formatDuration (some total)
          Except.ok ("`[" ++ currentTimeStr ++ " / " ++ totalTimeStr ++ "] [" ++
            progressText ++ emptyProgressText ++ "]`")

/-! ## A player error followed by the Idle report -/

/-- The player of the guild enters Idle on its own and drops its resource, as it
does after it has reported an error of its stream. -/
def playerEntersIdle (g : GuildId) (m : GuildMap) : GuildMap :=
  match m g with
  | none => m
  | some playerData =>
    match playerData.player with
    | none => m
    | some _ =>
      m.set g { playerData with
                player := some { status := AudioPlayerStatus.Idle, resource := none } }

/-- The video that the second sample query resolves to. -/
def sampleVideoB : VideoDetails where
  title := "B"
  video_url := "https://youtu.be/b"
  thumbnail := none
  lengthSeconds := "200"
  isLiveContent := false

/-- A `play` command like `sampleRequest` sent by user 2. -/
def sampleRequestB : PlayRequest :=
  { sampleRequest with query := "b", author := 2 }

/-- A run of `play.execute` like `samplePlay` whose search finds video B. -/
def samplePlayB : PlayOutcome :=
  { samplePlay with search := SearchOutcome.found (some sampleVideoB) }

/-- A run of `playNextSong` like `sampleStart` whose timer gets handle 2. -/
def sampleLaterStart : AdvanceOutcome :=
  { sampleStart with timerHandle := 2 }

/-- Guild 0 after two `play` commands: song A is playing and song B is queued. -/
def sampleQueuedMap : GuildMap :=
  (playExecute sampleRequestB samplePlayB 0 samplePlayedMap).2

/-- The map `sampleQueuedMap` after the player of guild 0 has reported an error
and has entered Idle, and the listener of the Idle event has run. -/
def sampleRecovered : GuildMap :=
  playerIdle AudioPlayerStatus.Playing sampleStart 0
    (playerEntersIdle 0 (playerError 0 sampleQueuedMap))

/-- The map `sampleRecovered` after the call of `playNextSong` that the listener
of the error event scheduled (line 532). -/
def sampleRetried : GuildMap :=
  (playNextSong sampleLaterStart 0 sampleRecovered).2

/-! ## The two parts of `play.execute` -/

/-- The part of `play.execute` before the song is pushed (lines 431-594): the
caller checks, `ensurePlayerData`, the queue-full check of line 449, joining the
voice channel, creating the player, and the search.  The result is the reply
that ends the command, or the song that was resolved. -/
def playResolve (req : PlayRequest) (o : PlayOutcome) (g : GuildId) (m : GuildMap) :
    Except PlayReply Track × GuildMap :=
  if req.query = "" then (Except.error PlayReply.usage, m)
  else
    match req.voiceChannel with
    | none => (Except.error PlayReply.notInVoiceChannel, m)
    | some vc =>
      if req.canConnect = false then (Except.error PlayReply.missingConnect, m)
      else if req.canSpeak = false then (Except.error PlayReply.missingSpeak, m)
      else
        let ensured := ensurePlayerData g (some req.channel) m
        let playerData := ensured.1
        if playerData.queue.length ≥ MAX_QUEUE_SIZE then
          (Except.error PlayReply.queueFull, ensured.2)
        else if mustJoin playerData ∧ o.joinReady = false then
          (Except.error PlayReply.joinFailed, cleanupGuild g ensured.2)
        else
          let joined := joinedSession vc playerData
          if joined.player.isNone ∧ connectionValid joined = false then
            (Except.error PlayReply.internalError, cleanupGuild g (ensured.2.set g joined))
          else
            let m1 := ensured.2.set g (equippedSession joined)
            if o.searchReply = false then (Except.error PlayReply.commandError, m1)
            else (resolveSong req o, m1)

/-- The part of `play.execute` after the search (lines 596-617) for the result
of the first part. -/
def playFinish (resolved : Except PlayReply Track) (o : PlayOutcome) (g : GuildId)
    (m : GuildMap) : PlayReply × GuildMap :=
  match resolved with
  | Except.error r => (r, m)
  | Except.ok song => playEnqueue song o g m

/-- Two `play` commands for one guild whose searches overlap: the first part of
the first command runs, then the first part of the second, and when the searches
have answered the first command pushes its song and then the second. -/
def playOverlapped (g : GuildId) (first second : PlayRequest × PlayOutcome) (m : GuildMap) :
    List PlayReply × GuildMap :=
  let a := playResolve first.1 first.2 g m
  let b := playResolve second.1 second.2 g a.2
  let c := playFinish a.1 first.2 g b.2
  let d := playFinish b.1 second.2 g c.2
  ([c.1, d.1], d.2)

/-! ## Pending inactivity timers -/

/-- The inactivity callbacks set with `setTimeout` (line 285) that have neither
fired nor been cleared: the handle of each and the guild its callback looks up. -/
abbrev Timers := List (Nat × GuildId)

/-- The statement `if (playerData.timeoutId) clearTimeout(playerData.timeoutId)`
(lines 237, 282, 304 and 1265). -/
def clearTimeout (timeoutId : Option Timeout) (timers : Timers) : Timers :=
  match timeoutId with
  | some t => timers.filter (fun p => decide (p.1 ≠ t.handle))
  | none => timers

/-- The call `setTimeout(...)` of line 285 for the guild, answered with `handle`. -/
def setTimeout (handle : Nat) (g : GuildId) (timers : Timers) : Timers :=
  timers ++ [(handle, g)]

/-- The handles of the pending inactivity callbacks of a guild. -/
def pendingFor (g : GuildId) (timers : Timers) : List Nat :=
  (timers.filter (fun p => decide (p.2 = g))).map (fun p => p.1)

/-- The map of sessions together with the pending inactivity timers. -/
structure World where
  sessions : GuildMap
  timers : Timers

/-- The function `startInactivityTimer(guildId, timeoutMs)` (lines 278-293) with
its timer calls: the stored timer is cleared and a new one is set. -/
def startInactivityTimerIn (handle : Nat) (timeoutMs : Nat) (g : GuildId) (w : World) : World :=
  match w.sessions g with
  | none => w
  | some playerData =>
    { sessions := startInactivityTimer handle timeoutMs g w.sessions,
      timers := setTimeout handle g (clearTimeout playerData.timeoutId w.timers) }

/-- The function `playNextSong(guildId)` (lines 296-391) with its timer calls:
past the entry guard the stored timer is cleared (line 304), and when nothing is
selected `startInactivityTimer` sets a new one (line 338). -/
def playNextSongIn (o : AdvanceOutcome) (g : GuildId) (w : World) : World :=
  match w.sessions g with
  | none => w
  | some playerData =>
    if playerData.lockPlay || playerData.player.isNone || playerData.connection.isNone then
      { w with sessions := (playNextSong o g w.sessions).2 }
    else
      let cleared := clearTimeout playerData.timeoutId w.timers
      { sessions := (playNextSong o g w.sessions).2,
        timers :=
          match (playNextSong o g w.sessions).1 with
          | PlayNextResult.queueEmpty => setTimeout o.timerHandle g cleared
          | _ => cleared }

/-- The timer calls among the calls of a run of `cleanupGuild`, applied in order
to the pending timers: `clearTimeout` takes the timer out, `setTimeout` adds the
new timer for the guild. -/
def applyTimerCalls (g : GuildId) (actions : List CleanupAction) (timers : Timers) : Timers :=
  actions.foldl
    (fun pending action =>
      match action with
      | CleanupAction.clearTimeout t => clearTimeout (some t) pending
      | CleanupAction.setTimeout t => setTimeout t.handle g pending
      | _ => pending)
    timers

/-- The function `cleanupGuild(guildId)` (lines 227-274) with the timer calls
made until the entry is deleted. -/
def cleanupGuildIn (o : CleanupOutcome) (g : GuildId) (w : World) : World :=
  { sessions := (cleanupGuildRun o g w.sessions).2,
    timers := applyTimerCalls g (cleanupGuildRun o g w.sessions).1.actions w.timers }

/-- The voice connection of the guild enters Destroyed without a call of
`cleanupGuild` having destroyed it, and its listener (lines 465-472) runs: the
guild is cleaned up when it still has a session. -/
def connectionDestroyedIn (o : CleanupOutcome) (g : GuildId) (w : World) : World :=
  match w.sessions g with
  | none => w
  | some playerData =>
    match playerData.connection with
    | none => w
    | some c =>
      cleanupGuildIn o g
        { w with
          sessions := w.sessions.set g
            { playerData with
              connection := some { c with status := VoiceConnectionStatus.Destroyed } } }

/-- The listener of the player Idle event (lines 506-522) with its timer calls. -/
def playerIdleIn (oldStatus : AudioPlayerStatus) (o : AdvanceOutcome) (g : GuildId)
    (w : World) : World :=
  match idleAction oldStatus (w.sessions g) with
  | IdleAction.nothing => w
  | IdleAction.playNext => playNextSongIn o g w
  | IdleAction.startTimer => startInactivityTimerIn o.timerHandle INACTIVITY_TIMEOUT_MS g w

/-- The end of `play.execute` (lines 596-617) with its timer calls. -/
def playEnqueueIn (song : Track) (o : PlayOutcome) (g : GuildId) (w : World) :
    PlayReply × World :=
  match w.sessions g with
  | none => (PlayReply.sessionExpired, w)
  | some currentPlayerData =>
    let pushed : Session := enqueueSong song currentPlayerData
    let queuePosition := (if pushed.currentSong.isSome then 1 else 0) + pushed.queue.length
    let shown := updateQueueMessageOn o.queueMessage pushed
    let w1 : World := { w with sessions := w.sessions.set g shown }
    if shown.player.map (fun p => p.status) = some AudioPlayerStatus.Idle ∧
        shown.lockPlay = false then
      (PlayReply.added queuePosition song, playNextSongIn o.advance g w1)
    else (PlayReply.added queuePosition song, w1)

/-- The command `play.execute` (lines 431-629) with its timer calls, for a
request that gets as far as the search: the end of the command may call
`playNextSong`; the replies before the search that do not call `cleanupGuild`
make no timer call.  The two replies that follow a call of `cleanupGuild` (lines
495 and 540) are not covered: the result is `none`. -/
def playExecuteIn (req : PlayRequest) (o : PlayOutcome) (g : GuildId) (w : World) :
    Option (PlayReply × World) :=
  match playResolve req o g w.sessions with
  | (Except.error PlayReply.joinFailed, _) => none
  | (Except.error PlayReply.internalError, _) => none
  | (Except.error r, m1) => some (r, { w with sessions := m1 })
  | (Except.ok song, m1) => some (playEnqueueIn song o g { w with sessions := m1 })

/-- The inactivity callback with the given handle fires (lines 285-292): it is
no longer pending, and it calls `cleanupGuild` when the guild has a session whose
connection is not destroyed. -/
def timerFiresIn (handle : Nat) (o : CleanupOutcome) (g : GuildId) (w : World) : World :=
  let fired : World :=
    { w with timers := w.timers.filter (fun p => decide (p ≠ (handle, g))) }
  match w.sessions g with
  | none => fired
  | some currentData =>
    match currentData.connection with
    | some c =>
      if c.status ≠ VoiceConnectionStatus.Destroyed then cleanupGuildIn o g fired else fired
    | none => fired

/-- A session that is playing song A with an empty queue; its now-playing message
is message 1 and its queue message is message 2. -/
def sampleAnnounced : Session :=
  { sampleStreaming [] with
    nowPlayingMessage := some { id := 1 },
    queueMessage := some { id := 2 } }


/-- Guild 0 holds `sampleAnnounced` and no timer is pending. -/
def sampleWorld : World where
  sessions := sampleMapOf sampleAnnounced
  timers := []

/-- The session `sampleAnnounced` with its voice connection destroyed. -/
def sampleDestroyed : Session :=
  { sampleAnnounced with
    connection := some { status := VoiceConnectionStatus.Destroyed, channelId := 5 } }

/-- The world `sampleWorld` after the voice connection of guild 0 was destroyed
from outside; the awaited calls of the run of `playNextSong` started meanwhile
are answered first. -/
def sampleOrphaned : World :=
  connectionDestroyedIn sampleTeardown 0 sampleWorld

/-- After `sampleOrphaned` a `play` command starts a new session for guild 0. -/
def sampleRestarted : World :=
  match playExecuteIn sampleRequest samplePlay 0 sampleOrphaned with
  | some result => result.2
  | none => sampleOrphaned

/-- After `sampleRestarted` the song of the new session has come to its end and
the listener of the Idle event has run. -/
def sampleEnded : World :=
  playerIdleIn AudioPlayerStatus.Playing sampleLaterStart 0 sampleRestarted
/-! ## Basic facts about the queue primitives -/

theorem splice_one_removed {α : Type} (xs : List α) (i : Nat) :
    (splice xs i 1).1.head? = xs[i]? := by
  simp [splice, List.head?_take, List.head?_drop]

theorem splice_one_rest {α : Type} (xs : List α) (i : Nat) :
    (splice xs i 1).2 = xs.eraseIdx i := by
  simp [splice, List.eraseIdx_eq_take_drop_succ]

/-- The queue message refresh touches no field other than `queueMessage`. -/
theorem updateQueueMessageOn_frame (o : QueueMessageOutcome) (s : Session) :
    updateQueueMessageOn o s =
      { s with queueMessage := (updateQueueMessageOn o s).queueMessage } := by
  unfold updateQueueMessageOn
  repeat' split
  all_goals rfl

@[simp] theorem updateQueueMessageOn_queue (o : QueueMessageOutcome) (s : Session) :
    (updateQueueMessageOn o s).queue = s.queue := by
  rw [updateQueueMessageOn_frame]

@[simp] theorem updateQueueMessageOn_currentSong (o : QueueMessageOutcome) (s : Session) :
    (updateQueueMessageOn o s).currentSong = s.currentSong := by
  rw [updateQueueMessageOn_frame]

@[simp] theorem updateQueueMessageOn_loop (o : QueueMessageOutcome) (s : Session) :
    (updateQueueMessageOn o s).loop = s.loop := by
  rw [updateQueueMessageOn_frame]

@[simp] theorem updateQueueMessageOn_lockPlay (o : QueueMessageOutcome) (s : Session) :
    (updateQueueMessageOn o s).lockPlay = s.lockPlay := by
  rw [updateQueueMessageOn_frame]

@[simp] theorem updateQueueMessageOn_player (o : QueueMessageOutcome) (s : Session) :
    (updateQueueMessageOn o s).player = s.player := by
  rw [updateQueueMessageOn_frame]

@[simp] theorem updateQueueMessageOn_connection (o : QueueMessageOutcome) (s : Session) :
    (updateQueueMessageOn o s).connection = s.connection := by
  rw [updateQueueMessageOn_frame]

@[simp] theorem updateQueueMessageOn_volume (o : QueueMessageOutcome) (s : Session) :
    (updateQueueMessageOn o s).volume = s.volume := by
  rw [updateQueueMessageOn_frame]

@[simp] theorem updateQueueMessageOn_textChannel (o : QueueMessageOutcome) (s : Session) :
    (updateQueueMessageOn o s).textChannel = s.textChannel := by
  rw [updateQueueMessageOn_frame]

/-! ## The remove command -/

/-- What `remove.execute` does once the caller checks are passed and the queue is not empty. -/
theorem removeExecute_checked (o : QueueMessageOutcome) (vc : ChannelId)
    (positionArg : Option String) (pd : Session)
    (hplayer : pd.player.isSome = true)
    (hvc : pd.connection.map (fun c => c.channelId) = some vc)
    (hne : pd.queue ≠ []) :
    removeExecute o (some vc) positionArg (some pd) =
      match parseIntArg positionArg with
      | none => (RemoveReply.invalidPosition, some pd)
      | some position =>
        if position ≤ 0 ∨ position > (pd.queue.length : Int) then
          (RemoveReply.invalidPosition, some pd)
        else
          match pd.queue[(position - 1).toNat]? with
          | some removedSong =>
            (RemoveReply.removed removedSong,
              some (updateQueueMessageOn o
                { pd with queue := pd.queue.eraseIdx (position - 1).toNat }))
          | none =>
            (RemoveReply.couldNotRemove,
              some { pd with queue := pd.queue.eraseIdx (position - 1).toNat }) := by
  have hp : pd.player.isNone = false := by
    cases h : pd.player <;> simp_all
  have hlen : pd.queue.length ≠ 0 := by
    intro h; exact hne (List.length_eq_zero.mp h)
  simp only [removeExecute, hp, hvc, hlen, splice_one_removed, splice_one_rest]
  simp

/-- C2 (as amended): when the position read by `parseInt` is `NaN`, at most 0 or
greater than the queue length, `remove` leaves the session exactly as it was; it
answers "Invalid position" on a non-empty queue and "The queue is empty." on an
empty one. -/
theorem removeExecute_bad_position (o : QueueMessageOutcome) (vc : ChannelId)
    (positionArg : Option String) (pd : Session)
    (hplayer : pd.player.isSome = true)
    (hvc : pd.connection.map (fun c => c.channelId) = some vc)
    (hbad : ∀ p : Int, parseIntArg positionArg = some p → p ≤ 0 ∨ (pd.queue.length : Int) < p) :
    removeExecute o (some vc) positionArg (some pd) =
      (if pd.queue.length = 0 then RemoveReply.queueEmpty else RemoveReply.invalidPosition,
        some pd) := by
  by_cases hlen : pd.queue.length = 0
  · have hp : pd.player.isNone = false := by
      cases h : pd.player <;> simp_all
    simp [removeExecute, hp, hvc, hlen]
  · have hne : pd.queue ≠ [] := fun h => hlen (by simp [h])
    rw [removeExecute_checked o vc positionArg pd hplayer hvc hne, if_neg hlen]
    cases hparse : parseIntArg positionArg with
    | none => rfl
    | some p =>
      have := hbad p hparse
      simp only
      rw [if_pos (by omega)]

/-- Witness for `removeExecute_bad_position`: position "3" on the queue `[A, B]`. -/
theorem removeExecute_bad_position_witness :
    removeExecute sampleChat (some 5) (some "3")
        (some (sampleSession [sampleTrackA, sampleTrackB] none LoopMode.none)) =
      (RemoveReply.invalidPosition,
        some (sampleSession [sampleTrackA, sampleTrackB] none LoopMode.none)) :=
  removeExecute_bad_position sampleChat 5 (some "3")
    (sampleSession [sampleTrackA, sampleTrackB] none LoopMode.none) rfl rfl
    (by
      intro p hp
      have h3 : parseIntArg (some "3") = some 3 := by decide
      rw [h3] at hp
      cases hp
      decide)

/-- C2 (counterexample): on an empty queue the position "1" lies outside
`[1, length]`, yet the reply is "The queue is empty.", not "Invalid position". -/
theorem removeExecute_empty_queue_reply :
    (sampleSession [] none LoopMode.none).queue.length = 0 ∧
    parseIntArg (some "1") = some 1 ∧
    (removeExecute sampleChat (some 5) (some "1")
        (some (sampleSession [] none LoopMode.none))).1 = RemoveReply.queueEmpty ∧
    (removeExecute sampleChat (some 5) (some "1")
        (some (sampleSession [] none LoopMode.none))).1 ≠ RemoveReply.invalidPosition := by
  decide

/-- C3: for a position `p` with `1 ≤ p ≤ length`, `remove` answers with the song
at 1-based position `p` and the new queue is the old one with exactly that
element deleted: the songs before and after it keep their order and the length
drops by one; no field other than `queue` and `queueMessage` changes. -/
theorem removeExecute_valid_position (o : QueueMessageOutcome) (vc : ChannelId)
    (positionArg : Option String) (pd : Session) (p : Nat)
    (hplayer : pd.player.isSome = true)
    (hvc : pd.connection.map (fun c => c.channelId) = some vc)
    (hparse : parseIntArg positionArg = some (p : Int))
    (h1 : 1 ≤ p) (h2 : p ≤ pd.queue.length) :
    ∃ removedSong after,
      removeExecute o (some vc) positionArg (some pd) =
        (RemoveReply.removed removedSong, some after) ∧
      pd.queue[p - 1]? = some removedSong ∧
      after.queue = pd.queue.take (p - 1) ++ pd.queue.drop p ∧
      after.queue = pd.queue.eraseIdx (p - 1) ∧
      after.queue.length + 1 = pd.queue.length ∧
      after = { pd with queue := after.queue, queueMessage := after.queueMessage } := by
  have hne : pd.queue ≠ [] := by
    intro h; rw [h] at h2; simp at h2; omega
  have hidx : ((p : Int) - 1).toNat = p - 1 := by omega
  have hlt : p - 1 < pd.queue.length := by omega
  refine ⟨pd.queue[p - 1], updateQueueMessageOn o { pd with queue := pd.queue.eraseIdx (p - 1) },
    ?_, ?_, ?_, ?_, ?_, ?_⟩
  · rw [removeExecute_checked o vc positionArg pd hplayer hvc hne, hparse]
    simp only
    rw [if_neg (by omega), hidx, List.getElem?_eq_getElem hlt]
  · exact List.getElem?_eq_getElem hlt
  · rw [updateQueueMessageOn_queue, List.eraseIdx_eq_take_drop_succ]
    have : p - 1 + 1 = p := by omega
    rw [this]
  · rw [updateQueueMessageOn_queue]
  · rw [updateQueueMessageOn_queue, List.length_eraseIdx, if_pos hlt]
    omega
  · rw [updateQueueMessageOn_frame]

/-- Witness for `removeExecute_valid_position`: position "2" on the queue `[A, B]`. -/
theorem removeExecute_valid_position_witness :
    ∃ removedSong after,
      removeExecute sampleChat (some 5) (some "2")
          (some (sampleSession [sampleTrackA, sampleTrackB] none LoopMode.none)) =
        (RemoveReply.removed removedSong, some after) ∧
      [sampleTrackA, sampleTrackB][2 - 1]? = some removedSong ∧
      after.queue = [sampleTrackA, sampleTrackB].take (2 - 1) ++ [sampleTrackA, sampleTrackB].drop 2 ∧
      after.queue = [sampleTrackA, sampleTrackB].eraseIdx (2 - 1) ∧
      after.queue.length + 1 = [sampleTrackA, sampleTrackB].length ∧
      after = { sampleSession [sampleTrackA, sampleTrackB] none LoopMode.none with
                queue := after.queue, queueMessage := after.queueMessage } :=
  removeExecute_valid_position sampleChat 5 (some "2")
    (sampleSession [sampleTrackA, sampleTrackB] none LoopMode.none) 2 rfl rfl (by decide)
    (by decide) (by decide)

/-! ## The shuffle loop -/

theorem swapAt_length {α : Type} (q : List α) (i j : Nat) :
    (swapAt q i j).length = q.length := by
  unfold swapAt
  split <;> simp

/-- One swap rearranges the queue and neither adds nor drops a song. -/
theorem swapAt_perm {α : Type} (q : List α) (i j : Nat) : (swapAt q i j).Perm q := by
  classical
  unfold swapAt
  split
  · rename_i a b ha hb
    obtain ⟨hi, rfl⟩ := List.getElem?_eq_some_iff.mp ha
    obtain ⟨hj, rfl⟩ := List.getElem?_eq_some_iff.mp hb
    rw [List.perm_iff_count]
    intro x
    have hj2 : j < (q.set i q[j]).length := by simpa using hj
    rw [List.count_set _ _ _ _ hj2, List.count_set _ _ _ _ hi]
    have hget : (q.set i q[j])[j] = q[j] := by
      rw [List.getElem_set]
      split <;> rfl
    rw [hget]
    have hle : (if q[i] == x then 1 else 0) ≤ q.count x := by
      have := List.boole_getElem_le_countP (fun y => y == x) q i hi
      simpa [List.count_eq_countP] using this
    by_cases h1 : (q[i] == x) = true <;> by_cases h2 : (q[j] == x) = true <;>
      simp only [h1, h2, if_true, if_false] at hle ⊢ <;> omega
  · exact List.Perm.refl q

theorem shuffleLoop_perm {α : Type} (draws : Draws) (i : Nat) (q : List α) :
    (shuffleLoop draws i q).Perm q := by
  induction i generalizing q with
  | zero => exact List.Perm.refl q
  | succ i ih => exact (ih _).trans (swapAt_perm q _ _)

theorem shuffleQueue_perm {α : Type} (draws : Draws) (q : List α) :
    (shuffleQueue draws q).Perm q :=
  shuffleLoop_perm draws _ q

/-- C4: whatever the random draws are, the `shuffle` command leaves the session
with a queue that is a permutation of the queue before it: the same length and
every song the same number of times.  A command that is refused changes nothing. -/
theorem shuffleExecute_perm (draws : Draws) (o : QueueMessageOutcome)
    (voiceChannel : Option ChannelId) (pd : Session) :
    ∃ after, (shuffleExecute draws o voiceChannel (some pd)).2 = some after ∧
      after.queue.Perm pd.queue ∧
      after.queue.length = pd.queue.length ∧
      ∀ song, after.queue.count song = pd.queue.count song := by
  have key : ∃ after, (shuffleExecute draws o voiceChannel (some pd)).2 = some after ∧
      after.queue.Perm pd.queue := by
    unfold shuffleExecute
    cases voiceChannel with
    | none => exact ⟨pd, rfl, List.Perm.refl _⟩
    | some vc =>
      simp only
      split
      · exact ⟨pd, rfl, List.Perm.refl _⟩
      · split
        · exact ⟨pd, rfl, List.Perm.refl _⟩
        · split
          · exact ⟨pd, rfl, List.Perm.refl _⟩
          · refine ⟨_, rfl, ?_⟩
            rw [updateQueueMessageOn_queue]
            exact shuffleQueue_perm draws pd.queue
  obtain ⟨after, h1, h2⟩ := key
  exact ⟨after, h1, h2, h2.length_eq, fun song => h2.count_eq song⟩

/-! ## The shuffle is a bijection from draws to orderings -/

theorem swapAt_getElem? {α : Type} (q : List α) (i j k : Nat)
    (hi : i < q.length) (hj : j < q.length) :
    (swapAt q i j)[k]? = if k = j then q[i]? else if k = i then q[j]? else q[k]? := by
  unfold swapAt
  rw [List.getElem?_eq_getElem hi, List.getElem?_eq_getElem hj]
  simp only
  rw [List.getElem?_set, List.getElem?_set]
  by_cases hkj : j = k
  · subst hkj
    simp [hi, hj]
  · have hkj2 : ¬ k = j := fun h => hkj h.symm
    rw [if_neg hkj, if_neg hkj2]
    by_cases hki : i = k
    · subst hki
      simp [hi]
    · have hki2 : ¬ k = i := fun h => hki h.symm
      rw [if_neg hki, if_neg hki2]

theorem shuffleLoop_length {α : Type} (draws : Draws) (n : Nat) (q : List α) :
    (shuffleLoop draws n q).length = q.length :=
  (shuffleLoop_perm draws n q).length_eq

/-- The loop entered with index `n` reads only the draws for the indices `1` to `n`. -/
theorem shuffleLoop_congr {α : Type} (d d2 : Draws) :
    ∀ (n : Nat) (q : List α), (∀ i, 1 ≤ i → i ≤ n → d i = d2 i) →
      shuffleLoop d n q = shuffleLoop d2 n q := by
  intro n
  induction n with
  | zero => intro q _; rfl
  | succ n ih =>
    intro q h
    simp only [shuffleLoop]
    rw [h (n + 1) (by omega) (by omega)]
    exact ih _ (fun i h1 h2 => h i h1 (by omega))

/-- The loop entered with index `n` leaves the positions above `n` alone. -/
theorem shuffleLoop_getElem?_above {α : Type} (d : Draws) :
    ∀ (n : Nat) (q : List α) (k : Nat), n < q.length → n < k →
      (shuffleLoop d n q)[k]? = q[k]? := by
  intro n
  induction n with
  | zero => intro q k _ _; rfl
  | succ n ih =>
    intro q k hn hk
    simp only [shuffleLoop]
    have hj : (d (n + 1)).val < q.length := by
      have := (d (n + 1)).isLt
      omega
    rw [ih _ k (by rw [swapAt_length]; omega) (by omega), swapAt_getElem? q _ _ k hn hj]
    have h1 : ¬ k = (d (n + 1)).val := by
      have := (d (n + 1)).isLt
      omega
    have h2 : ¬ k = n + 1 := by omega
    rw [if_neg h1, if_neg h2]

/-- After the loop, position `n + 1` holds the song the first draw pointed at. -/
theorem shuffleLoop_getElem?_top {α : Type} (d : Draws) (n : Nat) (q : List α)
    (hn : n + 1 < q.length) :
    (shuffleLoop d (n + 1) q)[n + 1]? = q[(d (n + 1)).val]? := by
  have hj : (d (n + 1)).val < q.length := by
    have := (d (n + 1)).isLt
    omega
  simp only [shuffleLoop]
  rw [shuffleLoop_getElem?_above d n _ (n + 1) (by rw [swapAt_length]; omega) (by omega),
    swapAt_getElem? q _ _ (n + 1) hn hj]
  by_cases h : n + 1 = (d (n + 1)).val
  · rw [if_pos h, ← h]
  · rw [if_neg h, if_pos rfl]

/-- Two runs of the loop on a queue of distinct songs that end in the same
arrangement used the same draws. -/
theorem shuffleLoop_injective {α : Type} (d d2 : Draws) :
    ∀ (n : Nat) (q : List α), n < q.length → q.Nodup →
      shuffleLoop d n q = shuffleLoop d2 n q →
      ∀ i, 1 ≤ i → i ≤ n → d i = d2 i := by
  intro n
  induction n with
  | zero => intro q _ _ _ i h1 h2; omega
  | succ n ih =>
    intro q hn hq heq i h1 h2
    have hj : (d (n + 1)).val < q.length := by
      have := (d (n + 1)).isLt
      omega
    have hj2 : (d2 (n + 1)).val < q.length := by
      have := (d2 (n + 1)).isLt
      omega
    have htop : q[(d (n + 1)).val]? = q[(d2 (n + 1)).val]? := by
      rw [← shuffleLoop_getElem?_top d n q hn, ← shuffleLoop_getElem?_top d2 n q hn, heq]
    rw [List.getElem?_eq_getElem hj, List.getElem?_eq_getElem hj2, Option.some.injEq,
      hq.getElem_inj_iff] at htop
    have hdraw : d (n + 1) = d2 (n + 1) := Fin.ext htop
    by_cases hi : i = n + 1
    · rw [hi]; exact hdraw
    · simp only [shuffleLoop] at heq
      rw [← hdraw] at heq
      exact ih (swapAt q (n + 1) (d (n + 1)).val) (by rw [swapAt_length]; omega)
        ((swapAt_perm q _ _).nodup_iff.mpr hq) heq i h1 (by omega)

/-- Every arrangement of a queue of distinct songs that agrees with the queue
above position `n` is produced by the loop entered with index `n`, for suitable draws. -/
theorem shuffleLoop_surjective {α : Type} :
    ∀ (n : Nat) (q l : List α), n < q.length → q.Nodup → l.Perm q →
      (∀ k, n < k → l[k]? = q[k]?) → ∃ d : Draws, shuffleLoop d n q = l := by
  intro n
  induction n with
  | zero =>
    intro q l hn hq hperm hagree
    refine ⟨fun i => ⟨0, by omega⟩, ?_⟩
    simp only [shuffleLoop]
    have hlen := hperm.length_eq
    have hl : l.Nodup := hperm.nodup_iff.mpr hq
    apply List.ext_getElem?
    intro k
    cases k with
    | succ k => exact (hagree (k + 1) (by omega)).symm
    | zero =>
      have h0l : 0 < l.length := by omega
      rw [List.getElem?_eq_getElem hn, List.getElem?_eq_getElem h0l, Option.some.injEq]
      obtain ⟨j, hj, hjeq⟩ := List.getElem_of_mem (hperm.mem_iff.mpr (List.getElem_mem hn))
      cases j with
      | zero => exact hjeq.symm
      | succ j =>
        exfalso
        have h1 : l[j + 1]? = q[j + 1]? := hagree (j + 1) (by omega)
        have hjq : j + 1 < q.length := by omega
        rw [List.getElem?_eq_getElem hj, List.getElem?_eq_getElem hjq, Option.some.injEq,
          hjeq, hq.getElem_inj_iff] at h1
        omega
  | succ n ih =>
    intro q l hn hq hperm hagree
    have hlen := hperm.length_eq
    have hl : l.Nodup := hperm.nodup_iff.mpr hq
    have hnl : n + 1 < l.length := by omega
    obtain ⟨j, hj, hjeq⟩ := List.getElem_of_mem (hperm.mem_iff.mp (List.getElem_mem hnl))
    have hjle : j ≤ n + 1 := by
      by_contra hcon
      have h1 : l[j]? = q[j]? := hagree j (by omega)
      have hjl : j < l.length := by omega
      rw [List.getElem?_eq_getElem hj, List.getElem?_eq_getElem hjl, Option.some.injEq,
        hjeq, hl.getElem_inj_iff] at h1
      omega
    have hq1 : (swapAt q (n + 1) j).Nodup := (swapAt_perm q _ _).nodup_iff.mpr hq
    obtain ⟨d0, hd0⟩ := ih (swapAt q (n + 1) j) l (by rw [swapAt_length]; omega) hq1
      (hperm.trans (swapAt_perm q _ _).symm)
      (by
        intro k hk
        rw [swapAt_getElem? q _ _ k hn hj]
        by_cases hkj : k = j
        · have : j = n + 1 := by omega
          subst hkj
          rw [if_pos rfl, List.getElem?_eq_getElem hn]
          subst this
          rw [List.getElem?_eq_getElem hnl, hjeq]
        · rw [if_neg hkj]
          by_cases hkn : k = n + 1
          · rw [if_pos hkn, hkn, List.getElem?_eq_getElem hnl, List.getElem?_eq_getElem hj, hjeq]
          · rw [if_neg hkn]
            exact hagree k (by omega))
    refine ⟨Function.update d0 (n + 1) ⟨j, by omega⟩, ?_⟩
    simp only [shuffleLoop, Function.update_same]
    rw [← hd0]
    apply shuffleLoop_congr
    intro i _ h2
    rw [Function.update_noteq (by omega)]

theorem DrawSeq.toDraws_val {n : Nat} (d : DrawSeq n) (k : Fin (n - 1)) :
    (d.toDraws (k.val + 1)).val = (d k).val := by
  have hk := k.isLt
  have h : 0 < k.val + 1 ∧ k.val + 1 < n := by omega
  simp only [DrawSeq.toDraws, dif_pos h]
  rfl

/-- Every assignment of draws to loop indices comes from a `DrawSeq` as far as
the loop on a queue of `n` songs can tell. -/
theorem DrawSeq.exists_of_draws (n : Nat) (d : Draws) :
    ∃ ds : DrawSeq n, ∀ i, 1 ≤ i → i ≤ n - 1 → ds.toDraws i = d i := by
  refine ⟨fun k => d (k.val + 1), ?_⟩
  intro i h1 h2
  obtain ⟨j, rfl⟩ : ∃ j, i = j + 1 := ⟨i - 1, by omega⟩
  have h : 0 < j + 1 ∧ j + 1 < n := by omega
  apply Fin.ext
  simp only [DrawSeq.toDraws, dif_pos h]
  rfl

theorem prod_range_add_two (m : Nat) :
    (∏ k ∈ Finset.range m, (k + 2)) = (m + 1).factorial := by
  induction m with
  | zero => simp
  | succ m ih =>
    rw [Finset.prod_range_succ, ih, Nat.factorial_succ (m + 1)]
    ring

theorem DrawSeq.card (n : Nat) : Fintype.card (DrawSeq n) = n.factorial := by
  rw [Fintype.card_pi]
  simp only [Fintype.card_fin]
  rw [Fin.prod_univ_eq_prod_range (fun k => k + 2) (n - 1), prod_range_add_two]
  cases n with
  | zero => rfl
  | succ n => simp

theorem shuffleQueue_draws_unique (q : List Track) (hq : q.Nodup) (l : List Track)
    (hl : l.Perm q) : ∃! d : DrawSeq q.length, shuffleQueue d.toDraws q = l := by
  cases hlen : q.length with
  | zero =>
    have hq0 : q = [] := List.length_eq_zero.mp hlen
    subst hq0
    have hl0 : l = [] := hl.eq_nil
    subst hl0
    refine ⟨fun k => absurd k.isLt (by simp), rfl, ?_⟩
    intro d _
    funext k
    exact absurd k.isLt (by simp)
  | succ n =>
    have hn : n < q.length := by omega
    obtain ⟨d, hd⟩ := shuffleLoop_surjective n q l hn hq hl
      (by
        intro k hk
        have h1 : q.length ≤ k := by omega
        have h2 : l.length ≤ k := by rw [hl.length_eq]; exact h1
        rw [List.getElem?_eq_none h1, List.getElem?_eq_none h2])
    obtain ⟨ds, hds⟩ := DrawSeq.exists_of_draws (n + 1) d
    have hshuffle : ∀ e : DrawSeq (n + 1), shuffleQueue e.toDraws q = shuffleLoop e.toDraws n q := by
      intro e
      simp [shuffleQueue, hlen]
    refine ⟨ds, ?_, ?_⟩
    · show shuffleQueue ds.toDraws q = l
      rw [hshuffle, ← hd]
      exact shuffleLoop_congr _ _ n q (fun i h1 h2 => hds i h1 (by omega))
    · intro e he
      have he2 : shuffleQueue e.toDraws q = l := he
      have hsame : shuffleLoop e.toDraws n q = shuffleLoop ds.toDraws n q := by
        rw [← hshuffle, he2, ← hd]
        exact (shuffleLoop_congr _ _ n q (fun i h1 h2 => hds i h1 (by omega))).symm
      funext k
      have hk := k.isLt
      have := shuffleLoop_injective e.toDraws ds.toDraws n q hn hq hsame (k.val + 1)
        (by omega) (by omega)
      apply Fin.ext
      rw [← DrawSeq.toDraws_val e k, ← DrawSeq.toDraws_val ds k, this]

/-- C5: on a queue of distinct songs the shuffle loop is an unbiased
Fisher-Yates shuffle.  The map from the draws (one integer between 0 and i for
each loop index i = n-1, ..., 1) to the resulting arrangement is a bijection
onto the orderings of the queue; there are n! sequences of draws; and every
ordering is produced by exactly one of them, so that with independent uniform
draws every ordering has probability 1/n!. -/
theorem shuffleQueue_bijective (q : List Track) (hq : q.Nodup) :
    Function.Bijective
      (fun d : DrawSeq q.length =>
        (⟨shuffleQueue d.toDraws q, shuffleQueue_perm d.toDraws q⟩ :
          { l : List Track // l.Perm q })) ∧
    Fintype.card (DrawSeq q.length) = q.length.factorial ∧
    ∀ l : List Track, l.Perm q →
      (Finset.univ.filter
        (fun d : DrawSeq q.length => shuffleQueue d.toDraws q = l)).card = 1 := by
  refine ⟨?_, DrawSeq.card q.length, ?_⟩
  · rw [Function.bijective_iff_existsUnique]
    intro ⟨l, hl⟩
    obtain ⟨d, hd, huniq⟩ := shuffleQueue_draws_unique q hq l hl
    refine ⟨d, Subtype.ext hd, ?_⟩
    intro e he
    exact huniq e (congrArg Subtype.val he)
  · intro l hl
    obtain ⟨d, hd, huniq⟩ := shuffleQueue_draws_unique q hq l hl
    rw [Finset.card_eq_one]
    refine ⟨d, ?_⟩
    ext e
    simp only [Finset.mem_filter, Finset.mem_univ, true_and, Finset.mem_singleton]
    exact ⟨fun he => huniq e he, fun he => he ▸ hd⟩

/-- Witness for `shuffleQueue_bijective`: on the queue `[A, B]` of two distinct
songs exactly one sequence of draws yields the ordering `[B, A]`. -/
theorem shuffleQueue_bijective_witness :
    (Finset.univ.filter
      (fun d : DrawSeq [sampleTrackA, sampleTrackB].length =>
        shuffleQueue d.toDraws [sampleTrackA, sampleTrackB] =
          [sampleTrackB, sampleTrackA])).card = 1 :=
  (shuffleQueue_bijective [sampleTrackA, sampleTrackB] (by decide)).2.2
    [sampleTrackB, sampleTrackA] (List.Perm.swap _ _ _)

/-! ## Track selection and `playNextSong` -/

theorem selectSong_track (s : Session) (c : Track)
    (hl : s.loop = LoopMode.track) (hc : s.currentSong = some c) :
    selectSong s = (some c, s) := by
  simp [selectSong, hl, hc]

theorem selectSong_queue (s : Session) (c : Track)
    (hl : s.loop = LoopMode.queue) (hc : s.currentSong = some c) :
    selectSong s = ((s.queue ++ [c]).head?, { s with queue := (s.queue ++ [c]).tail }) := by
  simp [selectSong, hl, hc, push, shift]

theorem selectSong_plain (s : Session)
    (h : s.loop = LoopMode.none ∨ s.currentSong = none) :
    selectSong s = (s.queue.head?, { s with queue := s.queue.tail }) := by
  rcases h with h | h
  · simp [selectSong, h, shift]
  · cases hl : s.loop <;> simp [selectSong, h, hl, shift]

/-- What one run of `playNextSong` that passes the entry guard does to the
queue, the current song and the guard fields, in terms of the track selection. -/
theorem playNextSongOn_view (o : AdvanceOutcome) (s : Session)
    (hg : (s.lockPlay || s.player.isNone || s.connection.isNone) = false) :
    (playNextSongOn o s).1 =
      (match (selectSong s).1 with
       | none => PlayNextResult.queueEmpty
       | some song =>
         if o.start.isPlaying then PlayNextResult.started song else PlayNextResult.failed song) ∧
    (playNextSongOn o s).2.queue = (selectSong s).2.queue ∧
    (playNextSongOn o s).2.currentSong =
      (match (selectSong s).1 with
       | none => none
       | some song => if o.start.isPlaying then some song else none) ∧
    (playNextSongOn o s).2.loop = s.loop ∧
    (playNextSongOn o s).2.lockPlay = false ∧
    (playNextSongOn o s).2.player.isSome = true ∧
    (playNextSongOn o s).2.connection = s.connection := by
  obtain ⟨conn, pl, qu, cur, tc, lp, vol, tm, lk, np, qm, pg⟩ := s
  simp only [Bool.or_eq_false_iff] at hg
  obtain ⟨⟨hlk, hpl⟩, hconn⟩ := hg
  subst hlk
  cases pl with
  | none => simp at hpl
  | some p =>
  cases conn with
  | none => simp at hconn
  | some cn =>
  cases hstart : o.start with
  | playing m =>
    cases lp <;> cases cur <;> cases qu <;>
      simp [playNextSongOn, selectSong, hstart, StartOutcome.isPlaying, push, shift,
        startInactivityTimerOn] <;>
      (try split) <;> simp
  | failed pa =>
    cases lp <;> cases cur <;> cases qu <;>
      simp [playNextSongOn, selectSong, hstart, StartOutcome.isPlaying, push, shift,
        startInactivityTimerOn]

/-! ## The play command and the queue limit -/

@[simp] theorem GuildMap.set_same (m : GuildMap) (g : GuildId) (s : Session) :
    (m.set g s) g = some s := by
  simp [GuildMap.set]

theorem ensurePlayerData_of_some (g : GuildId) (tc : Option ChannelId) (m : GuildMap)
    (s : Session) (h : m g = some s) :
    ensurePlayerData g tc m =
      ({ s with textChannel := tc }, m.set g { s with textChannel := tc }) := by
  simp [ensurePlayerData, GuildMap.has, h]

theorem ensurePlayerData_of_none (g : GuildId) (tc : Option ChannelId) (m : GuildMap)
    (h : m g = none) :
    ensurePlayerData g tc m =
      (newSession tc, (m.set g (newSession tc)).set g (newSession tc)) := by
  simp [ensurePlayerData, GuildMap.has, h, newSession]

theorem resolveSong_ne_queueFull (req : PlayRequest) (o : PlayOutcome) :
    resolveSong req o ≠ Except.error PlayReply.queueFull := by
  obtain ⟨jr, sr, vu, ui, se, qm, adv⟩ := o
  have live : ∀ (info : VideoDetails) (src : Source),
      (if info.isLiveContent = true then Except.error PlayReply.liveNotSupported
        else (Except.ok (makeSong info req.author src) : Except PlayReply Track))
        ≠ Except.error PlayReply.queueFull := by
    intro info src
    split <;> simp
  cases vu <;> cases ui <;> rcases se with _ | _ | (_ | info) <;>
    first
      | exact live _ _
      | simp [resolveSong]

theorem playEnqueue_ne_queueFull (song : Track) (o : PlayOutcome) (g : GuildId) (m : GuildMap) :
    (playEnqueue song o g m).1 ≠ PlayReply.queueFull := by
  unfold playEnqueue
  split
  · simp
  · simp only
    split <;> simp

theorem passesChecks_iff (req : PlayRequest) :
    req.passesChecks = true ↔
      req.query ≠ "" ∧ (∃ vc, req.voiceChannel = some vc) ∧ req.canConnect = true ∧
        req.canSpeak = true := by
  cases hv : req.voiceChannel <;> simp [PlayRequest.passesChecks, hv, and_assoc]

/-- The queue that `play.execute` compares with `MAX_QUEUE_SIZE`. -/
theorem ensurePlayerData_queue (g : GuildId) (tc : Option ChannelId) (m : GuildMap) :
    (ensurePlayerData g tc m).1.queue = match m g with
      | some s => s.queue
      | none => [] := by
  cases h : m g with
  | none => rw [ensurePlayerData_of_none g tc m h]; rfl
  | some s => rw [ensurePlayerData_of_some g tc m s h]

/-- A `play` command that passes the caller checks is answered "queue full"
exactly when the queue seen by the check holds `MAX_QUEUE_SIZE` songs or more. -/
theorem playExecute_queueFull_iff (req : PlayRequest) (o : PlayOutcome) (g : GuildId)
    (m : GuildMap) (h : req.passesChecks = true) :
    (playExecute req o g m).1 = PlayReply.queueFull ↔
      MAX_QUEUE_SIZE ≤ (ensurePlayerData g (some req.channel) m).1.queue.length := by
  obtain ⟨hq, ⟨vc, hvc⟩, hc, hs⟩ := (passesChecks_iff req).mp h
  unfold playExecute
  rw [if_neg hq, hvc]
  simp only [hc, hs, Bool.true_eq_false, if_false]
  by_cases hfull : MAX_QUEUE_SIZE ≤ (ensurePlayerData g (some req.channel) m).1.queue.length
  · simp [hfull]
  · simp only [ge_iff_le, hfull, if_false, iff_false]
    have tail : ∀ (m1 : GuildMap),
        (match resolveSong req o with
          | Except.error r => (r, m1)
          | Except.ok song => playEnqueue song o g m1).1 ≠ PlayReply.queueFull := by
      intro m1
      split
      · rename_i r hr
        intro h2
        simp only at h2
        rw [h2] at hr
        exact resolveSong_ne_queueFull req o hr
      · exact playEnqueue_ne_queueFull _ _ _ _
    split_ifs <;>
      first
        | exact tail _
        | simp

theorem isStreaming_iff (s : Session) :
    s.isStreaming = true ↔
      ∃ c p, s.connection = some c ∧ s.player = some p ∧
        c.status ≠ VoiceConnectionStatus.Destroyed ∧ p.status ≠ AudioPlayerStatus.Idle := by
  cases hc : s.connection <;> cases hp : s.player <;> simp [Session.isStreaming, hc, hp]

theorem resolves_iff (req : PlayRequest) (o : PlayOutcome) :
    resolves req o = true ↔ o.searchReply = true ∧ ∃ song, resolveSong req o = Except.ok song := by
  unfold resolves
  cases h : resolveSong req o <;> simp

/-- One `play` command on a session that is streaming: it is refused when the
queue is full and otherwise appends the resolved song; the session keeps streaming. -/
theorem playExecute_streaming (req : PlayRequest) (o : PlayOutcome) (g : GuildId)
    (m : GuildMap) (s : Session) (hm : m g = some s) (hs : s.isStreaming = true)
    (hreq : req.passesChecks = true) (hres : resolves req o = true) :
    ∃ after, (playExecute req o g m).2 g = some after ∧ after.isStreaming = true ∧
      ((MAX_QUEUE_SIZE ≤ s.queue.length ∧
          (playExecute req o g m).1 = PlayReply.queueFull ∧ after.queue = s.queue) ∨
       (s.queue.length < MAX_QUEUE_SIZE ∧
          ∃ song, resolveSong req o = Except.ok song ∧
            (playExecute req o g m).1 =
              PlayReply.added ((if s.currentSong.isSome then 1 else 0) + (s.queue.length + 1)) song ∧
            after.queue = s.queue ++ [song])) := by
  obtain ⟨hq, ⟨vc, hvc⟩, hc, hsp⟩ := (passesChecks_iff req).mp hreq
  obtain ⟨c, p, hconn, hpl, hcs, hps⟩ := (isStreaming_iff s).mp hs
  obtain ⟨hsr, song, hsong⟩ := (resolves_iff req o).mp hres
  unfold playExecute
  rw [if_neg hq, hvc]
  simp only [hc, hsp, Bool.true_eq_false, if_false, ensurePlayerData_of_some g _ m s hm]
  by_cases hfull : MAX_QUEUE_SIZE ≤ s.queue.length
  · refine ⟨{ s with textChannel := some req.channel }, ?_, ?_, Or.inl ⟨hfull, ?_, rfl⟩⟩
    · simp [hfull]
    · rw [isStreaming_iff]; exact ⟨c, p, hconn, hpl, hcs, hps⟩
    · simp [hfull]
  · refine ⟨updateQueueMessageOn o.queueMessage
        (enqueueSong song { s with textChannel := some req.channel }), ?_, ?_,
        Or.inr ⟨by omega, song, hsong, ?_, ?_⟩⟩
    · simp [hfull, hconn, hpl, hcs, hsr, hsong, playEnqueue, hps, enqueueSong]
    · rw [isStreaming_iff]
      exact ⟨c, p, by simp [enqueueSong, hconn], by simp [enqueueSong, hpl], hcs, hps⟩
    · simp [hfull, hconn, hpl, hcs, hsr, hsong, playEnqueue, hps, enqueueSong, push]
    · simp [enqueueSong, push]

/-- A run of `play` commands on a streaming session: the command number `k`
(counted from 0) is accepted while the queue length at the start plus `k` is
below the limit and refused from then on. -/
theorem playAll_streaming (g : GuildId) :
    ∀ (runs : List (PlayRequest × PlayOutcome)) (m : GuildMap) (s : Session),
      m g = some s → s.isStreaming = true →
      (∀ r ∈ runs, r.1.passesChecks = true ∧ resolves r.1 r.2 = true) →
      ∀ k, k < runs.length →
        (s.queue.length + k < MAX_QUEUE_SIZE →
          ∃ n song, (playAll g runs m).1[k]? = some (PlayReply.added n song)) ∧
        (MAX_QUEUE_SIZE ≤ s.queue.length + k →
          (playAll g runs m).1[k]? = some PlayReply.queueFull) := by
  intro runs
  induction runs with
  | nil => intro m s _ _ _ k hk; simp at hk
  | cons r rest ih =>
    intro m s hm hs hok k hk
    obtain ⟨req, o⟩ := r
    have hr := hok (req, o) (List.mem_cons_self _ _)
    obtain ⟨after, hafter, hstream, hcase⟩ := playExecute_streaming req o g m s hm hs hr.1 hr.2
    have hrest : ∀ r ∈ rest, r.1.passesChecks = true ∧ resolves r.1 r.2 = true :=
      fun r hmem => hok r (List.mem_cons_of_mem _ hmem)
    cases k with
    | zero =>
      rcases hcase with ⟨hfull, hreply, _⟩ | ⟨hroom, song, _, hreply, _⟩
      · constructor
        · intro h; omega
        · intro _; simp [playAll, hreply]
      · constructor
        · intro _
          exact ⟨(if s.currentSong.isSome = true then 1 else 0) + (s.queue.length + 1), song,
            by simp [playAll, hreply]⟩
        · intro h; omega
    | succ k =>
      have hk2 : k < rest.length := by simpa using hk
      have hih := ih (playExecute req o g m).2 after hafter hstream hrest k hk2
      have hget : (playAll g ((req, o) :: rest) m).1[k + 1]? =
          (playAll g rest (playExecute req o g m).2).1[k]? := by
        simp [playAll]
      rw [hget]
      rcases hcase with ⟨hfull, _, hqueue⟩ | ⟨hroom, song, _, _, hqueue⟩
      · rw [hqueue] at hih
        constructor
        · intro h; omega
        · intro _; exact hih.2 (by omega)
      · rw [hqueue] at hih
        simp only [List.length_append, List.length_singleton] at hih
        constructor
        · intro h; exact hih.1 (by omega)
        · intro h; exact hih.2 (by omega)

/-- C1 (as amended): a `play` command that passes the caller checks is refused
with "queue full" exactly when the queue of the guild already holds 100 songs; a
song taken out of the queue for playback does not count.  On a session that is
streaming (connection live, player not idle) with an empty queue, of a run of
`play` commands that resolve, the first 100 are accepted and the 101st and every
later one is refused with "queue full". -/
theorem playExecute_queue_limit (g : GuildId) :
    MAX_QUEUE_SIZE = 100 ∧
    (∀ (req : PlayRequest) (o : PlayOutcome) (m : GuildMap), req.passesChecks = true →
      ((playExecute req o g m).1 = PlayReply.queueFull ↔
        ∃ s, m g = some s ∧ MAX_QUEUE_SIZE ≤ s.queue.length)) ∧
    (∀ (runs : List (PlayRequest × PlayOutcome)) (m : GuildMap) (s : Session),
      m g = some s → s.queue = [] → s.isStreaming = true →
      (∀ r ∈ runs, r.1.passesChecks = true ∧ resolves r.1 r.2 = true) →
      ∀ k, k < runs.length →
        (k < 100 → ∃ n song, (playAll g runs m).1[k]? = some (PlayReply.added n song)) ∧
        (100 ≤ k → (playAll g runs m).1[k]? = some PlayReply.queueFull)) := by
  refine ⟨rfl, ?_, ?_⟩
  · intro req o m hreq
    rw [playExecute_queueFull_iff req o g m hreq, ensurePlayerData_queue]
    cases hm : m g with
    | none => simp [MAX_QUEUE_SIZE]
    | some s => simp
  · intro runs m s hm hq hs hok k hk
    have h := playAll_streaming g runs m s hm hs hok k hk
    rw [hq] at h
    simpa [MAX_QUEUE_SIZE] using h

/-- Witness for `playExecute_queue_limit`: one `play` command on a streaming
session with an empty queue is accepted. -/
theorem playExecute_queue_limit_witness :
    ∃ n song,
      (playAll 7 [(sampleRequest, samplePlay)] (GuildMap.empty.set 7 (sampleStreaming []))).1[0]? =
        some (PlayReply.added n song) :=
  ((playExecute_queue_limit 7).2.2 [(sampleRequest, samplePlay)]
      (GuildMap.empty.set 7 (sampleStreaming [])) (sampleStreaming [])
      (GuildMap.set_same _ _ _) rfl (by decide)
      (by intro r hr; simp at hr; subst hr; decide) 0 (by decide)).1 (by decide)

set_option maxRecDepth 100000 in
/-- C1 (counterexample): 102 `play` commands for a guild without a session.  The
first song is taken out of the queue to be played, so the 101st command is
still accepted and only the 102nd is refused. -/
theorem playAll_fresh_guild_accepts_101 :
    GuildMap.empty 7 = none ∧
    sampleRequest.passesChecks = true ∧ resolves sampleRequest samplePlay = true ∧
    (playAll 7 (List.replicate 102 (sampleRequest, samplePlay)) GuildMap.empty).1[100]? =
      some (PlayReply.added 101 (makeSong sampleVideo 1 Source.search)) ∧
    (playAll 7 (List.replicate 102 (sampleRequest, samplePlay)) GuildMap.empty).1[100]? ≠
      some PlayReply.queueFull ∧
    (playAll 7 (List.replicate 102 (sampleRequest, samplePlay)) GuildMap.empty).1[101]? =
      some PlayReply.queueFull := by
  decide

/-! ## Playback order -/

/-- The entry guard of `playNextSong` is passed again after a run that passed it. -/
theorem playNextSongOn_guard_after (o : AdvanceOutcome) (s : Session)
    (hg : (s.lockPlay || s.player.isNone || s.connection.isNone) = false) :
    ((playNextSongOn o s).2.lockPlay || (playNextSongOn o s).2.player.isNone ||
      (playNextSongOn o s).2.connection.isNone) = false := by
  obtain ⟨_, _, _, _, hlock, hplayer, hconn⟩ := playNextSongOn_view o s hg
  simp only [Bool.or_eq_false_iff] at hg ⊢
  refine ⟨⟨hlock, ?_⟩, ?_⟩
  · cases h : (playNextSongOn o s).2.player <;> simp_all
  · rw [hconn]; exact hg.2

theorem runOps_fifo :
    ∀ (ops : List QueueOp) (s : Session), s.loop = LoopMode.none →
      (s.lockPlay || s.player.isNone || s.connection.isNone) = false →
      (∀ o, QueueOp.advance o ∈ ops → o.start.isPlaying = true) →
      startedSongs (runOps ops s).1 ++ (runOps ops s).2.queue = s.queue ++ enqueuedSongs ops := by
  intro ops
  induction ops with
  | nil => intro s _ _ _; simp [runOps, startedSongs, enqueuedSongs]
  | cons op rest ih =>
    intro s hloop hg hok
    cases op with
    | enqueue song =>
      have hrest : ∀ o, QueueOp.advance o ∈ rest → o.start.isPlaying = true :=
        fun o h => hok o (List.mem_cons_of_mem _ h)
      have := ih (enqueueSong song s) hloop hg hrest
      simpa [runOps, enqueuedSongs, enqueueSong, push] using this
    | advance o =>
      have hrest : ∀ o, QueueOp.advance o ∈ rest → o.start.isPlaying = true :=
        fun o h => hok o (List.mem_cons_of_mem _ h)
      have ho : o.start.isPlaying = true := hok o (List.mem_cons_self _ _)
      obtain ⟨hres, hqueue, _, hloop2, _, _, _⟩ := playNextSongOn_view o s hg
      have hih := ih (playNextSongOn o s).2 (hloop2.trans hloop)
        (playNextSongOn_guard_after o s hg) hrest
      rw [selectSong_plain s (Or.inl hloop)] at hres hqueue
      simp only [runOps, enqueuedSongs]
      rw [hqueue] at hih
      cases hq : s.queue with
      | nil =>
        rw [hq] at hres hih
        simp only [List.head?_nil] at hres
        rw [hres]
        simpa [startedSongs] using hih
      | cons t q =>
        rw [hq] at hres hih
        simp only [List.head?_cons, ho, if_true] at hres
        rw [hres]
        simpa [startedSongs] using hih

theorem runOps_enqueues (songs : List Track) (ops : List QueueOp) :
    ∀ s : Session,
      runOps (songs.map QueueOp.enqueue ++ ops) s =
        runOps ops { s with queue := s.queue ++ songs } := by
  induction songs with
  | nil => intro s; simp
  | cons song rest ih =>
    intro s
    have h := ih (enqueueSong song s)
    simp only [List.map_cons, List.cons_append, runOps]
    rw [show (List.map QueueOp.enqueue rest).append ops = List.map QueueOp.enqueue rest ++ ops
      from rfl, h]
    simp [enqueueSong, push]

theorem runOps_advances :
    ∀ (os : List AdvanceOutcome) (s : Session), s.loop = LoopMode.none →
      (s.lockPlay || s.player.isNone || s.connection.isNone) = false →
      (∀ o ∈ os, o.start.isPlaying = true) → os.length ≤ s.queue.length →
      (runOps (os.map QueueOp.advance) s).1 =
        (s.queue.take os.length).map PlayNextResult.started := by
  intro os
  induction os with
  | nil => intro s _ _ _ _; simp [runOps]
  | cons o rest ih =>
    intro s hloop hg hok hlen
    have ho : o.start.isPlaying = true := hok o (List.mem_cons_self _ _)
    have hrest : ∀ o ∈ rest, o.start.isPlaying = true :=
      fun o h => hok o (List.mem_cons_of_mem _ h)
    obtain ⟨hres, hqueue, _, hloop2, _, _, _⟩ := playNextSongOn_view o s hg
    rw [selectSong_plain s (Or.inl hloop)] at hres hqueue
    cases hq : s.queue with
    | nil => rw [hq] at hlen; simp at hlen
    | cons t q =>
      rw [hq] at hres hqueue hlen
      simp only [List.head?_cons, ho, if_true] at hres
      simp only [List.tail_cons] at hqueue
      have hih := ih (playNextSongOn o s).2 (hloop2.trans hloop)
        (playNextSongOn_guard_after o s hg) hrest (by rw [hqueue]; simpa using hlen)
      simp only [List.map_cons, runOps, hres, hih, hqueue, List.length_cons, List.take_succ_cons]

/-- C6: with `loop = "none"` the queue is first in, first out.  A push appends at
the tail; a successful `playNextSong` starts the head of the queue and removes
it, or reports an empty queue; in every run of pushes and successful
`playNextSong` calls the songs started, followed by the songs still queued, are
the initial queue followed by the pushed songs; and pushes followed by
successful calls start the songs in exactly the order of the queue. -/
theorem queue_is_fifo (s : Session) (hloop : s.loop = LoopMode.none)
    (hg : (s.lockPlay || s.player.isNone || s.connection.isNone) = false) :
    (∀ song, (enqueueSong song s).queue = s.queue ++ [song]) ∧
    (∀ o : AdvanceOutcome, o.start.isPlaying = true →
      (playNextSongOn o s).1 =
        (match s.queue.head? with
         | none => PlayNextResult.queueEmpty
         | some song => PlayNextResult.started song) ∧
      (playNextSongOn o s).2.currentSong = s.queue.head? ∧
      (playNextSongOn o s).2.queue = s.queue.tail) ∧
    (∀ ops : List QueueOp, (∀ o, QueueOp.advance o ∈ ops → o.start.isPlaying = true) →
      startedSongs (runOps ops s).1 ++ (runOps ops s).2.queue = s.queue ++ enqueuedSongs ops) ∧
    (∀ (songs : List Track) (os : List AdvanceOutcome),
      (∀ o ∈ os, o.start.isPlaying = true) →
      os.length ≤ (s.queue ++ songs).length →
      (runOps (songs.map QueueOp.enqueue ++ os.map QueueOp.advance) s).1 =
        ((s.queue ++ songs).take os.length).map PlayNextResult.started) := by
  refine ⟨fun song => rfl, ?_, fun ops hok => runOps_fifo ops s hloop hg hok, ?_⟩
  · intro o ho
    obtain ⟨hres, hqueue, hcur, _⟩ := playNextSongOn_view o s hg
    rw [selectSong_plain s (Or.inl hloop)] at hres hqueue hcur
    refine ⟨?_, ?_, hqueue⟩
    · rw [hres]; cases s.queue.head? <;> simp [ho]
    · rw [hcur]; cases s.queue.head? <;> simp [ho]
  · intro songs os hok hlen
    rw [runOps_enqueues]
    exact runOps_advances os _ hloop hg hok hlen

/-- Witness for `queue_is_fifo`: A and B are pushed onto an empty queue and two
calls of `playNextSong` start A, then B. -/
theorem queue_is_fifo_witness :
    (runOps ([sampleTrackA, sampleTrackB].map QueueOp.enqueue ++
        [sampleStart, sampleStart].map QueueOp.advance) (sampleSession [] none LoopMode.none)).1 =
      (([] ++ [sampleTrackA, sampleTrackB]).take 2).map PlayNextResult.started :=
  (queue_is_fifo (sampleSession [] none LoopMode.none) rfl rfl).2.2.2
    [sampleTrackA, sampleTrackB] [sampleStart, sampleStart]
    (by intro o ho; simp at ho; subst ho; rfl) (by decide)

/-! ## Loop modes -/

/-- One successful `playNextSong` in queue loop with a current song: the current
song goes to the tail and the head becomes the current song. -/
theorem playNextSongOn_loop_queue (o : AdvanceOutcome) (s : Session) (c : Track)
    (hg : (s.lockPlay || s.player.isNone || s.connection.isNone) = false)
    (hloop : s.loop = LoopMode.queue) (hc : s.currentSong = some c) :
    ∃ song, song :: (playNextSongOn o s).2.queue = s.queue ++ [c] ∧
      (playNextSongOn o s).1 =
        (if o.start.isPlaying then PlayNextResult.started song else PlayNextResult.failed song) ∧
      (playNextSongOn o s).2.currentSong = (if o.start.isPlaying then some song else none) := by
  obtain ⟨hres, hqueue, hcur, _⟩ := playNextSongOn_view o s hg
  rw [selectSong_queue s c hloop hc] at hres hqueue hcur
  cases hq : s.queue ++ [c] with
  | nil => simp at hq
  | cons song rest =>
    rw [hq] at hres hqueue hcur
    simp only [List.head?_cons, List.tail_cons] at hres hqueue hcur
    exact ⟨song, by rw [hqueue], hres, hcur⟩

/-- After `k` successful calls of `playNextSong` in queue loop, the current song
followed by the queue is the initial current song followed by the initial
queue, rotated by `k` places. -/
theorem advanceAll_loop_queue :
    ∀ (os : List AdvanceOutcome) (s : Session) (c : Track),
      (s.lockPlay || s.player.isNone || s.connection.isNone) = false →
      s.loop = LoopMode.queue → s.currentSong = some c →
      (∀ o ∈ os, o.start.isPlaying = true) →
      ∃ current, (advanceAll os s).2.currentSong = some current ∧
        current :: (advanceAll os s).2.queue = (c :: s.queue).rotate os.length := by
  intro os
  induction os with
  | nil => intro s c _ _ hc _; exact ⟨c, by simpa [advanceAll] using hc, by simp [advanceAll]⟩
  | cons o rest ih =>
    intro s c hg hloop hc hok
    have ho : o.start.isPlaying = true := hok o (List.mem_cons_self _ _)
    have hrest : ∀ o ∈ rest, o.start.isPlaying = true :=
      fun o h => hok o (List.mem_cons_of_mem _ h)
    obtain ⟨song, hrot, _, hcur⟩ := playNextSongOn_loop_queue o s c hg hloop hc
    rw [ho, if_pos rfl] at hcur
    have hloop2 : (playNextSongOn o s).2.loop = LoopMode.queue :=
      (playNextSongOn_view o s hg).2.2.2.1.trans hloop
    obtain ⟨current, h1, h2⟩ := ih (playNextSongOn o s).2 song
      (playNextSongOn_guard_after o s hg) hloop2 hcur hrest
    refine ⟨current, by simpa [advanceAll] using h1, ?_⟩
    have hstep : (c :: s.queue).rotate 1 = s.queue ++ [c] := by simp [List.rotate_cons_succ]
    simp only [advanceAll, List.length_cons]
    rw [h2, hrot, ← hstep, List.rotate_rotate, Nat.add_comm]

/-- C7: from no current song and the queue `[A, B]` in queue loop, three
successful calls of `playNextSong` start A, then B, then A and leave the queue
`[B]`; and in queue loop with a current song, every call that passes the entry
guard puts the current song at the tail of the queue and then takes the head. -/
theorem loop_queue_requeues (s : Session)
    (hg : (s.lockPlay || s.player.isNone || s.connection.isNone) = false)
    (hloop : s.loop = LoopMode.queue) :
    (∀ (A B : Track) (o1 o2 o3 : AdvanceOutcome),
      s.currentSong = none → s.queue = [A, B] →
      o1.start.isPlaying = true → o2.start.isPlaying = true → o3.start.isPlaying = true →
      (advanceAll [o1, o2, o3] s).1 =
        [PlayNextResult.started A, PlayNextResult.started B, PlayNextResult.started A] ∧
      (advanceAll [o1, o2, o3] s).2.queue = [B]) ∧
    (∀ (c : Track) (o : AdvanceOutcome), s.currentSong = some c →
      ∃ song, song :: (playNextSongOn o s).2.queue = s.queue ++ [c] ∧
        (playNextSongOn o s).1 =
          (if o.start.isPlaying then PlayNextResult.started song
            else PlayNextResult.failed song)) := by
  constructor
  · intro A B o1 o2 o3 hc hq h1 h2 h3
    -- first call: nothing to requeue, A is taken from the head
    obtain ⟨r1, q1, c1, l1, _⟩ := playNextSongOn_view o1 s hg
    rw [selectSong_plain s (Or.inr hc), hq] at r1 q1 c1
    simp only [List.head?_cons, h1, if_true, List.tail_cons] at r1 q1 c1
    have g1 := playNextSongOn_guard_after o1 s hg
    -- second call: A goes to the tail, B is taken
    obtain ⟨x2, hx2, r2, c2⟩ := playNextSongOn_loop_queue o2 _ A g1 (l1.trans hloop) c1
    rw [q1] at hx2
    simp only [List.singleton_append, List.cons.injEq] at hx2
    obtain ⟨rfl, q2⟩ := hx2
    rw [h2, if_pos rfl] at r2 c2
    have l2 := (playNextSongOn_view o2 _ g1).2.2.2.1.trans (l1.trans hloop)
    have g2 := playNextSongOn_guard_after o2 _ g1
    -- third call: B goes to the tail, A is taken
    obtain ⟨x3, hx3, r3, _⟩ := playNextSongOn_loop_queue o3 _ x2 g2 l2 c2
    rw [q2] at hx3
    simp only [List.singleton_append, List.cons.injEq] at hx3
    obtain ⟨rfl, q3⟩ := hx3
    rw [h3, if_pos rfl] at r3
    simp only [advanceAll, r1, r2, r3, q3]
    exact ⟨trivial, trivial⟩
  · intro c o hc
    obtain ⟨song, h1, h2, _⟩ := playNextSongOn_loop_queue o s c hg hloop hc
    exact ⟨song, h1, h2⟩

/-- Witness for `loop_queue_requeues`: the scenario with the sample songs A and B. -/
theorem loop_queue_requeues_witness :
    (advanceAll [sampleStart, sampleStart, sampleStart]
        (sampleSession [sampleTrackA, sampleTrackB] none LoopMode.queue)).1 =
      [PlayNextResult.started sampleTrackA, PlayNextResult.started sampleTrackB,
        PlayNextResult.started sampleTrackA] ∧
    (advanceAll [sampleStart, sampleStart, sampleStart]
        (sampleSession [sampleTrackA, sampleTrackB] none LoopMode.queue)).2.queue =
      [sampleTrackB] :=
  (loop_queue_requeues (sampleSession [sampleTrackA, sampleTrackB] none LoopMode.queue) rfl rfl).1
    sampleTrackA sampleTrackB sampleStart sampleStart sampleStart rfl rfl rfl rfl rfl

/-- C8 (as amended): in queue loop with a current song and a queue of length N,
the current song and the queue rotate together, so after `k` successful calls of
`playNextSong` the current song followed by the queue is the initial one rotated
by `k` places; after N + 1 calls the queue is back in its original order and the
current song is the original one. -/
theorem loop_queue_round_trip (os : List AdvanceOutcome) (s : Session) (c : Track)
    (hg : (s.lockPlay || s.player.isNone || s.connection.isNone) = false)
    (hloop : s.loop = LoopMode.queue) (hc : s.currentSong = some c)
    (hok : ∀ o ∈ os, o.start.isPlaying = true) :
    (∃ current, (advanceAll os s).2.currentSong = some current ∧
      current :: (advanceAll os s).2.queue = (c :: s.queue).rotate os.length) ∧
    (os.length = s.queue.length + 1 →
      (advanceAll os s).2.queue = s.queue ∧ (advanceAll os s).2.currentSong = some c) := by
  have h := advanceAll_loop_queue os s c hg hloop hc hok
  refine ⟨h, ?_⟩
  intro hlen
  obtain ⟨current, h1, h2⟩ := h
  have hfull : (c :: s.queue).rotate os.length = c :: s.queue := by
    rw [hlen, ← List.length_cons c s.queue, List.rotate_length]
  rw [hfull] at h2
  simp only [List.cons.injEq] at h2
  exact ⟨h2.2, by rw [h1, h2.1]⟩

/-- Witness for `loop_queue_round_trip`: current song A and queue `[B]`, two calls. -/
theorem loop_queue_round_trip_witness :
    (advanceAll [sampleStart, sampleStart]
        (sampleSession [sampleTrackB] (some sampleTrackA) LoopMode.queue)).2.queue =
      [sampleTrackB] ∧
    (advanceAll [sampleStart, sampleStart]
        (sampleSession [sampleTrackB] (some sampleTrackA) LoopMode.queue)).2.currentSong =
      some sampleTrackA :=
  (loop_queue_round_trip [sampleStart, sampleStart]
    (sampleSession [sampleTrackB] (some sampleTrackA) LoopMode.queue) sampleTrackA rfl rfl rfl
    (by intro o ho; simp at ho; subst ho; rfl)).2 rfl

/-- C8 (counterexample): in queue loop, as many successful calls of
`playNextSong` as the queue is long do not bring the queue back.  With current
song A and queue `[B]`, one call leaves the queue `[A]`; with no current song
and queue `[A, B]`, two calls leave the queue `[A]`. -/
theorem loop_queue_not_back_after_length :
    (sampleSession [sampleTrackB] (some sampleTrackA) LoopMode.queue).queue.length = 1 ∧
    (advanceAll [sampleStart]
        (sampleSession [sampleTrackB] (some sampleTrackA) LoopMode.queue)).1 =
      [PlayNextResult.started sampleTrackB] ∧
    (advanceAll [sampleStart]
        (sampleSession [sampleTrackB] (some sampleTrackA) LoopMode.queue)).2.queue =
      [sampleTrackA] ∧
    (advanceAll [sampleStart]
        (sampleSession [sampleTrackB] (some sampleTrackA) LoopMode.queue)).2.queue ≠
      (sampleSession [sampleTrackB] (some sampleTrackA) LoopMode.queue).queue ∧
    (sampleSession [sampleTrackA, sampleTrackB] none LoopMode.queue).queue.length = 2 ∧
    (advanceAll [sampleStart, sampleStart]
        (sampleSession [sampleTrackA, sampleTrackB] none LoopMode.queue)).1 =
      [PlayNextResult.started sampleTrackA, PlayNextResult.started sampleTrackB] ∧
    (advanceAll [sampleStart, sampleStart]
        (sampleSession [sampleTrackA, sampleTrackB] none LoopMode.queue)).2.queue =
      [sampleTrackA] ∧
    (advanceAll [sampleStart, sampleStart]
        (sampleSession [sampleTrackA, sampleTrackB] none LoopMode.queue)).2.queue ≠
      (sampleSession [sampleTrackA, sampleTrackB] none LoopMode.queue).queue := by
  decide

/-- After any number of successful calls of `playNextSong` in track loop, the
current song and the queue are what they were. -/
theorem advanceAll_loop_track :
    ∀ (os : List AdvanceOutcome) (s : Session) (c : Track),
      (s.lockPlay || s.player.isNone || s.connection.isNone) = false →
      s.loop = LoopMode.track → s.currentSong = some c →
      (∀ o ∈ os, o.start.isPlaying = true) →
      (advanceAll os s).1 = List.replicate os.length (PlayNextResult.started c) ∧
      (advanceAll os s).2.queue = s.queue ∧
      (advanceAll os s).2.currentSong = some c := by
  intro os
  induction os with
  | nil => intro s c _ _ hc _; exact ⟨rfl, rfl, hc⟩
  | cons o rest ih =>
    intro s c hg hloop hc hok
    have ho : o.start.isPlaying = true := hok o (List.mem_cons_self _ _)
    have hrest : ∀ o ∈ rest, o.start.isPlaying = true :=
      fun o h => hok o (List.mem_cons_of_mem _ h)
    obtain ⟨hres, hqueue, hcur, hloop2, _⟩ := playNextSongOn_view o s hg
    rw [selectSong_track s c hloop hc] at hres hqueue hcur
    simp only [ho, if_true] at hres hqueue hcur
    obtain ⟨h1, h2, h3⟩ := ih (playNextSongOn o s).2 c (playNextSongOn_guard_after o s hg)
      (hloop2.trans hloop) hcur hrest
    refine ⟨?_, ?_, ?_⟩
    · simp only [advanceAll, hres, h1, List.length_cons, List.replicate_succ]
    · simp only [advanceAll]; rw [h2, hqueue]
    · simpa [advanceAll] using h3

/-- C9: in track loop with a current song, `playNextSong` leaves the queue as it
is whatever the outcome; a call that passes the entry guard selects the current
song again; and after any number of successful calls the current song is still
the same and the queue still has the same songs in the same order. -/
theorem loop_track_keeps_queue (s : Session) (c : Track)
    (hloop : s.loop = LoopMode.track) (hc : s.currentSong = some c) :
    (∀ o : AdvanceOutcome, (playNextSongOn o s).2.queue = s.queue) ∧
    ((s.lockPlay || s.player.isNone || s.connection.isNone) = false →
      (∀ o : AdvanceOutcome,
        (playNextSongOn o s).1 =
          (if o.start.isPlaying then PlayNextResult.started c else PlayNextResult.failed c) ∧
        (o.start.isPlaying = true → (playNextSongOn o s).2.currentSong = some c)) ∧
      (∀ os : List AdvanceOutcome, (∀ o ∈ os, o.start.isPlaying = true) →
        (advanceAll os s).1 = List.replicate os.length (PlayNextResult.started c) ∧
        (advanceAll os s).2.queue = s.queue ∧
        (advanceAll os s).2.queue.length = s.queue.length ∧
        (advanceAll os s).2.currentSong = some c)) := by
  constructor
  · intro o
    by_cases hg : (s.lockPlay || s.player.isNone || s.connection.isNone) = false
    · have h := (playNextSongOn_view o s hg).2.1
      rw [selectSong_track s c hloop hc] at h
      exact h
    · have hg2 : (s.lockPlay || s.player.isNone || s.connection.isNone) = true :=
        Bool.eq_true_of_not_eq_false hg
      unfold playNextSongOn
      rw [if_pos hg2]
  · intro hg
    constructor
    · intro o
      obtain ⟨hres, _, hcur, _⟩ := playNextSongOn_view o s hg
      rw [selectSong_track s c hloop hc] at hres hcur
      refine ⟨hres, fun ho => ?_⟩
      simpa [ho] using hcur
    · intro os hok
      obtain ⟨h1, h2, h3⟩ := advanceAll_loop_track os s c hg hloop hc hok
      exact ⟨h1, h2, by rw [h2], h3⟩

/-- Witness for `loop_track_keeps_queue`: current song A, queue `[B]`, three calls. -/
theorem loop_track_keeps_queue_witness :
    (advanceAll [sampleStart, sampleStart, sampleStart]
        (sampleSession [sampleTrackB] (some sampleTrackA) LoopMode.track)).1 =
      List.replicate 3 (PlayNextResult.started sampleTrackA) ∧
    (advanceAll [sampleStart, sampleStart, sampleStart]
        (sampleSession [sampleTrackB] (some sampleTrackA) LoopMode.track)).2.queue =
      [sampleTrackB] :=
  have h := ((loop_track_keeps_queue
    (sampleSession [sampleTrackB] (some sampleTrackA) LoopMode.track) sampleTrackA rfl rfl).2 rfl).2
    [sampleStart, sampleStart, sampleStart] (by intro o ho; simp at ho; subst ho; rfl)
  ⟨h.1, h.2.1⟩

/-! ## The entry guard -/

/-- A call of `playNextSong` that is stopped by the entry guard touches no field
but `lockPlay`, which it sets to false (line 299). -/
theorem playNextSongOn_guarded (o : AdvanceOutcome) (s : Session)
    (hg : (s.lockPlay || s.player.isNone || s.connection.isNone) = true) :
    playNextSongOn o s = (PlayNextResult.guarded, { s with lockPlay := false }) := by
  unfold playNextSongOn
  rw [if_pos hg]

/-- C10 (the code at the failing input): `playNextSong` is called for a session
whose `lockPlay` is true while player and connection are bound.  The call
returns at the entry guard, every other field is untouched, but `lockPlay` is
now false, so the session is not the one it was before the call. -/
theorem playNextSongOn_locked_releases_lock :
    ({ sampleStreaming [sampleTrackB] with lockPlay := true } : Session).lockPlay = true ∧
    playNextSongOn sampleStart { sampleStreaming [sampleTrackB] with lockPlay := true } =
      (PlayNextResult.guarded, sampleStreaming [sampleTrackB]) ∧
    (playNextSongOn sampleStart { sampleStreaming [sampleTrackB] with lockPlay := true }).2.lockPlay =
      false ∧
    (playNextSongOn sampleStart { sampleStreaming [sampleTrackB] with lockPlay := true }).2 ≠
      { sampleStreaming [sampleTrackB] with lockPlay := true } := by
  decide


/-! ## Frame facts for the further handlers -/

/-- The edit of the now-playing message touches no field other than
`nowPlayingMessage`. -/
theorem refreshNowPlayingOn_frame (edit : Option ApiError) (s : Session) :
    refreshNowPlayingOn edit s =
      { s with nowPlayingMessage := (refreshNowPlayingOn edit s).nowPlayingMessage } := by
  unfold refreshNowPlayingOn
  repeat' split
  all_goals rfl

@[simp] theorem refreshNowPlayingOn_volume (edit : Option ApiError) (s : Session) :
    (refreshNowPlayingOn edit s).volume = s.volume := by
  rw [refreshNowPlayingOn_frame]

@[simp] theorem refreshNowPlayingOn_queue (edit : Option ApiError) (s : Session) :
    (refreshNowPlayingOn edit s).queue = s.queue := by
  rw [refreshNowPlayingOn_frame]

@[simp] theorem refreshNowPlayingOn_queuePage (edit : Option ApiError) (s : Session) :
    (refreshNowPlayingOn edit s).queuePage = s.queuePage := by
  rw [refreshNowPlayingOn_frame]


/-! ## Overlapping runs of `playNextSong` -/

/-- A run of `playNextSong` is its first half followed, when a song was
selected, by its second half. -/
theorem playNextSongOn_eq_enter_resume (o : AdvanceOutcome) (s : Session) :
    playNextSongOn o s =
      (match playNextSongEnter o s with
       | (EnterResult.guarded, s1) => (PlayNextResult.guarded, s1)
       | (EnterResult.queueEmpty, s1) => (PlayNextResult.queueEmpty, s1)
       | (EnterResult.suspended song, s1) => playNextSongResume o song s1) := by
  unfold playNextSongOn playNextSongEnter playNextSongResume
  split
  · rfl
  · simp only
    split
    · rename_i h; simp only [h]
    · rename_i song h
      simp only [h]

/-- C11 (the code at the failing input): a run of `playNextSong` on the queue
`[A, B]` has selected A and is suspended with `lockPlay = true`.  The first
player Idle event reaches the entry guard, which sets `lockPlay` to false; the
second one therefore passes the guard, takes B out of the queue and makes it
the current song, so that two runs are suspended and two songs were dequeued. -/
theorem idleSignal_twice_dequeues_again :
    playNextSongEnter sampleStart (sampleSession [sampleTrackA, sampleTrackB] none LoopMode.none) =
      (EnterResult.suspended sampleTrackA, sampleInFlight.session) ∧
    sampleInFlight.suspended = [sampleTrackA] ∧
    sampleInFlight.session.lockPlay = true ∧
    sampleInFlight.session.currentSong = some sampleTrackA ∧
    sampleInFlight.session.queue = [sampleTrackB] ∧
    (idleSignal AudioPlayerStatus.Playing sampleStart sampleInFlight).session =
      { sampleInFlight.session with lockPlay := false } ∧
    (idleSignal AudioPlayerStatus.Playing sampleStart sampleInFlight).suspended = [sampleTrackA] ∧
    (idleSignal AudioPlayerStatus.Playing sampleStart
      (idleSignal AudioPlayerStatus.Playing sampleStart sampleInFlight)).suspended =
        [sampleTrackA, sampleTrackB] ∧
    (idleSignal AudioPlayerStatus.Playing sampleStart
      (idleSignal AudioPlayerStatus.Playing sampleStart sampleInFlight)).session.currentSong =
        some sampleTrackB ∧
    (idleSignal AudioPlayerStatus.Playing sampleStart
      (idleSignal AudioPlayerStatus.Playing sampleStart sampleInFlight)).session.queue = [] := by
  decide

/-! ## The empty queue -/

@[simp] theorem updateQueueMessageOn_queuePage (o : QueueMessageOutcome) (s : Session) :
    (updateQueueMessageOn o s).queuePage = s.queuePage := by
  rw [updateQueueMessageOn_frame]

@[simp] theorem updateQueueMessageOn_timeoutId (o : QueueMessageOutcome) (s : Session) :
    (updateQueueMessageOn o s).timeoutId = s.timeoutId := by
  rw [updateQueueMessageOn_frame]

@[simp] theorem updateQueueMessageOn_nowPlayingMessage (o : QueueMessageOutcome) (s : Session) :
    (updateQueueMessageOn o s).nowPlayingMessage = s.nowPlayingMessage := by
  rw [updateQueueMessageOn_frame]

/-- Further fields after one run of `playNextSong` that passes the entry guard. -/
theorem playNextSongOn_view2 (o : AdvanceOutcome) (s : Session)
    (hg : (s.lockPlay || s.player.isNone || s.connection.isNone) = false) :
    (playNextSongOn o s).2.volume = s.volume ∧
    (playNextSongOn o s).2.textChannel = s.textChannel ∧
    (playNextSongOn o s).2.queuePage = s.queuePage ∧
    (playNextSongOn o s).2.timeoutId =
      (match (selectSong s).1 with
       | none => some { handle := o.timerHandle, ms := INACTIVITY_TIMEOUT_MS }
       | some _ => none) := by
  obtain ⟨conn, pl, qu, cur, tc, lp, vol, tm, lk, np, qm, pg⟩ := s
  simp only [Bool.or_eq_false_iff] at hg
  obtain ⟨⟨hlk, hpl⟩, hconn⟩ := hg
  subst hlk
  cases pl with
  | none => simp at hpl
  | some p =>
  cases conn with
  | none => simp at hconn
  | some cn =>
  cases hstart : o.start with
  | playing m =>
    cases lp <;> cases cur <;> cases qu <;>
      simp [playNextSongOn, selectSong, hstart, push, shift, startInactivityTimerOn] <;>
      (try split) <;> simp
  | failed pa =>
    cases lp <;> cases cur <;> cases qu <;>
      simp [playNextSongOn, selectSong, hstart, push, shift, startInactivityTimerOn]


/-- C12: `playNextSong` on a session with player and connection bound,
`lockPlay = false`, an empty queue and no current song ends with nothing
playing: no current song, `lockPlay = false`, the inactivity timer armed with
300000 ms, the now-playing reference cleared.  The only chat calls are the
deletion of the old now-playing message and an edit of the stored queue
message; nothing is sent, and a session without a queue message stays without one. -/
theorem playNextSongOn_nothing_to_play (o : AdvanceOutcome) (s : Session)
    (hg : (s.lockPlay || s.player.isNone || s.connection.isNone) = false)
    (hq : s.queue = []) (hc : s.currentSong = none) :
    (playNextSongOn o s).1 = PlayNextResult.queueEmpty ∧
    (playNextSongOn o s).2.currentSong = none ∧
    (playNextSongOn o s).2.lockPlay = false ∧
    (playNextSongOn o s).2.queue = [] ∧
    (playNextSongOn o s).2.timeoutId = some { handle := o.timerHandle, ms := 300000 } ∧
    (playNextSongOn o s).2.nowPlayingMessage = none ∧
    (s.queueMessage = none → (playNextSongOn o s).2.queueMessage = none) ∧
    playNextSongCalls o s =
      (match s.nowPlayingMessage with
       | some oldNpMsg => [ChatCall.deleteMessage oldNpMsg]
       | none => []) ++
      (match s.textChannel, s.queueMessage with
       | some _, some msg => [ChatCall.editQueueMessage msg]
       | _, _ => []) ∧
    (∀ c ∈ playNextSongCalls o s, c.isSend = false) := by
  obtain ⟨conn, pl, qu, cur, tc, lp, vol, tm, lk, np, qm, pg⟩ := s
  simp only [Bool.or_eq_false_iff] at hg
  obtain ⟨⟨hlk, hpl⟩, hconn⟩ := hg
  simp only at hq hc
  subst hlk hq hc
  cases pl with
  | none => simp at hpl
  | some p =>
  cases conn with
  | none => simp at hconn
  | some cn =>
  have hcalls : playNextSongCalls o
      { connection := some cn, player := some p, queue := [], currentSong := none,
        textChannel := tc, loop := lp, volume := vol, timeoutId := tm, lockPlay := false,
        nowPlayingMessage := np, queueMessage := qm, queuePage := pg } =
      (match np with
       | some oldNpMsg => [ChatCall.deleteMessage oldNpMsg]
       | none => []) ++
      (match tc, qm with
       | some _, some msg => [ChatCall.editQueueMessage msg]
       | _, _ => []) := by
    cases lp <;> cases tc <;> cases qm <;> cases np <;>
      simp [playNextSongCalls, selectSong, shift, updateQueueMessageCalls]
  refine ⟨?_, ?_, ?_, ?_, ?_, ?_, ?_, hcalls, ?_⟩
  · cases lp <;> simp [playNextSongOn, selectSong, shift]
  · cases lp <;> simp [playNextSongOn, selectSong, shift, startInactivityTimerOn]
  · cases lp <;> simp [playNextSongOn, selectSong, shift, startInactivityTimerOn]
  · cases lp <;> simp [playNextSongOn, selectSong, shift, startInactivityTimerOn]
  · cases lp <;>
      simp [playNextSongOn, selectSong, shift, startInactivityTimerOn, INACTIVITY_TIMEOUT_MS]
  · cases lp <;> simp [playNextSongOn, selectSong, shift, startInactivityTimerOn]
  · intro hqm
    simp only at hqm
    subst hqm
    cases lp <;> cases tc <;>
      simp [playNextSongOn, selectSong, shift, startInactivityTimerOn, updateQueueMessageOn]
  · intro c hmem
    rw [hcalls] at hmem
    cases np <;> cases tc <;> cases qm <;> simp at hmem <;>
      (try rcases hmem with h | h) <;> subst_vars <;> rfl

/-- Witness for `playNextSongOn_nothing_to_play`: the idle sample session with an
empty queue. -/
theorem playNextSongOn_nothing_to_play_witness :
    (playNextSongOn sampleStart (sampleSession [] none LoopMode.none)).1 =
      PlayNextResult.queueEmpty ∧
    (playNextSongOn sampleStart (sampleSession [] none LoopMode.none)).2.timeoutId =
      some { handle := 1, ms := 300000 } ∧
    playNextSongCalls sampleStart (sampleSession [] none LoopMode.none) = [] :=
  have h := playNextSongOn_nothing_to_play sampleStart (sampleSession [] none LoopMode.none)
    rfl rfl rfl
  ⟨h.1, h.2.2.2.2.1, h.2.2.2.2.2.2.2.1⟩


/-! ## The retry chain ends -/

/-- The retry chain on a session whose next songs all come from the head of the
queue: each queued song is tried once, then the queue is found empty. -/
theorem retryChain_plain :
    ∀ (queue : List Track) (fuel : Nat) (outcomes : Nat → AdvanceOutcome) (s : Session),
      s.queue = queue →
      (s.lockPlay || s.player.isNone || s.connection.isNone) = false →
      (s.loop = LoopMode.none ∨ s.currentSong = none) →
      (∀ i, (outcomes i).start.isPlaying = false) →
      queue.length + 1 ≤ fuel →
      (retryChain fuel outcomes s).1 =
        queue.map PlayNextResult.failed ++ [PlayNextResult.queueEmpty] ∧
      (retryChain fuel outcomes s).2.queue = [] ∧
      (retryChain fuel outcomes s).2.currentSong = none ∧
      (retryChain fuel outcomes s).2.lockPlay = false ∧
      (∃ handle, (retryChain fuel outcomes s).2.timeoutId =
        some { handle := handle, ms := INACTIVITY_TIMEOUT_MS }) := by
  intro queue
  induction queue with
  | nil =>
    intro fuel outcomes s hq hg hmode _ hfuel
    obtain ⟨fuel, rfl⟩ : ∃ k, fuel = k + 1 := ⟨fuel - 1, by simp at hfuel; omega⟩
    obtain ⟨hres, hqueue, hcur, _, hlock, _, _⟩ := playNextSongOn_view (outcomes 0) s hg
    obtain ⟨_, _, _, htimer⟩ := playNextSongOn_view2 (outcomes 0) s hg
    rw [selectSong_plain s hmode, hq] at hres hqueue hcur htimer
    simp only [List.head?_nil, List.tail_nil] at hres hqueue hcur htimer
    simp only [retryChain, hres, List.map_nil, List.nil_append]
    exact ⟨trivial, hqueue, hcur, hlock, _, htimer⟩
  | cons t rest ih =>
    intro fuel outcomes s hq hg hmode hfail hfuel
    obtain ⟨fuel, rfl⟩ : ∃ k, fuel = k + 1 := ⟨fuel - 1, by simp at hfuel; omega⟩
    obtain ⟨hres, hqueue, hcur, _, _, _, _⟩ := playNextSongOn_view (outcomes 0) s hg
    rw [selectSong_plain s hmode, hq] at hres hqueue hcur
    simp only [List.head?_cons, List.tail_cons, hfail 0, Bool.false_eq_true, if_false]
      at hres hqueue hcur
    have hih := ih fuel (fun i => outcomes (i + 1)) (playNextSongOn (outcomes 0) s).2 hqueue
      (playNextSongOn_guard_after (outcomes 0) s hg) (Or.inr hcur) (fun i => hfail (i + 1))
      (by simp at hfuel; omega)
    simp only [retryChain, hres, List.map_cons, List.cons_append]
    exact ⟨by rw [hih.1], hih.2⟩

/-- C13: when every attempt to start a song fails, the chain of `playNextSong`
calls and retries ends, in every loop mode.  The songs tried are the looped
current song (if any) and the queued songs, each once; a song that failed is
neither selected again nor put back; there are at most queue length + 1
attempts; and the chain ends with an empty queue, no current song,
`lockPlay = false` and the inactivity timer armed. -/
theorem retryChain_terminates (fuel : Nat) (outcomes : Nat → AdvanceOutcome) (s : Session)
    (hg : (s.lockPlay || s.player.isNone || s.connection.isNone) = false)
    (hfail : ∀ i, (outcomes i).start.isPlaying = false)
    (hfuel : s.queue.length + 2 ≤ fuel) :
    (retryChain fuel outcomes s).1 =
      (songsToTry s).map PlayNextResult.failed ++ [PlayNextResult.queueEmpty] ∧
    (songsToTry s).length ≤ s.queue.length + 1 ∧
    (retryChain fuel outcomes s).2.queue = [] ∧
    (retryChain fuel outcomes s).2.currentSong = none ∧
    (retryChain fuel outcomes s).2.lockPlay = false ∧
    (∃ handle, (retryChain fuel outcomes s).2.timeoutId =
      some { handle := handle, ms := INACTIVITY_TIMEOUT_MS }) := by
  by_cases hmode : s.loop = LoopMode.none ∨ s.currentSong = none
  · have htry : songsToTry s = s.queue := by
      rcases hmode with h | h
      · simp [songsToTry, h]
      · cases hl : s.loop <;> simp [songsToTry, h, hl]
    rw [htry]
    have h := retryChain_plain s.queue fuel outcomes s rfl hg hmode hfail (by omega)
    exact ⟨h.1, by omega, h.2⟩
  · obtain ⟨c, hc⟩ : ∃ c, s.currentSong = some c := by
      cases h : s.currentSong with
      | none => exact absurd (Or.inr h) hmode
      | some c => exact ⟨c, rfl⟩
    obtain ⟨fuel, rfl⟩ : ∃ k, fuel = k + 1 := ⟨fuel - 1, by omega⟩
    obtain ⟨hres, hqueue, hcur, _, _, _, _⟩ := playNextSongOn_view (outcomes 0) s hg
    have hguard := playNextSongOn_guard_after (outcomes 0) s hg
    cases hl : s.loop with
    | none => exact absurd (Or.inl hl) hmode
    | track =>
      rw [selectSong_track s c hl hc] at hres hqueue hcur
      simp only [hfail 0, Bool.false_eq_true, if_false] at hres hcur
      have h := retryChain_plain s.queue fuel (fun i => outcomes (i + 1))
        (playNextSongOn (outcomes 0) s).2 hqueue hguard (Or.inr hcur)
        (fun i => hfail (i + 1)) (by omega)
      have htry : songsToTry s = c :: s.queue := by simp [songsToTry, hl, hc]
      rw [htry]
      simp only [retryChain, hres, List.map_cons, List.cons_append, List.length_cons]
      exact ⟨by rw [h.1], by omega, h.2⟩
    | queue =>
      rw [selectSong_queue s c hl hc] at hres hqueue hcur
      have htry : songsToTry s = s.queue ++ [c] := by simp [songsToTry, hl, hc]
      rw [htry]
      cases hq : s.queue ++ [c] with
      | nil => simp at hq
      | cons t rest =>
        rw [hq] at hres hqueue hcur
        simp only [List.head?_cons, List.tail_cons, hfail 0, Bool.false_eq_true, if_false]
          at hres hqueue hcur
        have hlen : rest.length = s.queue.length := by
          have := congrArg List.length hq
          simp at this
          omega
        have h := retryChain_plain rest fuel (fun i => outcomes (i + 1))
          (playNextSongOn (outcomes 0) s).2 hqueue hguard (Or.inr hcur)
          (fun i => hfail (i + 1)) (by omega)
        simp only [retryChain, hres, List.map_cons, List.cons_append, List.length_cons]
        exact ⟨by rw [h.1], by omega, h.2⟩

/-- Witness for `retryChain_terminates`: queue loop, current song A, queue `[B]`,
every start fails: B is tried, then A, then the queue is found empty. -/
theorem retryChain_terminates_witness :
    (retryChain 3 (fun _ => sampleFailure)
        (sampleSession [sampleTrackB] (some sampleTrackA) LoopMode.queue)).1 =
      [PlayNextResult.failed sampleTrackB, PlayNextResult.failed sampleTrackA,
        PlayNextResult.queueEmpty] ∧
    (retryChain 3 (fun _ => sampleFailure)
        (sampleSession [sampleTrackB] (some sampleTrackA) LoopMode.queue)).2.queue = [] :=
  have h := retryChain_terminates 3 (fun _ => sampleFailure)
    (sampleSession [sampleTrackB] (some sampleTrackA) LoopMode.queue) rfl (fun _ => rfl)
    (by decide)
  ⟨h.1, h.2.2.1⟩


/-! ## Teardown -/

/-- The map after the detailed run of `cleanupGuild` is the map after `cleanupGuild`. -/
theorem cleanupGuildRun_map (o : CleanupOutcome) (g : GuildId) (m : GuildMap) :
    (cleanupGuildRun o g m).2 = cleanupGuild g m := by
  unfold cleanupGuildRun cleanupGuild
  cases m g <;> rfl

theorem cleanupGuild_absent (g : GuildId) (m : GuildMap) : (cleanupGuild g m) g = none := by
  unfold cleanupGuild
  cases h : m g with
  | none => simpa using h
  | some s => simp [GuildMap.delete]

theorem cleanupGuild_other (g k : GuildId) (m : GuildMap) (hk : k ≠ g) :
    (cleanupGuild g m) k = m k := by
  unfold cleanupGuild
  cases h : m g with
  | none => rfl
  | some s => simp [GuildMap.delete, hk]

theorem cleanupGuildRun_of_none (o : CleanupOutcome) (g : GuildId) (m : GuildMap)
    (h : m g = none) :
    cleanupGuildRun o g m = ({ actions := [], warnings := 0, released := none }, m) := by
  simp [cleanupGuildRun, h]

/-- C14: `cleanupGuild` for a guild without a session does nothing: the map is
unchanged and no releasing step is taken.  Hence a second call right after a
first one leaves the map as the first call left it and takes no releasing step. -/
theorem cleanupGuild_idempotent (o o2 : CleanupOutcome) (g : GuildId) (m : GuildMap) :
    (m g = none →
      (cleanupGuildRun o g m).2 = m ∧ (cleanupGuildRun o g m).1.actions = [] ∧
      (cleanupGuildRun o g m).1.released = none ∧ cleanupGuild g m = m) ∧
    (cleanupGuildRun o2 g (cleanupGuildRun o g m).2).2 = (cleanupGuildRun o g m).2 ∧
    (cleanupGuildRun o2 g (cleanupGuildRun o g m).2).1.actions = [] ∧
    cleanupGuild g (cleanupGuild g m) = cleanupGuild g m := by
  have habs : (cleanupGuildRun o g m).2 g = none := by
    rw [cleanupGuildRun_map]; exact cleanupGuild_absent g m
  refine ⟨?_, ?_, ?_, ?_⟩
  · intro h
    rw [cleanupGuildRun_of_none o g m h]
    exact ⟨rfl, rfl, rfl, by simp [cleanupGuild, h]⟩
  · rw [cleanupGuildRun_of_none o2 g _ habs]
  · rw [cleanupGuildRun_of_none o2 g _ habs]
  · have h2 := cleanupGuild_absent g m
    generalize cleanupGuild g m = m1 at h2 ⊢
    simp [cleanupGuild, h2]

/-- Witness for `cleanupGuild_idempotent`: the empty map has no session for guild 7. -/
theorem cleanupGuild_idempotent_witness :
    (cleanupGuildRun sampleCleanup 7 GuildMap.empty).2 = GuildMap.empty ∧
    (cleanupGuildRun sampleCleanup 7 GuildMap.empty).1.actions = [] :=
  have h := (cleanupGuild_idempotent sampleCleanup sampleCleanup 7 GuildMap.empty).1 rfl
  ⟨h.1, h.2.1⟩

/-- Whatever the session holds and whatever the collaborators answer,
`cleanupGuild` ends with no entry for the guild in the map and has called
`guildPlayerData.delete`.  Afterwards every lookup for the guild finds no
session, the handlers that only look the session up leave it absent, and
`ensurePlayerData` creates a fresh session.  Other guilds are untouched. -/
theorem cleanupGuildRun_removes_entry (o : CleanupOutcome) (g : GuildId) (m : GuildMap)
    (s : Session) (hs : m g = some s) :
    (cleanupGuildRun o g m).2 g = none ∧
    CleanupAction.deleteEntry ∈ (cleanupGuildRun o g m).1.actions ∧
    getPlayerData g (cleanupGuildRun o g m).2 = none ∧
    (cleanupGuildRun o g m).2.has g = false ∧
    (∀ a : AdvanceOutcome,
      (playNextSong a g (cleanupGuildRun o g m).2).2 = (cleanupGuildRun o g m).2) ∧
    (∀ q : QueueMessageOutcome,
      updateQueueMessage q g (cleanupGuildRun o g m).2 = (cleanupGuildRun o g m).2) ∧
    (∀ tc, (ensurePlayerData g tc (cleanupGuildRun o g m).2).2 g = some (newSession tc)) ∧
    (∀ k, k ≠ g → (cleanupGuildRun o g m).2 k = m k) := by
  have habs : (cleanupGuildRun o g m).2 g = none := by
    rw [cleanupGuildRun_map]; exact cleanupGuild_absent g m
  refine ⟨habs, ?_, habs, ?_, ?_, ?_, ?_, ?_⟩
  · have hfin : ∀ pd : Session, CleanupAction.deleteEntry ∈ (cleanupGuildFinish o pd).2 := by
      intro pd
      unfold cleanupGuildFinish
      split
      · split <;> simp
      · simp
    simp only [cleanupGuildRun, hs]
    exact List.mem_append_right _ (hfin _)
  · simp [GuildMap.has, habs]
  · intro a
    simp [playNextSong, habs]
  · intro q
    simp [updateQueueMessage, habs]
  · intro tc
    rw [ensurePlayerData_of_none g tc _ habs]
    simp
  · intro k hk
    rw [cleanupGuildRun_map]
    exact cleanupGuild_other g k m hk

set_option maxRecDepth 100000 in
/-- C15 (the code at the failing input): guild 0 plays song A with an empty
queue and holds a now-playing message and a queue message; its voice connection
is already destroyed when `cleanupGuild` runs.  The call `stop(true)` makes the
player report Idle at once, and the listener calls `playNextSong`, which takes the
now-playing message and waits for its deletion; `cleanupGuild` then waits for the
deletion of the queue message.  The run of `playNextSong` goes on first: it finds
the queue empty and starts inactivity timer 1.  `cleanupGuild` goes on, does not
destroy the connection a second time and deletes the entry: the map holds no
entry for guild 0, and timer 1, set after the only `clearTimeout`, stays pending
and stored in the released session.  With a connection that `cleanupGuild` itself
destroys, and when the deletion awaited by `cleanupGuild` is answered first, no
timer stays pending. -/
theorem cleanupGuild_leaves_timer_pending :
    (cleanupGuildRun sampleTeardown 0 (sampleMapOf sampleDestroyed)).2 0 = none ∧
    (cleanupGuildRun sampleTeardown 0 (sampleMapOf sampleDestroyed)).1.actions =
      [CleanupAction.stopPlayer,
       CleanupAction.deleteMessage { id := 1 },
       CleanupAction.deleteMessage { id := 2 },
       CleanupAction.setTimeout { handle := 1, ms := 300000 },
       CleanupAction.deleteEntry] ∧
    (cleanupGuildRun sampleTeardown 0 (sampleMapOf sampleDestroyed)).1.released.map
      (fun s => (s.timeoutId, s.nowPlayingMessage, s.queueMessage)) =
      some (some { handle := 1, ms := 300000 }, none, none) ∧
    applyTimerCalls 0
      (cleanupGuildRun sampleTeardown 0 (sampleMapOf sampleDestroyed)).1.actions [] = [(1, 0)] ∧
    (cleanupGuildRun sampleTeardown 0 (sampleMapOf sampleAnnounced)).1.actions =
      [CleanupAction.stopPlayer,
       CleanupAction.deleteMessage { id := 1 },
       CleanupAction.deleteMessage { id := 2 },
       CleanupAction.setTimeout { handle := 1, ms := 300000 },
       CleanupAction.destroyConnection,
       CleanupAction.clearTimeout { handle := 1, ms := 300000 },
       CleanupAction.stopPlayer,
       CleanupAction.deleteEntry,
       CleanupAction.deleteEntry] ∧
    applyTimerCalls 0
      (cleanupGuildRun sampleTeardown 0 (sampleMapOf sampleAnnounced)).1.actions [] = [] ∧
    applyTimerCalls 0
      (cleanupGuildRun sampleCleanup 0 (sampleMapOf sampleDestroyed)).1.actions [] = [] := by
  decide


/-! ## Volume applied when a song starts -/

/-- The resource bound by a successful run of `playNextSong` carries the volume
of the session at that moment. -/
theorem playNextSongOn_resource (o : AdvanceOutcome) (s : Session) (song : Track)
    (hg : (s.lockPlay || s.player.isNone || s.connection.isNone) = false)
    (hstart : o.start.isPlaying = true)
    (hres : (playNextSongOn o s).1 = PlayNextResult.started song) :
    (playNextSongOn o s).2.player =
      some { status := AudioPlayerStatus.Playing,
             resource := some { track := song, volumePercent := s.volume } } := by
  obtain ⟨conn, pl, qu, cur, tc, lp, vol, tm, lk, np, qm, pg⟩ := s
  simp only [Bool.or_eq_false_iff] at hg
  obtain ⟨⟨hlk, hpl⟩, hconn⟩ := hg
  subst hlk
  cases pl with
  | none => simp at hpl
  | some p =>
  cases conn with
  | none => simp at hconn
  | some cn =>
  cases hst : o.start with
  | failed pa => rw [hst] at hstart; simp [StartOutcome.isPlaying] at hstart
  | playing m =>
    revert hres
    cases lp <;> cases cur <;> cases qu <;>
      simp [playNextSongOn, selectSong, hst, push, shift, startInactivityTimerOn] <;>
      (try split) <;> simp


theorem playNextSongOn_started_isPlaying (o : AdvanceOutcome) (s : Session) (song : Track)
    (hg : (s.lockPlay || s.player.isNone || s.connection.isNone) = false)
    (hres : (playNextSongOn o s).1 = PlayNextResult.started song) :
    o.start.isPlaying = true := by
  have h := (playNextSongOn_view o s hg).1
  rw [hres] at h
  cases hsel : (selectSong s).1 with
  | none => rw [hsel] at h; simp at h
  | some t =>
    rw [hsel] at h
    by_cases hp : o.start.isPlaying = true
    · exact hp
    · simp [hp] at h

/-- What the `volume` command does with the argument "150" once the caller
checks are passed. -/
theorem volumeExecute_150 (vo : VolumeOutcome) (vc : ChannelId) (s : Session) (p : Player)
    (hp : s.player = some p) (hvc : s.connection.map (fun c => c.channelId) = some vc) :
    ∃ after, (volumeExecute vo (some vc) (some "150") (some s)).2 = some after ∧
      after.volume = 150 ∧ after.lockPlay = s.lockPlay ∧ after.connection = s.connection ∧
      after.player.isSome = true := by
  have hparse : parseIntArg (some "150") = some 150 := by decide
  have hne : ¬ ((some "150" : Option String) = none ∨ (some "150" : Option String) = some "") := by
    decide
  unfold volumeExecute
  simp only [hp, hvc, ne_eq, not_true_eq_false, if_false, hne, hparse]
  rw [if_neg (by decide)]
  split
  · exact ⟨_, rfl, rfl, rfl, rfl, rfl⟩
  · refine ⟨_, rfl, ?_, ?_, ?_, ?_⟩
    all_goals
      rw [refreshNowPlayingOn_frame]
      try rfl

/-- C18: the volume applied to a song when `playNextSong` starts it is the
volume of the session at that moment: the resource is bound with
`setVolumeLogarithmic(volume / 100)`.  In particular, after the `volume` command
stored 150, the next song starts with `setVolumeLogarithmic(1.5)`, not with the
default 50. -/
theorem volume_applied_at_start :
    (∀ (o : AdvanceOutcome) (s : Session) (song : Track),
      (s.lockPlay || s.player.isNone || s.connection.isNone) = false →
      (playNextSongOn o s).1 = PlayNextResult.started song →
      ∃ r : Resource,
        (playNextSongOn o s).2.player =
          some { status := AudioPlayerStatus.Playing, resource := some r } ∧
        r.track = song ∧ r.volumePercent = s.volume ∧
        r.logarithmicVolume = (s.volume : ℚ) / 100) ∧
    (∀ (vo : VolumeOutcome) (o : AdvanceOutcome) (vc : ChannelId) (s : Session) (p : Player)
        (song : Track),
      (s.lockPlay || s.player.isNone || s.connection.isNone) = false →
      s.player = some p → p.resource = none →
      s.connection.map (fun c => c.channelId) = some vc →
      ∃ tuned, (volumeExecute vo (some vc) (some "150") (some s)).2 = some tuned ∧
        tuned.volume = 150 ∧
        ((playNextSongOn o tuned).1 = PlayNextResult.started song →
          ∃ r : Resource,
            (playNextSongOn o tuned).2.player =
              some { status := AudioPlayerStatus.Playing, resource := some r } ∧
            r.volumePercent = 150 ∧ r.logarithmicVolume = 3 / 2)) := by
  constructor
  · intro o s song hg hres
    have hstart := playNextSongOn_started_isPlaying o s song hg hres
    exact ⟨_, playNextSongOn_resource o s song hg hstart hres, rfl, rfl, rfl⟩
  · intro vo o vc s p song hg hp _ hvc
    obtain ⟨tuned, h1, h2, h3, h4, h5⟩ := volumeExecute_150 vo vc s p hp hvc
    refine ⟨tuned, h1, h2, ?_⟩
    intro hres
    have hg2 : (tuned.lockPlay || tuned.player.isNone || tuned.connection.isNone) = false := by
      simp only [Bool.or_eq_false_iff] at hg ⊢
      refine ⟨⟨by rw [h3]; exact hg.1.1, ?_⟩, by rw [h4]; exact hg.2⟩
      cases hpl : tuned.player <;> simp_all
    have hstart := playNextSongOn_started_isPlaying o tuned song hg2 hres
    refine ⟨_, playNextSongOn_resource o tuned song hg2 hstart hres, h2, ?_⟩
    simp only [Resource.logarithmicVolume, h2]
    norm_num

/-- Witness for `volume_applied_at_start`: the idle sample session with song A
queued.  Started as it is, A gets the volume 50 of the session; after the volume
is set to 150, A is started with 150. -/
theorem volume_applied_at_start_witness :
    (∃ r : Resource,
      (playNextSongOn sampleStart (sampleSession [sampleTrackA] none LoopMode.none)).2.player =
        some { status := AudioPlayerStatus.Playing, resource := some r } ∧
      r.track = sampleTrackA ∧
      r.volumePercent = (sampleSession [sampleTrackA] none LoopMode.none).volume ∧
      r.logarithmicVolume =
        ((sampleSession [sampleTrackA] none LoopMode.none).volume : ℚ) / 100) ∧
    (∃ tuned,
      (volumeExecute sampleVolume (some 5) (some "150")
        (some (sampleSession [sampleTrackA] none LoopMode.none))).2 = some tuned ∧
      tuned.volume = 150 ∧
      (playNextSongOn sampleStart tuned).1 = PlayNextResult.started sampleTrackA ∧
      ∃ r : Resource,
        (playNextSongOn sampleStart tuned).2.player =
          some { status := AudioPlayerStatus.Playing, resource := some r } ∧
        r.volumePercent = 150 ∧ r.logarithmicVolume = 3 / 2) := by
  constructor
  · exact volume_applied_at_start.1 sampleStart
      (sampleSession [sampleTrackA] none LoopMode.none) sampleTrackA rfl (by decide)
  · obtain ⟨tuned, h1, h2, h3⟩ := volume_applied_at_start.2 sampleVolume sampleStart 5
      (sampleSession [sampleTrackA] none LoopMode.none)
      { status := AudioPlayerStatus.Idle, resource := none } sampleTrackA rfl rfl rfl rfl
    have he : (volumeExecute sampleVolume (some 5) (some "150")
        (some (sampleSession [sampleTrackA] none LoopMode.none))).2 =
        some { sampleSession [sampleTrackA] none LoopMode.none with volume := 150 } := by
      decide
    have hstart : (playNextSongOn sampleStart tuned).1 =
        PlayNextResult.started sampleTrackA := by
      rw [he] at h1
      cases h1
      decide
    exact ⟨tuned, h1, h2, hstart, h3 hstart⟩

/-! ## Queue button ids carry their page -/

theorem digitChar_facts : ∀ d : Fin 10,
    (Nat.digitChar d.val).isDigit = true ∧ (Nat.digitChar d.val).toNat - 48 = d.val ∧
    Nat.digitChar d.val ≠ '_' ∧ Nat.digitChar d.val ≠ '-' ∧ Nat.digitChar d.val ≠ '+' ∧
    isJsWhiteSpace (Nat.digitChar d.val) = false := by
  decide

theorem toDigitsCore_spec :
    ∀ (fuel n : Nat) (ds : List Char), n < fuel →
      ∃ pre : List Char, Nat.toDigitsCore 10 fuel n ds = pre ++ ds ∧ pre ≠ [] ∧
        (∀ c ∈ pre, IsDigitChar c) ∧ digitsValue pre = n := by
  intro fuel
  induction fuel with
  | zero => intro n ds h; omega
  | succ fuel ih =>
    intro n ds h
    simp only [Nat.toDigitsCore]
    have hd : IsDigitChar (Nat.digitChar (n % 10)) := ⟨⟨n % 10, by omega⟩, rfl⟩
    have hval : (Nat.digitChar (n % 10)).toNat - 48 = n % 10 :=
      (digitChar_facts ⟨n % 10, by omega⟩).2.1
    by_cases h0 : n / 10 = 0
    · rw [if_pos h0]
      refine ⟨[Nat.digitChar (n % 10)], rfl, by simp, ?_, ?_⟩
      · intro c hc
        simp only [List.mem_singleton] at hc
        rw [hc]; exact hd
      · simp only [digitsValue, List.foldl_cons, List.foldl_nil, hval]
        omega
    · rw [if_neg h0]
      obtain ⟨pre, h1, _, h3, h4⟩ := ih (n / 10) (Nat.digitChar (n % 10) :: ds) (by omega)
      refine ⟨pre ++ [Nat.digitChar (n % 10)], by simp [h1], by simp, ?_, ?_⟩
      · intro c hc
        simp only [List.mem_append, List.mem_singleton] at hc
        rcases hc with hc | hc
        · exact h3 c hc
        · rw [hc]; exact hd
      · simp only [digitsValue] at h4 ⊢
        rw [List.foldl_append, h4]
        simp only [List.foldl_cons, List.foldl_nil, hval]
        omega

theorem natRepr_spec (n : Nat) :
    ∃ pre : List Char, (toString n).toList = pre ∧ pre ≠ [] ∧
      (∀ c ∈ pre, IsDigitChar c) ∧ digitsValue pre = n := by
  obtain ⟨pre, h1, h2, h3, h4⟩ := toDigitsCore_spec (n + 1) n [] (by omega)
  refine ⟨pre, ?_, h2, h3, h4⟩
  show (Nat.repr n).toList = pre
  simp only [Nat.repr, Nat.toDigits, h1, List.append_nil]
  rfl

theorem parseInt_digits (pre : List Char) (hne : pre ≠ []) (hd : ∀ c ∈ pre, IsDigitChar c) :
    parseInt (String.mk pre) = some (digitsValue pre : Int) ∧
    parseInt (String.mk ('-' :: pre)) = some (-(digitsValue pre : Int)) := by
  obtain ⟨c, rest, rfl⟩ := List.exists_cons_of_ne_nil hne
  obtain ⟨d, hc⟩ := hd c (List.mem_cons_self _ _)
  obtain ⟨_, _, _, hm, hp, hw⟩ := digitChar_facts d
  rw [← hc] at hm hp hw
  have htake : List.takeWhile Char.isDigit (c :: rest) = c :: rest := by
    rw [List.takeWhile_eq_self_iff]
    intro x hx
    obtain ⟨e, he⟩ := hd x hx
    rw [he]
    exact (digitChar_facts e).1
  constructor
  · simp only [parseInt, String.toList, List.dropWhile_cons, hw, Bool.false_eq_true, if_false,
      List.head?_cons]
    have h1 : (some c == some '-') = false := by simpa using hm
    have h2 : (some c == some '+') = false := by simpa using hp
    simp only [h1, h2, Bool.or_self, Bool.false_eq_true, if_false, htake]
    simp
  · have hwm : isJsWhiteSpace '-' = false := by decide
    simp only [parseInt, String.toList, List.dropWhile_cons, hwm, Bool.false_eq_true, if_false,
      List.head?_cons]
    simp only [beq_self_eq_true, Bool.true_or, if_true, List.tail_cons, htake]
    simp

/-- The numeral written by a template string is read back by `parseInt`. -/
theorem parseInt_showInt (k : Int) : parseInt (showInt k) = some k := by
  cases k with
  | ofNat n =>
    obtain ⟨pre, h1, h2, h3, h4⟩ := natRepr_spec n
    have hs : showInt (Int.ofNat n) = String.mk pre := by
      show toString n = String.mk pre
      subst h1
      rfl
    rw [hs, (parseInt_digits pre h2 h3).1, h4]
    rfl
  | negSucc n =>
    obtain ⟨pre, h1, h2, h3, h4⟩ := natRepr_spec (n + 1)
    have hs : showInt (Int.negSucc n) = String.mk ('-' :: pre) := by
      show "-" ++ toString (n + 1) = String.mk ('-' :: pre)
      subst h1
      rfl
    rw [hs, (parseInt_digits pre h2 h3).2, h4]
    rfl

theorem splitUnderscore_plain : ∀ l : List Char, '_' ∉ l → splitUnderscore l = [l] := by
  intro l
  induction l with
  | nil => intro _; rfl
  | cons c rest ih =>
    intro h
    simp only [List.mem_cons, not_or] at h
    have hc : ¬ c = '_' := fun e => h.1 e.symm
    simp only [splitUnderscore, if_neg hc, ih h.2]

theorem showInt_no_underscore (k : Int) : '_' ∉ (showInt k).toList := by
  have hnat : ∀ n : Nat, '_' ∉ (toString n).toList := by
    intro n hmem
    obtain ⟨pre, h1, _, h3, _⟩ := natRepr_spec n
    rw [h1] at hmem
    obtain ⟨d, hd⟩ := h3 _ hmem
    exact (digitChar_facts d).2.2.1 hd.symm
  cases k with
  | ofNat n => exact hnat n
  | negSucc n =>
    intro hmem
    have hs : (showInt (Int.negSucc n)).toList = '-' :: (toString (n + 1)).toList := rfl
    rw [hs, List.mem_cons] at hmem
    rcases hmem with h | h
    · exact absurd h (by decide)
    · exact hnat (n + 1) h

theorem splitUnderscore_next (rest : List Char) (h : '_' ∉ rest) :
    splitUnderscore ('q' :: 'u' :: 'e' :: 'u' :: 'e' :: '_' :: 'n' :: 'e' :: 'x' :: 't' :: '_' :: rest) =
      [['q', 'u', 'e', 'u', 'e'], ['n', 'e', 'x', 't'], rest] := by
  simp [splitUnderscore, splitUnderscore_plain rest h]

theorem splitUnderscore_prev (rest : List Char) (h : '_' ∉ rest) :
    splitUnderscore ('q' :: 'u' :: 'e' :: 'u' :: 'e' :: '_' :: 'p' :: 'r' :: 'e' :: 'v' :: '_' :: rest) =
      [['q', 'u', 'e', 'u', 'e'], ['p', 'r', 'e', 'v'], rest] := by
  simp [splitUnderscore, splitUnderscore_plain rest h]

/-- The ids that `createQueueButtons` gives its buttons are queue button ids
that name their direction and carry the page they were made for. -/
theorem createQueueButtons_ids (currentPage pages : Int) :
    startsWith (createQueueButtons currentPage pages).nextId "queue_" = true ∧
    buttonDirection (createQueueButtons currentPage pages).nextId = some "next" ∧
    buttonPage (createQueueButtons currentPage pages).nextId = some currentPage ∧
    startsWith (createQueueButtons currentPage pages).prevId "queue_" = true ∧
    buttonDirection (createQueueButtons currentPage pages).prevId = some "prev" ∧
    buttonPage (createQueueButtons currentPage pages).prevId = some currentPage := by
  have hno := showInt_no_underscore currentPage
  have hparse := parseInt_showInt currentPage
  have hnext : (createQueueButtons currentPage pages).nextId.toList =
      'q' :: 'u' :: 'e' :: 'u' :: 'e' :: '_' :: 'n' :: 'e' :: 'x' :: 't' :: '_' ::
        (showInt currentPage).toList := rfl
  have hprev : (createQueueButtons currentPage pages).prevId.toList =
      'q' :: 'u' :: 'e' :: 'u' :: 'e' :: '_' :: 'p' :: 'r' :: 'e' :: 'v' :: '_' ::
        (showInt currentPage).toList := rfl
  have hmk : String.mk (showInt currentPage).toList = showInt currentPage := rfl
  refine ⟨?_, ?_, ?_, ?_, ?_, ?_⟩
  · unfold startsWith
    rw [hnext]
    rfl
  · unfold buttonDirection
    rw [hnext, splitUnderscore_next _ hno]
    rfl
  · unfold buttonPage
    rw [hnext, splitUnderscore_next _ hno]
    show parseInt (String.mk (showInt currentPage).toList) = some currentPage
    rw [hmk, hparse]
  · unfold startsWith
    rw [hprev]
    rfl
  · unfold buttonDirection
    rw [hprev, splitUnderscore_prev _ hno]
    rfl
  · unfold buttonPage
    rw [hprev, splitUnderscore_prev _ hno]
    show parseInt (String.mk (showInt currentPage).toList) = some currentPage
    rw [hmk, hparse]


/-! ## Pagination clicks -/

theorem GuildMap.set_self (m : GuildMap) (g : GuildId) (s : Session) (h : m g = some s) :
    m.set g s = m := by
  funext k
  by_cases hk : k = g
  · subst hk; simp [GuildMap.set, h]
  · simp [GuildMap.set, hk]

theorem startsWith_queue_not_np (s : String) (h : startsWith s "queue_" = true) :
    startsWith s "np_" = false := by
  unfold startsWith at h ⊢
  have h6 : List.take 6 s.toList = ['q', 'u', 'e', 'u', 'e', '_'] := by
    simpa using h
  have h3 : List.take 3 s.toList = ['q', 'u', 'e'] := by
    have := congrArg (List.take 3) h6
    simpa [List.take_take] using this
  have hlen : "np_".length = 3 := by decide
  rw [hlen, h3]
  decide

/-- What `interactionCreate` does with a click on a button of the current queue message. -/
theorem interactionCreate_queue (i : Interaction) (o : InteractionOutcome) (g : GuildId)
    (m : GuildMap) (pd : Session) (hm : m g = some pd)
    (hq : startsWith i.customId "queue_" = true)
    (hmsg : pd.queueMessage.map (fun msg => msg.id) = some i.messageId)
    (hdefer : o.deferUpdate = true) :
    interactionCreate i o g m =
      ((queueButtonOn i.customId o.queueMessage pd).1,
        m.set g (queueButtonOn i.customId o.queueMessage pd).2) := by
  have hnp := startsWith_queue_not_np i.customId hq
  unfold interactionCreate
  simp [hm, hq, hnp, hmsg, hdefer]

/-- C20: a click on a button of the current queue message whose id carries a
page other than the current `queuePage` is ignored: the map and with it every
field of the session stay as they were.  A click that carries the current page
sets `queuePage` to `min(totalPages - 1, queuePage + 1)` for "next" and to
`max(0, queuePage - 1)` for "prev" and touches no other field but
`queueMessage`.  The buttons made by `createQueueButtons` for page `p` carry
`p`, so a click on them is ignored whenever `p` is not the current page. -/
theorem queue_button_click (i : Interaction) (o : InteractionOutcome) (g : GuildId)
    (m : GuildMap) (pd : Session) (hm : m g = some pd)
    (hq : startsWith i.customId "queue_" = true)
    (hmsg : pd.queueMessage.map (fun msg => msg.id) = some i.messageId)
    (hdefer : o.deferUpdate = true) :
    (buttonPage i.customId ≠ some pd.queuePage →
      (interactionCreate i o g m).1 = InteractionReply.staleIgnored ∧
      (interactionCreate i o g m).2 = m ∧
      (interactionCreate i o g m).2 g = some pd) ∧
    (buttonPage i.customId = some pd.queuePage → buttonDirection i.customId = some "next" →
      ∃ after, (interactionCreate i o g m).2 g = some after ∧
        after.queuePage = min (totalPages pd.queue.length - 1) (pd.queuePage + 1) ∧
        after = { pd with queuePage := after.queuePage, queueMessage := after.queueMessage }) ∧
    (buttonPage i.customId = some pd.queuePage → buttonDirection i.customId = some "prev" →
      ∃ after, (interactionCreate i o g m).2 g = some after ∧
        after.queuePage = max 0 (pd.queuePage - 1) ∧
        after = { pd with queuePage := after.queuePage, queueMessage := after.queueMessage }) ∧
    (∀ p pages : Int, p ≠ pd.queuePage →
      (i.customId = (createQueueButtons p pages).nextId ∨
        i.customId = (createQueueButtons p pages).prevId) →
      (interactionCreate i o g m).1 = InteractionReply.staleIgnored ∧
      (interactionCreate i o g m).2 = m) := by
  have hrun := interactionCreate_queue i o g m pd hm hq hmsg hdefer
  have hstale : buttonPage i.customId ≠ some pd.queuePage →
      (interactionCreate i o g m).1 = InteractionReply.staleIgnored ∧
      (interactionCreate i o g m).2 = m ∧
      (interactionCreate i o g m).2 g = some pd := by
    intro h
    rw [hrun]
    simp only [queueButtonOn, if_pos h]
    exact ⟨trivial, GuildMap.set_self m g pd hm, GuildMap.set_same m g pd⟩
  refine ⟨hstale, ?_, ?_, ?_⟩
  · intro hpage hdir
    rw [hrun]
    refine ⟨_, GuildMap.set_same _ _ _, ?_, ?_⟩
    · simp [queueButtonOn, hpage, hdir]
    · simp only [queueButtonOn, hpage, hdir, ne_eq, not_true_eq_false, if_false, if_true]
      rw [updateQueueMessageOn_frame]
  · intro hpage hdir
    have hnext : ¬ (some "prev" : Option String) = some "next" := by decide
    rw [hrun]
    refine ⟨_, GuildMap.set_same _ _ _, ?_, ?_⟩
    · simp [queueButtonOn, hpage, hdir]
    · simp only [queueButtonOn, hpage, hdir, ne_eq, not_true_eq_false, if_false, if_true, hnext]
      rw [updateQueueMessageOn_frame]
  · intro p pages hp hid
    have hcarry : buttonPage i.customId = some p := by
      rcases hid with h | h
      · rw [h]; exact (createQueueButtons_ids p pages).2.2.1
      · rw [h]; exact (createQueueButtons_ids p pages).2.2.2.2.2
    have hne : buttonPage i.customId ≠ some pd.queuePage := by
      rw [hcarry]
      intro h
      exact hp (Option.some.inj h)
    exact ⟨(hstale hne).1, (hstale hne).2.1⟩

/-- Witness for `queue_button_click`: eleven songs are queued and page 0 is
shown; a click on the "next" button made for page 0 turns to page 1. -/
theorem queue_button_click_witness :
    ∃ after,
      (interactionCreate (sampleClick (createQueueButtons 0 2).nextId) sampleHandled 7
        (GuildMap.empty.set 7 (sampleShown (sampleQueue 11)))).2 7 = some after ∧
      after.queuePage = min (totalPages (sampleShown (sampleQueue 11)).queue.length - 1)
        ((sampleShown (sampleQueue 11)).queuePage + 1) ∧
      after = { sampleShown (sampleQueue 11) with
                queuePage := after.queuePage, queueMessage := after.queueMessage } :=
  (queue_button_click (sampleClick (createQueueButtons 0 2).nextId) sampleHandled 7
    (GuildMap.empty.set 7 (sampleShown (sampleQueue 11))) (sampleShown (sampleQueue 11))
    (GuildMap.set_same _ _ _) (by decide) (by decide) rfl).2.1 (by decide) (by decide)


/-- The command `play.execute` with its parts named. -/
theorem playExecute_eq (req : PlayRequest) (o : PlayOutcome) (g : GuildId) (m : GuildMap) :
    playExecute req o g m =
      if req.query = "" then (PlayReply.usage, m)
      else
        match req.voiceChannel with
        | none => (PlayReply.notInVoiceChannel, m)
        | some vc =>
          if req.canConnect = false then (PlayReply.missingConnect, m)
          else if req.canSpeak = false then (PlayReply.missingSpeak, m)
          else if (ensurePlayerData g (some req.channel) m).1.queue.length ≥ MAX_QUEUE_SIZE then
            (PlayReply.queueFull, (ensurePlayerData g (some req.channel) m).2)
          else if mustJoin (ensurePlayerData g (some req.channel) m).1 ∧ o.joinReady = false then
            (PlayReply.joinFailed, cleanupGuild g (ensurePlayerData g (some req.channel) m).2)
          else if (joinedSession vc (ensurePlayerData g (some req.channel) m).1).player.isNone ∧
              connectionValid (joinedSession vc (ensurePlayerData g (some req.channel) m).1)
                = false then
            (PlayReply.internalError,
              cleanupGuild g ((ensurePlayerData g (some req.channel) m).2.set g
                (joinedSession vc (ensurePlayerData g (some req.channel) m).1)))
          else if o.searchReply = false then
            (PlayReply.commandError,
              (ensurePlayerData g (some req.channel) m).2.set g
                (equippedSession (joinedSession vc (ensurePlayerData g (some req.channel) m).1)))
          else
            match resolveSong req o with
            | Except.error r =>
              (r, (ensurePlayerData g (some req.channel) m).2.set g
                (equippedSession (joinedSession vc (ensurePlayerData g (some req.channel) m).1)))
            | Except.ok song =>
              playEnqueue song o g ((ensurePlayerData g (some req.channel) m).2.set g
                (equippedSession (joinedSession vc (ensurePlayerData g (some req.channel) m).1))) := by
  rfl


/-! ## Bounds kept by every handler -/

theorem newSession_bounded (tc : Option ChannelId) : (newSession tc).Bounded := by
  simp [Session.Bounded, newSession, DEFAULT_VOLUME]

theorem updateQueueMessageOn_bounded (o : QueueMessageOutcome) (s : Session) (h : s.Bounded) :
    (updateQueueMessageOn o s).Bounded := by
  simpa [Session.Bounded] using h

theorem refreshNowPlayingOn_bounded (e : Option ApiError) (s : Session) (h : s.Bounded) :
    (refreshNowPlayingOn e s).Bounded := by
  simpa [Session.Bounded] using h

theorem playNextSongOn_bounded (o : AdvanceOutcome) (s : Session) (h : s.Bounded) :
    (playNextSongOn o s).2.Bounded := by
  by_cases hg : (s.lockPlay || s.player.isNone || s.connection.isNone) = false
  · obtain ⟨h1, _, h3, _⟩ := playNextSongOn_view2 o s hg
    simpa [Session.Bounded, h1, h3] using h
  · rw [playNextSongOn_guarded o s (Bool.eq_true_of_not_eq_false hg)]
    exact h

theorem AllBounded.set {m : GuildMap} (h : AllBounded m) (g : GuildId) (s : Session)
    (hs : s.Bounded) : AllBounded (m.set g s) := by
  intro k t hk
  by_cases hkg : k = g
  · simp [GuildMap.set, hkg] at hk
    rw [← hk]; exact hs
  · simp [GuildMap.set, hkg] at hk
    exact h k t hk

theorem AllBounded.cleanup {m : GuildMap} (h : AllBounded m) (g : GuildId) :
    AllBounded (cleanupGuild g m) := by
  intro k t hk
  by_cases hkg : k = g
  · rw [hkg, cleanupGuild_absent] at hk
    cases hk
  · rw [cleanupGuild_other g k m hkg] at hk
    exact h k t hk

theorem AllBounded.put {m : GuildMap} (h : AllBounded m) (g : GuildId) (after : Option Session)
    (hs : ∀ s, after = some s → s.Bounded) : AllBounded (m.put g after) := by
  cases after with
  | none => exact h
  | some s => exact h.set g s (hs s rfl)

theorem AllBounded.update {m : GuildMap} (h : AllBounded m) (g : GuildId)
    (f : Session → Session) (hf : ∀ s, s.Bounded → (f s).Bounded) :
    AllBounded (match m g with
      | none => m
      | some s => m.set g (f s)) := by
  cases hm : m g with
  | none => exact h
  | some s => exact h.set g _ (hf s (h g s hm))

theorem playNextSong_bounded (o : AdvanceOutcome) (g : GuildId) (m : GuildMap)
    (h : AllBounded m) : AllBounded (playNextSong o g m).2 := by
  unfold playNextSong
  cases hm : m g with
  | none => exact h
  | some s => exact h.set g _ (playNextSongOn_bounded o s (h g s hm))

theorem ensurePlayerData_bounded (g : GuildId) (tc : Option ChannelId) (m : GuildMap)
    (h : AllBounded m) :
    (ensurePlayerData g tc m).1.Bounded ∧ AllBounded (ensurePlayerData g tc m).2 ∧
    (ensurePlayerData g tc m).2 g = some (ensurePlayerData g tc m).1 := by
  cases hm : m g with
  | none =>
    rw [ensurePlayerData_of_none g tc m hm]
    exact ⟨newSession_bounded tc,
      (h.set g _ (newSession_bounded tc)).set g _ (newSession_bounded tc),
      GuildMap.set_same _ _ _⟩
  | some s =>
    rw [ensurePlayerData_of_some g tc m s hm]
    have hs : ({ s with textChannel := tc } : Session).Bounded := h g s hm
    exact ⟨hs, h.set g _ hs, GuildMap.set_same _ _ _⟩

theorem playEnqueue_bounded (song : Track) (o : PlayOutcome) (g : GuildId) (m : GuildMap)
    (h : AllBounded m) : AllBounded (playEnqueue song o g m).2 := by
  unfold playEnqueue
  cases hm : m g with
  | none => exact h
  | some s =>
    have hs : (updateQueueMessageOn o.queueMessage (enqueueSong song s)).Bounded :=
      updateQueueMessageOn_bounded _ _ (h g s hm)
    simp only
    split
    · exact playNextSong_bounded _ _ _ (h.set g _ hs)
    · exact h.set g _ hs

theorem joinedSession_frame (vc : ChannelId) (s : Session) :
    (joinedSession vc s).volume = s.volume ∧ (joinedSession vc s).queuePage = s.queuePage ∧
    (joinedSession vc s).queue = s.queue ∧ (joinedSession vc s).currentSong = s.currentSong ∧
    (joinedSession vc s).loop = s.loop ∧ (joinedSession vc s).textChannel = s.textChannel ∧
    (joinedSession vc s).player = s.player := by
  unfold joinedSession
  split <;> simp

theorem equippedSession_frame (s : Session) :
    (equippedSession s).volume = s.volume ∧ (equippedSession s).queuePage = s.queuePage ∧
    (equippedSession s).queue = s.queue ∧ (equippedSession s).currentSong = s.currentSong ∧
    (equippedSession s).loop = s.loop ∧ (equippedSession s).textChannel = s.textChannel ∧
    (equippedSession s).connection = s.connection := by
  unfold equippedSession
  split <;> simp

theorem joinedSession_bounded (vc : ChannelId) (s : Session) (h : s.Bounded) :
    (joinedSession vc s).Bounded := by
  obtain ⟨h1, h2, _⟩ := joinedSession_frame vc s
  simpa [Session.Bounded, h1, h2] using h

theorem equippedSession_bounded (s : Session) (h : s.Bounded) :
    (equippedSession s).Bounded := by
  obtain ⟨h1, h2, _⟩ := equippedSession_frame s
  simpa [Session.Bounded, h1, h2] using h

theorem playExecute_bounded (req : PlayRequest) (o : PlayOutcome) (g : GuildId) (m : GuildMap)
    (h : AllBounded m) : AllBounded (playExecute req o g m).2 := by
  obtain ⟨h1, h2, _⟩ := ensurePlayerData_bounded g (some req.channel) m h
  rw [playExecute_eq]
  by_cases hq : req.query = ""
  · rw [if_pos hq]; exact h
  rw [if_neg hq]
  cases hv : req.voiceChannel with
  | none => exact h
  | some vc =>
    simp only
    generalize ensurePlayerData g (some req.channel) m = ensured at h1 h2
    have hj := joinedSession_bounded vc _ h1
    have he := equippedSession_bounded _ hj
    have tail : ∀ m1 : GuildMap, AllBounded m1 →
        AllBounded (match resolveSong req o with
          | Except.error r => (r, m1)
          | Except.ok song => playEnqueue song o g m1).2 := by
      intro m1 hm1
      split
      · exact hm1
      · exact playEnqueue_bounded _ _ _ _ hm1
    split_ifs <;>
      first
        | exact h
        | exact h2
        | exact h2.cleanup g
        | exact AllBounded.cleanup (h2.set g _ hj) g
        | exact h2.set g _ he
        | exact tail _ (h2.set g _ he)

theorem clearExecute_bounded (o : QueueMessageOutcome) (vc : Option ChannelId)
    (pd : Option Session) (h : ∀ s, pd = some s → s.Bounded) :
    ∀ s, (clearExecute o vc pd).2 = some s → s.Bounded := by
  intro s hs
  cases vc with
  | none => exact h s hs
  | some vc =>
    cases pd with
    | none => exact h s hs
    | some p =>
      have hp := h p rfl
      simp only [clearExecute] at hs
      split_ifs at hs <;>
        first
          | exact h s hs
          | (simp only [Option.some.injEq] at hs
             rw [← hs]
             simpa [Session.Bounded] using hp)

theorem shuffleExecute_bounded (draws : Draws) (o : QueueMessageOutcome) (vc : Option ChannelId)
    (pd : Option Session) (h : ∀ s, pd = some s → s.Bounded) :
    ∀ s, (shuffleExecute draws o vc pd).2 = some s → s.Bounded := by
  intro s hs
  cases vc with
  | none => exact h s hs
  | some vc =>
    cases pd with
    | none => exact h s hs
    | some p =>
      have hp := h p rfl
      simp only [shuffleExecute] at hs
      split_ifs at hs <;>
        first
          | exact h s hs
          | (simp only [Option.some.injEq] at hs
             rw [← hs]
             simpa [Session.Bounded] using hp)

theorem loopExecute_bounded (e : Option ApiError) (vc : Option ChannelId)
    (modeArg : Option String) (pd : Option Session) (h : ∀ s, pd = some s → s.Bounded) :
    ∀ s, (loopExecute e vc modeArg pd).2 = some s → s.Bounded := by
  intro s hs
  cases vc with
  | none => exact h s hs
  | some vc =>
    cases pd with
    | none => exact h s hs
    | some p =>
      have hp := h p rfl
      simp only [loopExecute] at hs
      split_ifs at hs <;>
        first
          | exact h s hs
          | (simp only [Option.some.injEq] at hs
             rw [← hs]
             simpa [Session.Bounded] using hp)

theorem removeExecute_bounded (o : QueueMessageOutcome) (vc : Option ChannelId)
    (positionArg : Option String) (pd : Option Session) (h : ∀ s, pd = some s → s.Bounded) :
    ∀ s, (removeExecute o vc positionArg pd).2 = some s → s.Bounded := by
  intro s hs
  cases vc with
  | none => exact h s hs
  | some vc =>
    cases pd with
    | none => exact h s hs
    | some p =>
      have hp := h p rfl
      simp only [removeExecute] at hs
      repeat' split at hs
      all_goals
        first
          | exact h s hs
          | (simp only [Option.some.injEq] at hs
             rw [← hs]
             simpa [Session.Bounded] using hp)

theorem nowplayingExecute_bounded (sent : Option Message)
    (pd : Option Session) (h : ∀ s, pd = some s → s.Bounded) :
    ∀ s, (nowplayingExecute sent pd).2 = some s → s.Bounded := by
  intro s hs
  cases pd with
  | none => exact h s hs
  | some p =>
    have hp := h p rfl
    simp only [nowplayingExecute] at hs
    split_ifs at hs <;>
      first
        | exact h s hs
        | (simp only [Option.some.injEq] at hs
           rw [← hs]
           simpa [Session.Bounded] using hp)

theorem pauseExecute_bounded (o : PauseOutcome) (vc : Option ChannelId)
    (pd : Option Session) (h : ∀ s, pd = some s → s.Bounded) :
    ∀ s, (pauseExecute o vc pd).2 = some s → s.Bounded := by
  intro s hs
  cases vc with
  | none => exact h s hs
  | some vc =>
    cases pd with
    | none => exact h s hs
    | some p =>
      have hp := h p rfl
      simp only [pauseExecute] at hs
      repeat' split at hs
      all_goals
        first
          | exact h s hs
          | (simp only [Option.some.injEq] at hs
             rw [← hs]
             simpa [Session.Bounded] using hp)

theorem resumeExecute_bounded (o : PauseOutcome) (vc : Option ChannelId)
    (pd : Option Session) (h : ∀ s, pd = some s → s.Bounded) :
    ∀ s, (resumeExecute o vc pd).2 = some s → s.Bounded := by
  intro s hs
  cases vc with
  | none => exact h s hs
  | some vc =>
    cases pd with
    | none => exact h s hs
    | some p =>
      have hp := h p rfl
      simp only [resumeExecute] at hs
      repeat' split at hs
      all_goals
        first
          | exact h s hs
          | (simp only [Option.some.injEq] at hs
             rw [← hs]
             simpa [Session.Bounded] using hp)

theorem volumeExecute_bounded (o : VolumeOutcome) (vc : Option ChannelId)
    (volumeArg : Option String) (pd : Option Session) (h : ∀ s, pd = some s → s.Bounded) :
    ∀ s, (volumeExecute o vc volumeArg pd).2 = some s → s.Bounded := by
  intro s hs
  cases vc with
  | none => exact h s hs
  | some vc =>
    cases pd with
    | none => exact h s hs
    | some p =>
      have hp := h p rfl
      simp only [volumeExecute] at hs
      repeat' split at hs
      all_goals
        first
          | exact h s hs
          | (simp only [Option.some.injEq] at hs
             rw [← hs]
             rename_i hrange
             simp only [Session.Bounded, refreshNowPlayingOn_volume,
               refreshNowPlayingOn_queuePage]
             exact ⟨by omega, by omega, hp.2.2⟩)

theorem stopExecute_bounded (vc : Option ChannelId) (g : GuildId) (m : GuildMap)
    (h : AllBounded m) : AllBounded (stopExecute vc g m).2 := by
  unfold stopExecute
  repeat' split
  all_goals first | exact h | exact h.cleanup g

theorem queueExecute_bounded (sent : Option Message) (channel : ChannelId) (g : GuildId)
    (m : GuildMap) (h : AllBounded m) : AllBounded (queueExecute sent channel g m).2 := by
  obtain ⟨h1, h2, _⟩ := ensurePlayerData_bounded g (some channel) m h
  have key : ∀ q : Option Message,
      ({ (ensurePlayerData g (some channel) m).1 with
          queueMessage := q, queuePage := 0 } : Session).Bounded :=
    fun _ => ⟨h1.1, h1.2.1, le_refl _⟩
  unfold queueExecute
  intro k t hk
  dsimp only at hk
  split at hk
  · exact (h2.set g _ (key none)) k t hk
  · exact (h2.set g _ (key sent)) k t hk

theorem totalPages_pos (n : Nat) : 1 ≤ totalPages n := by
  unfold totalPages
  exact le_max_left _ _

theorem queueButtonOn_bounded (customId : String) (o : QueueMessageOutcome) (s : Session)
    (h : s.Bounded) : (queueButtonOn customId o s).2.Bounded := by
  have hpages := totalPages_pos s.queue.length
  obtain ⟨h1, h2, h3⟩ := h
  unfold queueButtonOn
  split
  · exact ⟨h1, h2, h3⟩
  · apply updateQueueMessageOn_bounded
    split_ifs
    · exact ⟨h1, h2, le_min (by omega) (by omega)⟩
    · exact ⟨h1, h2, le_max_left _ _⟩
    · exact ⟨h1, h2, h3⟩

theorem controlButton_bounded (customId : String) (o : InteractionOutcome) (g : GuildId)
    (m : GuildMap) (s : Session) (h : AllBounded m) (hs : s.Bounded) :
    AllBounded (controlButton customId o g m s).2 := by
  unfold controlButton
  split
  · split_ifs
    all_goals
      first
        | exact h
        | exact h.cleanup g
        | exact h.set g _ (refreshNowPlayingOn_bounded _ _ hs)
  · exact h

theorem interactionCreate_bounded (i : Interaction) (o : InteractionOutcome) (g : GuildId)
    (m : GuildMap) (h : AllBounded m) : AllBounded (interactionCreate i o g m).2 := by
  unfold interactionCreate
  cases hm : m g with
  | none => exact h
  | some s =>
    have hs := h g s hm
    simp only
    split_ifs
    all_goals
      first
        | exact h
        | exact h.set g _ (queueButtonOn_bounded _ _ _ hs)
        | exact controlButton_bounded _ _ _ _ _ h hs

theorem startInactivityTimer_bounded (handle timeoutMs : Nat) (g : GuildId) (m : GuildMap)
    (h : AllBounded m) : AllBounded (startInactivityTimer handle timeoutMs g m) := by
  unfold startInactivityTimer
  cases hm : m g with
  | none => exact h
  | some s => exact h.set g _ (h g s hm)

theorem playerIdle_bounded (oldStatus : AudioPlayerStatus) (o : AdvanceOutcome) (g : GuildId)
    (m : GuildMap) (h : AllBounded m) : AllBounded (playerIdle oldStatus o g m) := by
  unfold playerIdle
  split
  · exact h
  · exact playNextSong_bounded o g m h
  · exact startInactivityTimer_bounded _ _ g m h

theorem playerError_bounded (g : GuildId) (m : GuildMap) (h : AllBounded m) :
    AllBounded (playerError g m) := by
  unfold playerError
  cases hm : m g with
  | none => exact h
  | some s => exact h.set g _ (h g s hm)

theorem inactivityTimeout_bounded (g : GuildId) (m : GuildMap) (h : AllBounded m) :
    AllBounded (inactivityTimeout g m) := by
  unfold inactivityTimeout
  repeat' split
  all_goals first | exact h | exact h.cleanup g

theorem connectionLost_bounded (g : GuildId) (m : GuildMap) (h : AllBounded m) :
    AllBounded (connectionLost g m) := by
  unfold connectionLost
  split
  · exact h.cleanup g
  · exact h

theorem voiceStateUpdate_bounded (u : VoiceStateUpdate) (handle : Nat) (g : GuildId)
    (m : GuildMap) (h : AllBounded m) : AllBounded (voiceStateUpdate u handle g m) := by
  unfold voiceStateUpdate
  cases hm : m g with
  | none =>
    simp only
    split_ifs
    all_goals first | exact h | exact h.cleanup g
  | some s =>
    have hs := h g s hm
    simp only
    repeat' split
    all_goals
      first
        | exact h
        | exact h.cleanup g
        | exact startInactivityTimer_bounded _ _ g m h
        | exact h.set g _ hs

/-- Every handler and every state change of a player or a connection keeps all
sessions bounded. -/
theorem Step.keeps_bounded {m after : GuildMap} (hstep : Step m after) (h : AllBounded m) :
    AllBounded after := by
  cases hstep with
  | play req o g => exact playExecute_bounded req o g m h
  | stop vc g => exact stopExecute_bounded vc g m h
  | queue sent channel g => exact queueExecute_bounded sent channel g m h
  | nowplaying sent g =>
    exact h.put g _ (nowplayingExecute_bounded sent (m g) (fun s hs => h g s hs))
  | pause o vc g => exact h.put g _ (pauseExecute_bounded o vc (m g) (fun s hs => h g s hs))
  | resume o vc g => exact h.put g _ (resumeExecute_bounded o vc (m g) (fun s hs => h g s hs))
  | loop e vc modeArg g =>
    exact h.put g _ (loopExecute_bounded e vc modeArg (m g) (fun s hs => h g s hs))
  | volume o vc volumeArg g =>
    exact h.put g _ (volumeExecute_bounded o vc volumeArg (m g) (fun s hs => h g s hs))
  | shuffle draws o vc g =>
    exact h.put g _ (shuffleExecute_bounded draws o vc (m g) (fun s hs => h g s hs))
  | remove o vc positionArg g =>
    exact h.put g _ (removeExecute_bounded o vc positionArg (m g) (fun s hs => h g s hs))
  | clear o vc g => exact h.put g _ (clearExecute_bounded o vc (m g) (fun s hs => h g s hs))
  | button i o g => exact interactionCreate_bounded i o g m h
  | playNext o g => exact playNextSong_bounded o g m h
  | playerIdle oldStatus o g => exact playerIdle_bounded oldStatus o g m h
  | playerError g => exact playerError_bounded g m h
  | timeout g => exact inactivityTimeout_bounded g m h
  | connectionLost g => exact connectionLost_bounded g m h
  | voiceState u handle g => exact voiceStateUpdate_bounded u handle g m h
  | playerState p g _ s hm hp => exact h.set g _ (h g s hm)
  | connectionState status g _ s c hm hc => exact h.set g _ (h g s hm)

/-- In every reachable map every session is bounded. -/
theorem Reachable.all_bounded {m : GuildMap} (hr : Reachable m) : AllBounded m := by
  induction hr with
  | start => intro k s hk; cases hk
  | step m after _ hstep ih => exact hstep.keeps_bounded ih

/-! ## Rejected requests -/

theorem GuildMap.put_self (m : GuildMap) (g : GuildId) : m.put g (m g) = m := by
  cases h : m g with
  | none => rfl
  | some s =>
    funext k
    by_cases hk : k = g
    · simp [GuildMap.put, GuildMap.set, hk, h]
    · simp [GuildMap.put, GuildMap.set, hk]

/-- The reply "queue full" of `play` comes from line 450 only: the guild had a
session, and the map returned is the old one with `textChannel` overwritten. -/
theorem playExecute_queueFull_state (req : PlayRequest) (o : PlayOutcome) (g : GuildId)
    (m : GuildMap) (h : (playExecute req o g m).1 = PlayReply.queueFull) :
    ∃ s, m g = some s ∧ MAX_QUEUE_SIZE ≤ s.queue.length ∧
      (playExecute req o g m).2 = m.set g { s with textChannel := some req.channel } := by
  rw [playExecute_eq] at h ⊢
  by_cases hq : req.query = ""
  · rw [if_pos hq] at h; cases h
  rw [if_neg hq] at h ⊢
  cases hv : req.voiceChannel with
  | none => rw [hv] at h; cases h
  | some vc =>
    rw [hv] at h
    simp only at h ⊢
    have tail : ∀ m1 : GuildMap,
        (match resolveSong req o with
          | Except.error r => (r, m1)
          | Except.ok song => playEnqueue song o g m1).1 ≠ PlayReply.queueFull := by
      intro m1
      have h1 := resolveSong_ne_queueFull req o
      split
      · rename_i r hr
        intro hrf
        simp only at hrf
        rw [hrf] at hr
        exact h1 hr
      · exact playEnqueue_ne_queueFull _ _ _ _
    by_cases hfull : (ensurePlayerData g (some req.channel) m).1.queue.length ≥ MAX_QUEUE_SIZE
    · cases hm : m g with
      | none =>
        rw [ensurePlayerData_queue, hm] at hfull
        simp [MAX_QUEUE_SIZE] at hfull
      | some s =>
        refine ⟨s, rfl, ?_, ?_⟩
        · rw [ensurePlayerData_queue, hm] at hfull
          exact hfull
        · split_ifs at h ⊢
          rw [ensurePlayerData_of_some g _ m s hm]
    · split_ifs at h
      exact absurd h (tail _)

theorem removeExecute_rejected (o : QueueMessageOutcome) (vc : Option ChannelId)
    (positionArg : Option String) (pd : Option Session)
    (h : (removeExecute o vc positionArg pd).1 = RemoveReply.invalidPosition ∨
      (removeExecute o vc positionArg pd).1 = RemoveReply.wrongVoiceChannel) :
    (removeExecute o vc positionArg pd).2 = pd := by
  have key : ∀ r : RemoveReply × Option Session, r = removeExecute o vc positionArg pd →
      r.2 = pd ∨ (r.1 ≠ RemoveReply.invalidPosition ∧ r.1 ≠ RemoveReply.wrongVoiceChannel) := by
    intro r hr
    unfold removeExecute at hr
    repeat' split at hr
    all_goals
      subst hr
      first
        | (simp; done)
        | (dsimp only
           split <;> simp)
  rcases key _ rfl with hk | ⟨h1, h2⟩
  · exact hk
  · rcases h with h | h
    · exact absurd h h1
    · exact absurd h h2

theorem shuffleExecute_rejected (draws : Draws) (o : QueueMessageOutcome)
    (vc : Option ChannelId) (pd : Option Session)
    (h : (shuffleExecute draws o vc pd).1 = ShuffleReply.wrongVoiceChannel) :
    (shuffleExecute draws o vc pd).2 = pd := by
  unfold shuffleExecute at h ⊢
  repeat' split
  all_goals simp_all

theorem clearExecute_rejected (o : QueueMessageOutcome) (vc : Option ChannelId)
    (pd : Option Session) (h : (clearExecute o vc pd).1 = ClearReply.wrongVoiceChannel) :
    (clearExecute o vc pd).2 = pd := by
  unfold clearExecute at h ⊢
  repeat' split
  all_goals simp_all

theorem volumeExecute_rejected (o : VolumeOutcome) (vc : Option ChannelId)
    (volumeArg : Option String) (pd : Option Session)
    (h : (volumeExecute o vc volumeArg pd).1 = VolumeReply.wrongVoiceChannel ∨
      (volumeExecute o vc volumeArg pd).1 = VolumeReply.invalidVolume) :
    (volumeExecute o vc volumeArg pd).2 = pd := by
  unfold volumeExecute at h ⊢
  repeat' split
  all_goals simp_all

theorem loopExecute_rejected (e : Option ApiError) (vc : Option ChannelId)
    (modeArg : Option String) (pd : Option Session)
    (h : (loopExecute e vc modeArg pd).1 = LoopReply.wrongVoiceChannel) :
    (loopExecute e vc modeArg pd).2 = pd := by
  unfold loopExecute at h ⊢
  repeat' split
  all_goals simp_all

theorem pauseExecute_rejected (o : PauseOutcome) (vc : Option ChannelId) (pd : Option Session)
    (h : (pauseExecute o vc pd).1 = PauseReply.wrongVoiceChannel) :
    (pauseExecute o vc pd).2 = pd := by
  unfold pauseExecute at h ⊢
  repeat' split
  all_goals simp_all

theorem resumeExecute_rejected (o : PauseOutcome) (vc : Option ChannelId) (pd : Option Session)
    (h : (resumeExecute o vc pd).1 = PauseReply.wrongVoiceChannel) :
    (resumeExecute o vc pd).2 = pd := by
  unfold resumeExecute at h ⊢
  repeat' split
  all_goals simp_all

theorem stopExecute_rejected (vc : Option ChannelId) (g : GuildId) (m : GuildMap)
    (h : (stopExecute vc g m).1 = StopReply.wrongVoiceChannel) :
    (stopExecute vc g m).2 = m := by
  unfold stopExecute at h ⊢
  repeat' split
  all_goals simp_all

theorem controlButton_reply (customId : String) (o : InteractionOutcome) (g : GuildId)
    (m : GuildMap) (s : Session) :
    (controlButton customId o g m s).1 ≠ InteractionReply.notInVoiceChannel := by
  unfold controlButton
  repeat' split
  all_goals simp

theorem queueButtonOn_reply (customId : String) (o : QueueMessageOutcome) (s : Session) :
    (queueButtonOn customId o s).1 ≠ InteractionReply.notInVoiceChannel := by
  unfold queueButtonOn
  split <;> simp

theorem interactionCreate_rejected (i : Interaction) (o : InteractionOutcome) (g : GuildId)
    (m : GuildMap) (h : (interactionCreate i o g m).1 = InteractionReply.notInVoiceChannel) :
    (interactionCreate i o g m).2 = m := by
  unfold interactionCreate at h ⊢
  cases hm : m g with
  | none => rfl
  | some s =>
    rw [hm] at h
    simp only at h ⊢
    split_ifs at h ⊢
    all_goals
      first
        | rfl
        | exact absurd h (queueButtonOn_reply _ _ _)
        | exact absurd h (controlButton_reply _ _ _ _ _)

set_option maxRecDepth 100000 in
/-- C16 (counterexample): guild 0 has 100 songs queued and uses text channel 9.
A `play` command sent from text channel 8 is refused with "queue full", and
afterwards the session's `textChannel` is 8: the session has changed. -/
theorem play_queue_full_overwrites_textChannel :
    (playExecute sampleRequestElsewhere samplePlay 0 sampleFullMap).1 = PlayReply.queueFull ∧
    (sampleFullMap 0).map (fun s => s.textChannel) = some (some 9) ∧
    ((playExecute sampleRequestElsewhere samplePlay 0 sampleFullMap).2 0).map
      (fun s => s.textChannel) = some (some 8) ∧
    (playExecute sampleRequestElsewhere samplePlay 0 sampleFullMap).2 0 ≠ sampleFullMap 0 := by
  decide

/-- C16 (as amended): a `play` command refused with "queue full" leaves the
registry as it was except that the `textChannel` of the guild's session is set
to the channel of the command; a `remove` refused for a bad position, and every
command or control button refused because the caller is not in the bot's voice
channel, leave the registry and the session exactly as they were. -/
theorem rejected_request_state (req : PlayRequest) (o : PlayOutcome) (g : GuildId)
    (m : GuildMap) (qo : QueueMessageOutcome) (vc : Option ChannelId)
    (positionArg : Option String) (draws : Draws) (vo : VolumeOutcome)
    (volumeArg : Option String) (e : Option ApiError) (modeArg : Option String)
    (po : PauseOutcome) (i : Interaction) (io : InteractionOutcome) :
    ((playExecute req o g m).1 = PlayReply.queueFull →
      ∃ s, m g = some s ∧
        (playExecute req o g m).2 = m.set g { s with textChannel := some req.channel }) ∧
    ((removeExecute qo vc positionArg (m g)).1 = RemoveReply.invalidPosition →
      (removeExecute qo vc positionArg (m g)).2 = m g ∧
      m.put g (removeExecute qo vc positionArg (m g)).2 = m) ∧
    ((removeExecute qo vc positionArg (m g)).1 = RemoveReply.wrongVoiceChannel →
      m.put g (removeExecute qo vc positionArg (m g)).2 = m) ∧
    ((shuffleExecute draws qo vc (m g)).1 = ShuffleReply.wrongVoiceChannel →
      m.put g (shuffleExecute draws qo vc (m g)).2 = m) ∧
    ((clearExecute qo vc (m g)).1 = ClearReply.wrongVoiceChannel →
      m.put g (clearExecute qo vc (m g)).2 = m) ∧
    ((volumeExecute vo vc volumeArg (m g)).1 = VolumeReply.wrongVoiceChannel →
      m.put g (volumeExecute vo vc volumeArg (m g)).2 = m) ∧
    ((loopExecute e vc modeArg (m g)).1 = LoopReply.wrongVoiceChannel →
      m.put g (loopExecute e vc modeArg (m g)).2 = m) ∧
    ((pauseExecute po vc (m g)).1 = PauseReply.wrongVoiceChannel →
      m.put g (pauseExecute po vc (m g)).2 = m) ∧
    ((resumeExecute po vc (m g)).1 = PauseReply.wrongVoiceChannel →
      m.put g (resumeExecute po vc (m g)).2 = m) ∧
    ((stopExecute vc g m).1 = StopReply.wrongVoiceChannel → (stopExecute vc g m).2 = m) ∧
    ((interactionCreate i io g m).1 = InteractionReply.notInVoiceChannel →
      (interactionCreate i io g m).2 = m) := by
  refine ⟨?_, ?_, ?_, ?_, ?_, ?_, ?_, ?_, ?_, ?_, ?_⟩
  · intro h
    obtain ⟨s, hs, _, hmap⟩ := playExecute_queueFull_state req o g m h
    exact ⟨s, hs, hmap⟩
  · intro h
    have hk := removeExecute_rejected qo vc positionArg (m g) (Or.inl h)
    exact ⟨hk, by rw [hk, GuildMap.put_self]⟩
  · intro h
    rw [removeExecute_rejected qo vc positionArg (m g) (Or.inr h), GuildMap.put_self]
  · intro h
    rw [shuffleExecute_rejected draws qo vc (m g) h, GuildMap.put_self]
  · intro h
    rw [clearExecute_rejected qo vc (m g) h, GuildMap.put_self]
  · intro h
    rw [volumeExecute_rejected vo vc volumeArg (m g) (Or.inl h), GuildMap.put_self]
  · intro h
    rw [loopExecute_rejected e vc modeArg (m g) h, GuildMap.put_self]
  · intro h
    rw [pauseExecute_rejected po vc (m g) h, GuildMap.put_self]
  · intro h
    rw [resumeExecute_rejected po vc (m g) h, GuildMap.put_self]
  · exact stopExecute_rejected vc g m
  · exact interactionCreate_rejected i io g m

set_option maxRecDepth 100000 in
/-- Witness for `rejected_request_state`: guild 0 streams from voice channel 5
with 100 songs queued; a `play` from text channel 8, `remove 101` by a member of
voice channel 5, and every other command by a member of voice channel 6. -/
theorem rejected_request_state_witness :
    (∃ s, sampleFullMap 0 = some s ∧
      (playExecute sampleRequestElsewhere samplePlay 0 sampleFullMap).2 =
        sampleFullMap.set 0 { s with textChannel := some sampleRequestElsewhere.channel }) ∧
    sampleFullMap.put 0
      (removeExecute sampleChat (some 5) (some "101") (sampleFullMap 0)).2 = sampleFullMap ∧
    sampleFullMap.put 0
      (removeExecute sampleChat (some 6) (some "1") (sampleFullMap 0)).2 = sampleFullMap ∧
    sampleFullMap.put 0
      (shuffleExecute (fun _ => 0) sampleChat (some 6) (sampleFullMap 0)).2 = sampleFullMap ∧
    sampleFullMap.put 0 (clearExecute sampleChat (some 6) (sampleFullMap 0)).2 = sampleFullMap ∧
    sampleFullMap.put 0
      (volumeExecute sampleVolume (some 6) (some "70") (sampleFullMap 0)).2 = sampleFullMap ∧
    sampleFullMap.put 0
      (loopExecute none (some 6) (some "queue") (sampleFullMap 0)).2 = sampleFullMap ∧
    sampleFullMap.put 0 (pauseExecute samplePause (some 6) (sampleFullMap 0)).2 = sampleFullMap ∧
    sampleFullMap.put 0 (resumeExecute samplePause (some 6) (sampleFullMap 0)).2 = sampleFullMap ∧
    (stopExecute (some 6) 0 sampleFullMap).2 = sampleFullMap ∧
    (interactionCreate (sampleOutsider "np_stop") sampleHandled 0 sampleFullMap).2 =
      sampleFullMap :=
  have inside := rejected_request_state sampleRequestElsewhere samplePlay 0 sampleFullMap
    sampleChat (some 5) (some "101") (fun _ => 0) sampleVolume (some "70") none (some "queue")
    samplePause (sampleOutsider "np_stop") sampleHandled
  have outside := rejected_request_state sampleRequestElsewhere samplePlay 0 sampleFullMap
    sampleChat (some 6) (some "1") (fun _ => 0) sampleVolume (some "70") none (some "queue")
    samplePause (sampleOutsider "np_stop") sampleHandled
  ⟨inside.1 (by decide), (inside.2.1 (by decide)).2, outside.2.2.1 (by decide),
    outside.2.2.2.1 (by decide), outside.2.2.2.2.1 (by decide),
    outside.2.2.2.2.2.1 (by decide), outside.2.2.2.2.2.2.1 (by decide),
    outside.2.2.2.2.2.2.2.1 (by decide), outside.2.2.2.2.2.2.2.2.1 (by decide),
    outside.2.2.2.2.2.2.2.2.2.1 (by decide), outside.2.2.2.2.2.2.2.2.2.2 (by decide)⟩

/-! ## The volume stays between 0 and 200 -/

/-- A `volume` command whose argument does not read as an integer between 0 and
200 leaves the session as it was. -/
theorem volumeExecute_invalid (vo : VolumeOutcome) (vc : Option ChannelId)
    (volumeArg : Option String) (pd : Option Session)
    (hbad : ∀ v : Int, parseIntArg volumeArg = some v → v < 0 ∨ 200 < v) :
    (volumeExecute vo vc volumeArg pd).2 = pd := by
  have key : ∀ r : VolumeReply × Option Session, r = volumeExecute vo vc volumeArg pd →
      r.2 = pd := by
    intro r hr
    unfold volumeExecute at hr
    repeat' split at hr
    all_goals
      subst hr
      first
        | rfl
        | (rename_i hv hrange _
           exact absurd (hbad _ hv) (by simpa using hrange))
  exact key _ rfl

/-- A `volume` command that passes the caller checks and whose argument reads as
an integer between 0 and 200 stores that integer. -/
theorem volumeExecute_valid (vo : VolumeOutcome) (vc : ChannelId) (volumeArg : String)
    (s : Session) (v : Int) (hp : s.player.isSome = true)
    (hvc : s.connection.map (fun c => c.channelId) = some vc)
    (harg : volumeArg ≠ "") (hparse : parseIntArg (some volumeArg) = some v)
    (h0 : 0 ≤ v) (h200 : v ≤ 200) :
    ∃ after, (volumeExecute vo (some vc) (some volumeArg) (some s)).2 = some after ∧
      after.volume = v := by
  cases hpl : s.player with
  | none => rw [hpl] at hp; cases hp
  | some p =>
    have hne : ¬ ((some volumeArg : Option String) = none ∨ some volumeArg = some "") := by
      simp [harg]
    unfold volumeExecute
    simp only [hpl, hvc, ne_eq, not_true_eq_false, if_false, hne, hparse]
    rw [if_neg (by omega)]
    split
    · exact ⟨_, rfl, rfl⟩
    · exact ⟨_, rfl, by rw [refreshNowPlayingOn_volume]⟩

/-- C17: in every map the bot can reach, the volume of every session is an
integer between 0 and 200.  A new session starts at 50; a `volume` command that
passes the caller checks with an argument that reads as an integer between 0 and
200 stores it; one whose argument is not a number, is below 0 or above 200 is
refused and leaves the session, and so its volume, as it was. -/
theorem volume_in_range :
    (∀ (m : GuildMap), Reachable m → ∀ (g : GuildId) (s : Session), m g = some s →
      0 ≤ s.volume ∧ s.volume ≤ 200) ∧
    (∀ (tc : Option ChannelId), (newSession tc).volume = 50) ∧
    (∀ (g : GuildId) (tc : Option ChannelId) (m : GuildMap), m g = none →
      (ensurePlayerData g tc m).1.volume = 50 ∧
      ((ensurePlayerData g tc m).2 g).map (fun s => s.volume) = some 50) ∧
    (∀ (vo : VolumeOutcome) (vc : ChannelId) (volumeArg : String) (s : Session) (v : Int),
      s.player.isSome = true → s.connection.map (fun c => c.channelId) = some vc →
      volumeArg ≠ "" → parseIntArg (some volumeArg) = some v → 0 ≤ v → v ≤ 200 →
      ∃ after, (volumeExecute vo (some vc) (some volumeArg) (some s)).2 = some after ∧
        after.volume = v) ∧
    (∀ (vo : VolumeOutcome) (vc : Option ChannelId) (volumeArg : Option String)
        (pd : Option Session),
      (∀ v : Int, parseIntArg volumeArg = some v → v < 0 ∨ 200 < v) →
      (volumeExecute vo vc volumeArg pd).2 = pd) := by
  refine ⟨?_, ?_, ?_, ?_, ?_⟩
  · intro m hr g s hm
    have hb := hr.all_bounded g s hm
    exact ⟨hb.1, hb.2.1⟩
  · intro tc
    rfl
  · intro g tc m hm
    rw [ensurePlayerData_of_none g tc m hm]
    exact ⟨rfl, by simp [newSession, DEFAULT_VOLUME]⟩
  · intro vo vc volumeArg s v hp hvc harg hparse h0 h200
    exact volumeExecute_valid vo vc volumeArg s v hp hvc harg hparse h0 h200
  · intro vo vc volumeArg pd hbad
    exact volumeExecute_invalid vo vc volumeArg pd hbad

/-- Witness for `volume_in_range`: guild 0 after `play` and `volume 150`, a new
session, `volume 200` on the idle sample session, and `volume 201`. -/
theorem volume_in_range_witness :
    (∀ s, sampleTunedMap 0 = some s → 0 ≤ s.volume ∧ s.volume ≤ 200) ∧
    (sampleTunedMap 0).map (fun s => s.volume) = some 150 ∧
    ((ensurePlayerData 0 (some 9) GuildMap.empty).2 0).map (fun s => s.volume) = some 50 ∧
    (∃ after, (volumeExecute sampleVolume (some 5) (some "200")
        (some (sampleSession [] none LoopMode.none))).2 = some after ∧ after.volume = 200) ∧
    (volumeExecute sampleVolume (some 5) (some "201")
        (some (sampleSession [] none LoopMode.none))).2 =
      some (sampleSession [] none LoopMode.none) :=
  ⟨volume_in_range.1 sampleTunedMap
      (Reachable.step _ _ (Reachable.step _ _ Reachable.start
        (Step.play sampleRequest samplePlay 0 GuildMap.empty))
        (Step.volume sampleVolume (some 5) (some "150") 0 samplePlayedMap)) 0,
    by decide,
    (volume_in_range.2.2.1 0 (some 9) GuildMap.empty rfl).2,
    volume_in_range.2.2.2.1 sampleVolume 5 "200" (sampleSession [] none LoopMode.none) 200
      rfl rfl (by decide) (by decide) (by decide) (by decide),
    volume_in_range.2.2.2.2 sampleVolume (some 5) (some "201")
      (some (sampleSession [] none LoopMode.none))
      (by
        intro v hv
        have h201 : parseIntArg (some "201") = some 201 := by decide
        rw [h201] at hv
        cases hv
        decide)⟩

/-! ## The page cursor of the queue display -/

theorem shownPage_valid (s : Session) :
    0 ≤ shownPage s ∧ shownPage s ≤ totalPages s.queue.length - 1 := by
  have hpages := totalPages_pos s.queue.length
  unfold shownPage clampPage
  constructor
  · exact le_max_left _ _
  · apply max_le
    · omega
    · exact min_le_right _ _

theorem totalPages_mono {a b : Nat} (h : a ≤ b) : totalPages a ≤ totalPages b := by
  unfold totalPages
  apply max_le_max (le_refl _)
  have : (a + 9) / 10 ≤ (b + 9) / 10 := Nat.div_le_div_right (by omega)
  exact_mod_cast this

theorem queueExecute_page (sent : Option Message) (channel : ChannelId) (g : GuildId)
    (m : GuildMap) :
    ∃ s, (queueExecute sent channel g m).2 g = some s ∧ s.queuePage = 0 ∧ s.PageValid := by
  have hv : ∀ s : Session, s.queuePage = 0 → s.PageValid := by
    intro s hs
    have hpages := totalPages_pos s.queue.length
    unfold Session.PageValid
    omega
  unfold queueExecute
  dsimp only
  split
  · exact ⟨_, GuildMap.set_same _ _ _, rfl, hv _ rfl⟩
  · exact ⟨_, GuildMap.set_same _ _ _, rfl, hv _ rfl⟩

theorem queueButtonOn_queue (customId : String) (o : QueueMessageOutcome) (s : Session) :
    (queueButtonOn customId o s).2.queue = s.queue := by
  unfold queueButtonOn
  split
  · rfl
  · rw [updateQueueMessageOn_queue]
    split_ifs <;> rfl

theorem queueButtonOn_pageValid (customId : String) (o : QueueMessageOutcome) (s : Session)
    (h : s.PageValid) : (queueButtonOn customId o s).2.PageValid := by
  have hpages := totalPages_pos s.queue.length
  obtain ⟨h1, h2⟩ := h
  unfold Session.PageValid
  rw [queueButtonOn_queue]
  unfold queueButtonOn
  split
  · exact ⟨h1, h2⟩
  · rw [updateQueueMessageOn_queuePage]
    split_ifs
    · exact ⟨le_min (by omega) (by omega), min_le_left _ _⟩
    · exact ⟨le_max_left _ _, max_le (by omega) (by omega)⟩
    · exact ⟨h1, h2⟩

theorem queueButtonOn_next_pageValid (customId : String) (o : QueueMessageOutcome)
    (s : Session) (h0 : 0 ≤ s.queuePage) (hpage : buttonPage customId = some s.queuePage)
    (hnext : buttonDirection customId = some "next") :
    (queueButtonOn customId o s).2.PageValid := by
  have hpages := totalPages_pos s.queue.length
  unfold Session.PageValid
  rw [queueButtonOn_queue]
  unfold queueButtonOn
  rw [if_neg (by simp [hpage])]
  simp only [updateQueueMessageOn_queuePage, hnext, if_true]
  exact ⟨le_min (by omega) (by omega), min_le_left _ _⟩

theorem enqueueSong_pageValid (song : Track) (o : QueueMessageOutcome) (s : Session)
    (h : s.PageValid) : (updateQueueMessageOn o (enqueueSong song s)).PageValid := by
  obtain ⟨h1, h2⟩ := h
  unfold Session.PageValid
  rw [updateQueueMessageOn_queuePage, updateQueueMessageOn_queue]
  have hm : totalPages s.queue.length ≤ totalPages (enqueueSong song s).queue.length := by
    apply totalPages_mono
    simp [enqueueSong, push]
  exact ⟨h1, by simp only [enqueueSong] at hm ⊢; omega⟩

theorem shuffleExecute_pageValid (draws : Draws) (o : QueueMessageOutcome)
    (vc : Option ChannelId) (s : Session) (h : s.PageValid) :
    ∀ after, (shuffleExecute draws o vc (some s)).2 = some after → after.PageValid := by
  intro after hafter
  have hlen : (shuffleQueue draws s.queue).length = s.queue.length :=
    (shuffleQueue_perm draws s.queue).length_eq
  unfold shuffleExecute at hafter
  repeat' split at hafter
  all_goals
    simp only [Option.some.injEq] at hafter
    subst hafter
    first
      | exact h
      | (rename_i heq _ _ _
         cases heq
         unfold Session.PageValid
         rw [updateQueueMessageOn_queuePage, updateQueueMessageOn_queue]
         simp only [hlen]
         exact h)

theorem playNextSongOn_queuePage (o : AdvanceOutcome) (s : Session) :
    (playNextSongOn o s).2.queuePage = s.queuePage := by
  by_cases hg : (s.lockPlay || s.player.isNone || s.connection.isNone) = false
  · exact (playNextSongOn_view2 o s hg).2.2.1
  · rw [playNextSongOn_guarded o s (Bool.eq_true_of_not_eq_false hg)]

theorem removeExecute_queuePage (o : QueueMessageOutcome) (vc : Option ChannelId)
    (positionArg : Option String) (s : Session) :
    ∀ after, (removeExecute o vc positionArg (some s)).2 = some after →
      after.queuePage = s.queuePage := by
  intro after hafter
  cases vc with
  | none =>
    simp only [removeExecute, Option.some.injEq] at hafter
    rw [← hafter]
  | some vc =>
    simp only [removeExecute] at hafter
    repeat' split at hafter
    all_goals
      simp only [Option.some.injEq] at hafter
      rw [← hafter]
      try simp

theorem clearExecute_queuePage (o : QueueMessageOutcome) (vc : Option ChannelId)
    (s : Session) :
    ∀ after, (clearExecute o vc (some s)).2 = some after → after.queuePage = s.queuePage := by
  intro after hafter
  unfold clearExecute at hafter
  repeat' split at hafter
  all_goals
    simp only [Option.some.injEq] at hafter
    subst hafter
    first
      | rfl
      | (rename_i heq _ _ _
         cases heq
         simp)

/-- C19 (counterexample): 11 songs are queued and the queue message shows page 0.
A click on "next" stores page 1, which is valid for two pages; the `clear`
command then empties the queue and leaves the stored page at 1, although the
only page left is page 0. -/
theorem clear_leaves_page_out_of_range :
    sampleTurned.queue.length = 11 ∧ totalPages 11 = 2 ∧ sampleTurned.queuePage = 1 ∧
    (clearExecute sampleChat (some 5) (some sampleTurned)).1 = ClearReply.cleared 11 ∧
    ∃ after, (clearExecute sampleChat (some 5) (some sampleTurned)).2 = some after ∧
      after.queue = [] ∧ after.queuePage = 1 ∧ totalPages after.queue.length = 1 ∧
      ¬ (0 ≤ after.queuePage ∧ after.queuePage ≤ totalPages after.queue.length - 1) := by
  refine ⟨by decide, by decide, by decide, by decide,
    updateQueueMessageOn sampleChat { sampleTurned with queue := [] }, by decide, by decide,
    by decide, by decide, by decide⟩

/-- C19 (as amended): the page that the queue display renders is always a page
of the current queue, `0 ≤ page ≤ totalPages - 1`, because the display clamps the
stored cursor when it renders.  The stored cursor is never negative in a
reachable map; the `queue` command stores 0; a "next" click that is not stale
stores a valid page; a pagination click, an enqueue and a shuffle keep a valid
cursor valid.  The advance, `remove` and `clear` do not write the stored cursor. -/
theorem queuePage_validity :
    (∀ s : Session, 0 ≤ shownPage s ∧ shownPage s ≤ totalPages s.queue.length - 1) ∧
    (∀ (m : GuildMap), Reachable m → ∀ (g : GuildId) (s : Session), m g = some s →
      0 ≤ s.queuePage) ∧
    (∀ (sent : Option Message) (channel : ChannelId) (g : GuildId) (m : GuildMap),
      ∃ s, (queueExecute sent channel g m).2 g = some s ∧ s.queuePage = 0 ∧ s.PageValid) ∧
    (∀ (customId : String) (o : QueueMessageOutcome) (s : Session),
      0 ≤ s.queuePage → buttonPage customId = some s.queuePage →
      buttonDirection customId = some "next" →
      (queueButtonOn customId o s).2.PageValid) ∧
    (∀ (customId : String) (o : QueueMessageOutcome) (s : Session),
      s.PageValid → (queueButtonOn customId o s).2.PageValid) ∧
    (∀ (song : Track) (o : QueueMessageOutcome) (s : Session),
      s.PageValid → (updateQueueMessageOn o (enqueueSong song s)).PageValid) ∧
    (∀ (draws : Draws) (o : QueueMessageOutcome) (vc : Option ChannelId) (s : Session),
      s.PageValid →
      ∀ after, (shuffleExecute draws o vc (some s)).2 = some after → after.PageValid) ∧
    (∀ (o : AdvanceOutcome) (s : Session), (playNextSongOn o s).2.queuePage = s.queuePage) ∧
    (∀ (o : QueueMessageOutcome) (vc : Option ChannelId) (positionArg : Option String)
        (s after : Session),
      (removeExecute o vc positionArg (some s)).2 = some after →
      after.queuePage = s.queuePage) ∧
    (∀ (o : QueueMessageOutcome) (vc : Option ChannelId) (s after : Session),
      (clearExecute o vc (some s)).2 = some after → after.queuePage = s.queuePage) := by
  refine ⟨shownPage_valid, ?_, queueExecute_page, queueButtonOn_next_pageValid,
    queueButtonOn_pageValid, enqueueSong_pageValid, shuffleExecute_pageValid,
    playNextSongOn_queuePage, ?_, ?_⟩
  · intro m hr g s hm
    exact (hr.all_bounded g s hm).2.2
  · intro o vc positionArg s after h
    exact removeExecute_queuePage o vc positionArg s after h
  · intro o vc s after h
    exact clearExecute_queuePage o vc s after h

/-- Witness for `queuePage_validity`: guild 0 after a first `play`; the session
with 11 songs queued before and after a click on "next"; a click on "prev", an
enqueue, a shuffle, `remove 11` and `clear` on the session after the click. -/
theorem queuePage_validity_witness :
    (∀ s, samplePlayedMap 0 = some s → 0 ≤ s.queuePage) ∧
    sampleTurned.PageValid ∧
    (queueButtonOn "queue_prev_1" sampleChat sampleTurned).2.PageValid ∧
    (updateQueueMessageOn sampleChat (enqueueSong sampleTrackB sampleTurned)).PageValid ∧
    (∀ after, (shuffleExecute (fun _ => 0) sampleChat (some 5) (some sampleTurned)).2 =
      some after → after.PageValid) ∧
    (updateQueueMessageOn sampleChat { sampleTurned with queue := sampleQueue 10 }).queuePage =
      sampleTurned.queuePage ∧
    (updateQueueMessageOn sampleChat { sampleTurned with queue := [] }).queuePage =
      sampleTurned.queuePage :=
  have turned : sampleTurned.PageValid :=
    queuePage_validity.2.2.2.1 "queue_next_0" sampleChat (sampleShown (sampleQueue 11))
      (by decide) (by decide) (by decide)
  ⟨queuePage_validity.2.1 samplePlayedMap
      (Reachable.step _ _ Reachable.start
        (Step.play sampleRequest samplePlay 0 GuildMap.empty)) 0,
    turned,
    queuePage_validity.2.2.2.2.1 "queue_prev_1" sampleChat sampleTurned turned,
    queuePage_validity.2.2.2.2.2.1 sampleTrackB sampleChat sampleTurned turned,
    queuePage_validity.2.2.2.2.2.2.1 (fun _ => 0) sampleChat (some 5) sampleTurned turned,
    queuePage_validity.2.2.2.2.2.2.2.2.1 sampleChat (some 5) (some "11") sampleTurned _
      (by decide),
    queuePage_validity.2.2.2.2.2.2.2.2.2 sampleChat (some 5) sampleTurned _ (by decide)⟩


/-! ## Creating and finding a session -/

/-- C21: `ensurePlayerData` returns the session of the guild when the map has one
and leaves its queue, current song, loop mode, volume, `lockPlay`, page and every
other field except `textChannel` as they were; otherwise it creates and stores a
session with the defaults.  Afterwards the map holds for the guild exactly the
session that was returned, and the entries of the other guilds are untouched. -/
theorem ensurePlayerData_spec (g : GuildId) (tc : Option ChannelId) (m : GuildMap) :
    (∀ s, m g = some s →
      (ensurePlayerData g tc m).1 = { s with textChannel := tc } ∧
      (ensurePlayerData g tc m).1.queue = s.queue ∧
      (ensurePlayerData g tc m).1.currentSong = s.currentSong ∧
      (ensurePlayerData g tc m).1.loop = s.loop ∧
      (ensurePlayerData g tc m).1.volume = s.volume ∧
      (ensurePlayerData g tc m).1.lockPlay = s.lockPlay ∧
      (ensurePlayerData g tc m).1.queuePage = s.queuePage) ∧
    (m g = none →
      (ensurePlayerData g tc m).1 = newSession tc ∧
      (ensurePlayerData g tc m).1.queue = [] ∧
      (ensurePlayerData g tc m).1.currentSong = none ∧
      (ensurePlayerData g tc m).1.loop = LoopMode.none ∧
      (ensurePlayerData g tc m).1.volume = 50 ∧
      (ensurePlayerData g tc m).1.lockPlay = false ∧
      (ensurePlayerData g tc m).1.timeoutId = none ∧
      (ensurePlayerData g tc m).1.nowPlayingMessage = none ∧
      (ensurePlayerData g tc m).1.queueMessage = none ∧
      (ensurePlayerData g tc m).1.queuePage = 0 ∧
      (ensurePlayerData g tc m).1.connection = none ∧
      (ensurePlayerData g tc m).1.player = none) ∧
    (ensurePlayerData g tc m).2 g = some (ensurePlayerData g tc m).1 ∧
    (∀ k, k ≠ g → (ensurePlayerData g tc m).2 k = m k) := by
  refine ⟨?_, ?_, ?_, ?_⟩
  · intro s hs
    rw [ensurePlayerData_of_some g tc m s hs]
    exact ⟨rfl, rfl, rfl, rfl, rfl, rfl, rfl⟩
  · intro hm
    rw [ensurePlayerData_of_none g tc m hm]
    exact ⟨rfl, rfl, rfl, rfl, rfl, rfl, rfl, rfl, rfl, rfl, rfl, rfl⟩
  · cases hm : m g with
    | none =>
      rw [ensurePlayerData_of_none g tc m hm]
      exact GuildMap.set_same _ _ _
    | some s =>
      rw [ensurePlayerData_of_some g tc m s hm]
      exact GuildMap.set_same _ _ _
  · intro k hk
    cases hm : m g with
    | none =>
      rw [ensurePlayerData_of_none g tc m hm]
      simp [GuildMap.set, hk]
    | some s =>
      rw [ensurePlayerData_of_some g tc m s hm]
      simp [GuildMap.set, hk]

/-- Witness for `ensurePlayerData_spec`: guild 0 of `sampleFullMap` has a session,
guild 1 has none. -/
theorem ensurePlayerData_spec_witness :
    (ensurePlayerData 0 (some 8) sampleFullMap).1 =
      { sampleStreaming (List.replicate 100 sampleTrackA) with textChannel := some 8 } ∧
    (ensurePlayerData 1 (some 8) sampleFullMap).1 = newSession (some 8) ∧
    (ensurePlayerData 1 (some 8) sampleFullMap).2 1 = some (newSession (some 8)) :=
  ⟨((ensurePlayerData_spec 0 (some 8) sampleFullMap).1 _ rfl).1,
    ((ensurePlayerData_spec 1 (some 8) sampleFullMap).2.1 rfl).1,
    ((ensurePlayerData_spec 1 (some 8) sampleFullMap).2.1 rfl).1 ▸
      (ensurePlayerData_spec 1 (some 8) sampleFullMap).2.2.1⟩

/-! ## The lock is released -/

theorem playNextSongOn_lockPlay (o : AdvanceOutcome) (s : Session) :
    (playNextSongOn o s).2.lockPlay = false := by
  by_cases hg : (s.lockPlay || s.player.isNone || s.connection.isNone) = false
  · exact (playNextSongOn_view o s hg).2.2.2.2.1
  · rw [playNextSongOn_guarded o s (Bool.eq_true_of_not_eq_false hg)]

theorem playNextSongResume_lockPlay (o : AdvanceOutcome) (song : Track) (s : Session) :
    (playNextSongResume o song s).2.lockPlay = false := by
  unfold playNextSongResume
  split <;> rfl

theorem playNextSongEnter_lockPlay (o : AdvanceOutcome) (s : Session) :
    (playNextSongEnter o s).2.lockPlay =
      (match (playNextSongEnter o s).1 with
       | EnterResult.suspended _ => true
       | _ => false) := by
  obtain ⟨conn, pl, qu, cur, tc, lp, vol, tm, lk, np, qm, pg⟩ := s
  unfold playNextSongEnter
  split
  · rfl
  · cases lp <;> cases cur <;> cases qu <;>
      simp [selectSong, push, shift, startInactivityTimerOn]

/-- C22: every run of `playNextSong` that comes to its end leaves
`lockPlay = false`, whichever way it ends: at the entry guard, with nothing to
select, with the song started, or with a failure while starting it.  This holds
for the run as a whole and for its two halves around the awaited start of the
song. -/
theorem playNextSong_releases_lock (o : AdvanceOutcome) (s : Session) (g : GuildId)
    (m : GuildMap) (song : Track) :
    (playNextSongOn o s).2.lockPlay = false ∧
    ((playNextSongOn o s).1 = PlayNextResult.guarded ∨
      (playNextSongOn o s).1 = PlayNextResult.queueEmpty ∨
      (∃ t, (playNextSongOn o s).1 = PlayNextResult.started t) ∨
      (∃ t, (playNextSongOn o s).1 = PlayNextResult.failed t)) ∧
    (∀ after, (playNextSong o g m).2 g = some after → after.lockPlay = false) ∧
    ((playNextSongEnter o s).1 = EnterResult.guarded →
      (playNextSongEnter o s).2.lockPlay = false) ∧
    ((playNextSongEnter o s).1 = EnterResult.queueEmpty →
      (playNextSongEnter o s).2.lockPlay = false) ∧
    (playNextSongResume o song s).2.lockPlay = false := by
  refine ⟨playNextSongOn_lockPlay o s, ?_, ?_, ?_, ?_, playNextSongResume_lockPlay o song s⟩
  · cases h : (playNextSongOn o s).1 with
    | guarded => exact Or.inl rfl
    | queueEmpty => exact Or.inr (Or.inl rfl)
    | started t => exact Or.inr (Or.inr (Or.inl ⟨t, rfl⟩))
    | failed t => exact Or.inr (Or.inr (Or.inr ⟨t, rfl⟩))
  · intro after hafter
    unfold playNextSong at hafter
    cases hm : m g with
    | none => rw [hm] at hafter; simp only at hafter; rw [hm] at hafter; cases hafter
    | some s0 =>
      rw [hm] at hafter
      simp only [GuildMap.set_same, Option.some.injEq] at hafter
      rw [← hafter]
      exact playNextSongOn_lockPlay o s0
  · intro h
    rw [playNextSongEnter_lockPlay, h]
  · intro h
    rw [playNextSongEnter_lockPlay, h]

/-- Witness for `playNextSong_releases_lock`: the four ways a run can end, on
sample sessions. -/
theorem playNextSong_releases_lock_witness :
    (playNextSongOn sampleStart { sampleStreaming [sampleTrackB] with lockPlay := true }).1 =
      PlayNextResult.guarded ∧
    (playNextSongOn sampleStart
      { sampleStreaming [sampleTrackB] with lockPlay := true }).2.lockPlay = false ∧
    (playNextSongOn sampleStart (sampleSession [] none LoopMode.none)).1 =
      PlayNextResult.queueEmpty ∧
    (playNextSongOn sampleStart (sampleSession [] none LoopMode.none)).2.lockPlay = false ∧
    (playNextSongOn sampleStart (sampleSession [sampleTrackA] none LoopMode.none)).1 =
      PlayNextResult.started sampleTrackA ∧
    (playNextSongOn sampleStart
      (sampleSession [sampleTrackA] none LoopMode.none)).2.lockPlay = false ∧
    (playNextSongOn sampleFailure (sampleSession [sampleTrackA] none LoopMode.none)).1 =
      PlayNextResult.failed sampleTrackA ∧
    (playNextSongOn sampleFailure
      (sampleSession [sampleTrackA] none LoopMode.none)).2.lockPlay = false ∧
    (playNextSongEnter sampleStart (sampleSession [] none LoopMode.none)).2.lockPlay = false :=
  ⟨by decide,
    (playNextSong_releases_lock sampleStart
      { sampleStreaming [sampleTrackB] with lockPlay := true } 0 GuildMap.empty sampleTrackA).1,
    by decide,
    (playNextSong_releases_lock sampleStart (sampleSession [] none LoopMode.none) 0
      GuildMap.empty sampleTrackA).1,
    by decide,
    (playNextSong_releases_lock sampleStart (sampleSession [sampleTrackA] none LoopMode.none) 0
      GuildMap.empty sampleTrackA).1,
    by decide,
    (playNextSong_releases_lock sampleFailure (sampleSession [sampleTrackA] none LoopMode.none)
      0 GuildMap.empty sampleTrackA).1,
    (playNextSong_releases_lock sampleStart (sampleSession [] none LoopMode.none) 0
      GuildMap.empty sampleTrackA).2.2.2.2.1 (by decide)⟩

/-! ## The listener of the player Idle event -/

/-- C25: the listener of the player Idle event.  Without a session it does
nothing.  With a session: when the old state was Playing and a current song is
set, `playNextSong` is called; otherwise, when the old state was not Idle and
there is no current song, `playNextSong` is called if the queue is not empty and
`lockPlay` is false, and the inactivity timer is started if the queue is empty;
in every remaining case nothing happens.  Calling `playNextSong` stores the
session that one run of it leaves; starting the timer stores the session with
`timeoutId` set to the new timer of 300000 ms and nothing else changed. -/
theorem playerIdle_spec (oldStatus : AudioPlayerStatus) (o : AdvanceOutcome) (g : GuildId)
    (m : GuildMap) :
    (m g = none → playerIdle oldStatus o g m = m) ∧
    (∀ s, m g = some s →
      (oldStatus = AudioPlayerStatus.Playing ∧ s.currentSong.isSome = true →
        idleAction oldStatus (m g) = IdleAction.playNext ∧
        playerIdle oldStatus o g m = (playNextSong o g m).2 ∧
        playerIdle oldStatus o g m = m.set g (playNextSongOn o s).2) ∧
      (¬ (oldStatus = AudioPlayerStatus.Playing ∧ s.currentSong.isSome = true) →
        oldStatus ≠ AudioPlayerStatus.Idle → s.currentSong = none →
        (s.queue ≠ [] → s.lockPlay = false →
          idleAction oldStatus (m g) = IdleAction.playNext ∧
          playerIdle oldStatus o g m = (playNextSong o g m).2 ∧
          playerIdle oldStatus o g m = m.set g (playNextSongOn o s).2) ∧
        (s.queue = [] →
          idleAction oldStatus (m g) = IdleAction.startTimer ∧
          playerIdle oldStatus o g m =
            startInactivityTimer o.timerHandle INACTIVITY_TIMEOUT_MS g m ∧
          playerIdle oldStatus o g m =
            m.set g { s with timeoutId := some { handle := o.timerHandle, ms := 300000 } }) ∧
        (s.queue ≠ [] → s.lockPlay = true →
          idleAction oldStatus (m g) = IdleAction.nothing ∧
          playerIdle oldStatus o g m = m)) ∧
      (¬ (oldStatus = AudioPlayerStatus.Playing ∧ s.currentSong.isSome = true) →
        (oldStatus = AudioPlayerStatus.Idle ∨ s.currentSong.isSome = true) →
        idleAction oldStatus (m g) = IdleAction.nothing ∧
        playerIdle oldStatus o g m = m)) := by
  constructor
  · intro hm
    simp [playerIdle, idleAction, hm]
  · intro s hm
    refine ⟨?_, ?_, ?_⟩
    · intro h1
      have ha : idleAction oldStatus (m g) = IdleAction.playNext := by
        simp [idleAction, hm, h1]
      exact ⟨ha, by simp [playerIdle, ha], by rw [hm] at ha; simp [playerIdle, playNextSong, hm, ha]⟩
    · intro h1 h2 h3
      refine ⟨?_, ?_, ?_⟩
      · intro hq hl
        have hlen : s.queue.length > 0 := List.length_pos.mpr hq
        have ha : idleAction oldStatus (m g) = IdleAction.playNext := by
          simp only [idleAction, hm, if_neg h1]
          simp [h2, h3, hlen, hl]
        exact ⟨ha, by simp [playerIdle, ha], by rw [hm] at ha; simp [playerIdle, playNextSong, hm, ha]⟩
      · intro hq
        have ha : idleAction oldStatus (m g) = IdleAction.startTimer := by
          simp only [idleAction, hm, if_neg h1]
          simp [h2, h3, hq]
        exact ⟨ha, by simp [playerIdle, ha],
          by rw [hm] at ha; simp [playerIdle, ha, startInactivityTimer, hm,
            startInactivityTimerOn, INACTIVITY_TIMEOUT_MS]⟩
      · intro hq hl
        have hlen : s.queue.length ≠ 0 := fun h => hq (List.length_eq_zero.mp h)
        have ha : idleAction oldStatus (m g) = IdleAction.nothing := by
          simp only [idleAction, hm, if_neg h1]
          simp [h2, h3, hlen, hl]
        exact ⟨ha, by simp [playerIdle, ha]⟩
    · intro h1 h2
      have ha : idleAction oldStatus (m g) = IdleAction.nothing := by
        simp only [idleAction, hm, if_neg h1]
        rcases h2 with h2 | h2
        · simp [h2]
        · have hc : s.currentSong.isNone = false := by
            cases hcs : s.currentSong <;> simp_all
          simp [hc]
      exact ⟨ha, by simp [playerIdle, ha]⟩

/-- Witness for `playerIdle_spec`: a song that finished, an idle session with a
queued song, an idle session with an empty queue, a paused song that was stopped,
and a guild without a session. -/
theorem playerIdle_spec_witness :
    playerIdle AudioPlayerStatus.Playing sampleStart 0
        (sampleMapOf (sampleStreaming [sampleTrackB])) =
      (sampleMapOf (sampleStreaming [sampleTrackB])).set 0
        (playNextSongOn sampleStart (sampleStreaming [sampleTrackB])).2 ∧
    (playNextSongOn sampleStart (sampleStreaming [sampleTrackB])).2.currentSong =
      some sampleTrackB ∧
    playerIdle AudioPlayerStatus.Paused sampleStart 0
        (sampleMapOf (sampleSession [sampleTrackB] none LoopMode.none)) =
      (sampleMapOf (sampleSession [sampleTrackB] none LoopMode.none)).set 0
        (playNextSongOn sampleStart (sampleSession [sampleTrackB] none LoopMode.none)).2 ∧
    playerIdle AudioPlayerStatus.Paused sampleStart 0
        (sampleMapOf (sampleSession [] none LoopMode.none)) =
      (sampleMapOf (sampleSession [] none LoopMode.none)).set 0
        { sampleSession [] none LoopMode.none with
          timeoutId := some { handle := sampleStart.timerHandle, ms := 300000 } } ∧
    (playerIdle AudioPlayerStatus.Paused sampleStart 0
        (sampleMapOf (sampleSession [] none LoopMode.none)) 0).map (fun s => s.timeoutId) =
      some (some { handle := 1, ms := 300000 }) ∧
    playerIdle AudioPlayerStatus.Paused sampleStart 0
        (sampleMapOf (sampleStreaming [sampleTrackB])) =
      sampleMapOf (sampleStreaming [sampleTrackB]) ∧
    playerIdle AudioPlayerStatus.Playing sampleStart 1
        (sampleMapOf (sampleStreaming [sampleTrackB])) =
      sampleMapOf (sampleStreaming [sampleTrackB]) :=
  ⟨(((playerIdle_spec AudioPlayerStatus.Playing sampleStart 0
        (sampleMapOf (sampleStreaming [sampleTrackB]))).2 _ rfl).1 (by decide)).2.2,
    by decide,
    ((((playerIdle_spec AudioPlayerStatus.Paused sampleStart 0
        (sampleMapOf (sampleSession [sampleTrackB] none LoopMode.none))).2 _ rfl).2.1
        (by decide) (by decide) rfl).1 (by decide) rfl).2.2,
    ((((playerIdle_spec AudioPlayerStatus.Paused sampleStart 0
        (sampleMapOf (sampleSession [] none LoopMode.none))).2 _ rfl).2.1
        (by decide) (by decide) rfl).2.1 rfl).2.2,
    by decide,
    (((playerIdle_spec AudioPlayerStatus.Paused sampleStart 0
        (sampleMapOf (sampleStreaming [sampleTrackB]))).2 _ rfl).2.2
        (by decide) (Or.inr rfl)).2,
    (playerIdle_spec AudioPlayerStatus.Playing sampleStart 1
        (sampleMapOf (sampleStreaming [sampleTrackB]))).1 rfl⟩

/-! ## Formatting a duration -/

theorem pad2_two_digits : ∀ n : Fin 60,
    pad2 ((n.val : Nat) : Int) =
      String.mk [Nat.digitChar (n.val / 10), Nat.digitChar (n.val % 10)] := by
  decide

theorem formatDuration_nat (s : Nat) (hs : 0 < s) :
    formatDuration (some (s : Int)) =
      (if 0 < s / 3600 then showInt ((s / 3600 : Nat) : Int) ++ ":" else "") ++
        pad2 ((s % 3600 / 60 : Nat) : Int) ++ ":" ++ pad2 ((s % 60 : Nat) : Int) := by
  have h0 : ¬ ((s : Int) = 0) := by omega
  have h1 : Int.fdiv (s : Int) 3600 = ((s / 3600 : Nat) : Int) := by
    rw [Int.fdiv_eq_ediv _ (by norm_num)]
    norm_cast
  have h2 : Int.tmod (s : Int) 3600 = ((s % 3600 : Nat) : Int) := by
    rw [Int.tmod_eq_emod (by omega) (by norm_num)]
    norm_cast
  have h3 : Int.tmod (s : Int) 60 = ((s % 60 : Nat) : Int) := by
    rw [Int.tmod_eq_emod (by omega) (by norm_num)]
    norm_cast
  have h4 : Int.fdiv ((s % 3600 : Nat) : Int) 60 = ((s % 3600 / 60 : Nat) : Int) := by
    rw [Int.fdiv_eq_ediv _ (by norm_num)]
    norm_cast
  simp only [formatDuration, if_neg h0, h1, h2, h3, h4]
  norm_cast

/-- C27: `formatDuration` on a whole number of seconds.  For `0 < s < 3600` the
result is `MM:SS`: two digits for the minutes, a colon, two digits for the
seconds, with `minutes * 60 + seconds = s`.  For `s ≥ 3600` it is the hours in
decimal, a colon, two digits for the minutes, a colon and two digits for the
seconds, with `hours * 3600 + minutes * 60 + seconds = s`.  For 0 and for a
duration that is absent or not a number the result is "00:00". -/
theorem formatDuration_spec :
    (∀ s : Int, 0 < s → s < 3600 →
      ∃ minutes seconds : Nat, minutes < 60 ∧ seconds < 60 ∧
        (minutes : Int) * 60 + seconds = s ∧
        formatDuration (some s) =
          String.mk [Nat.digitChar (minutes / 10), Nat.digitChar (minutes % 10), ':',
            Nat.digitChar (seconds / 10), Nat.digitChar (seconds % 10)]) ∧
    (∀ s : Int, 3600 ≤ s →
      ∃ hours minutes seconds : Nat, 0 < hours ∧ minutes < 60 ∧ seconds < 60 ∧
        (hours : Int) * 3600 + (minutes : Int) * 60 + seconds = s ∧
        parseInt (showInt (hours : Int)) = some (hours : Int) ∧
        formatDuration (some s) =
          showInt (hours : Int) ++
            String.mk [':', Nat.digitChar (minutes / 10), Nat.digitChar (minutes % 10), ':',
              Nat.digitChar (seconds / 10), Nat.digitChar (seconds % 10)]) ∧
    formatDuration (some 0) = "00:00" ∧
    formatDuration none = "00:00" := by
  refine ⟨?_, ?_, rfl, rfl⟩
  · intro s h0 h1
    obtain ⟨n, rfl⟩ := Int.eq_ofNat_of_zero_le (le_of_lt h0)
    have hn0 : 0 < n := by omega
    have hn1 : n < 3600 := by omega
    refine ⟨n / 60, n % 60, by omega, by omega, by omega, ?_⟩
    rw [formatDuration_nat n hn0]
    have hh : ¬ (0 < n / 3600) := by omega
    have hm : n % 3600 / 60 = n / 60 := by omega
    rw [if_neg hh, hm, pad2_two_digits ⟨n / 60, by omega⟩, pad2_two_digits ⟨n % 60, by omega⟩]
    rfl
  · intro s h0
    obtain ⟨n, rfl⟩ := Int.eq_ofNat_of_zero_le (by omega : (0 : Int) ≤ s)
    have hn0 : 3600 ≤ n := by omega
    refine ⟨n / 3600, n % 3600 / 60, n % 60, by omega, by omega, by omega, by omega,
      parseInt_showInt _, ?_⟩
    rw [formatDuration_nat n (by omega)]
    have hh : 0 < n / 3600 := by omega
    rw [if_pos hh, pad2_two_digits ⟨n % 3600 / 60, by omega⟩,
      pad2_two_digits ⟨n % 60, by omega⟩]
    simp only [String.append_assoc]
    rfl

/-- Witness for `formatDuration_spec`: 200 seconds and 3725 seconds. -/
theorem formatDuration_spec_witness :
    formatDuration (some 200) = "03:20" ∧ formatDuration (some 3725) = "1:02:05" ∧
    (∃ minutes seconds : Nat, minutes < 60 ∧ seconds < 60 ∧
      (minutes : Int) * 60 + seconds = 200 ∧
      formatDuration (some 200) =
        String.mk [Nat.digitChar (minutes / 10), Nat.digitChar (minutes % 10), ':',
          Nat.digitChar (seconds / 10), Nat.digitChar (seconds % 10)]) ∧
    (∃ hours minutes seconds : Nat, 0 < hours ∧ minutes < 60 ∧ seconds < 60 ∧
      (hours : Int) * 3600 + (minutes : Int) * 60 + seconds = 3725 ∧
      parseInt (showInt (hours : Int)) = some (hours : Int) ∧
      formatDuration (some 3725) =
        showInt (hours : Int) ++
          String.mk [':', Nat.digitChar (minutes / 10), Nat.digitChar (minutes % 10), ':',
            Nat.digitChar (seconds / 10), Nat.digitChar (seconds % 10)]) :=
  ⟨by decide, by decide, formatDuration_spec.1 200 (by decide) (by decide),
    formatDuration_spec.2.1 3725 (by decide)⟩

/-! ## The progress bar -/

theorem mathRound_bounds (x : ℚ) (n : Int) (h0 : 0 ≤ x) (hn : x ≤ (n : ℚ)) :
    0 ≤ mathRound x ∧ mathRound x ≤ n := by
  unfold mathRound
  constructor
  · apply Int.floor_nonneg.mpr
    linarith
  · have h1 : x + 1 / 2 < ((n + 1 : Int) : ℚ) := by
      push_cast
      linarith
    have h2 := Int.floor_lt.mpr h1
    omega

theorem progressCells_bounds (fl : ℚ → ℚ) (currentMs totalSeconds barLength : Int)
    (hmono : Monotone fl) (h0 : fl 0 = 0) (hb : fl (barLength : ℚ) = (barLength : ℚ))
    (hlen : 0 ≤ barLength) :
    0 ≤ (progressCells fl currentMs totalSeconds barLength).1 ∧
    (progressCells fl currentMs totalSeconds barLength).1 ≤ barLength ∧
    0 ≤ (progressCells fl currentMs totalSeconds barLength).2 ∧
    (progressCells fl currentMs totalSeconds barLength).1 +
      (progressCells fl currentMs totalSeconds barLength).2 = barLength := by
  have hlenq : (0 : ℚ) ≤ (barLength : ℚ) := by exact_mod_cast hlen
  have hp0 : (0 : ℚ) ≤ min 1 (max 0
      (fl ((currentMs : ℚ) / ((totalSeconds * 1000 : Int) : ℚ)))) :=
    le_min (by norm_num) (le_max_left _ _)
  have hp1 : min 1 (max 0
      (fl ((currentMs : ℚ) / ((totalSeconds * 1000 : Int) : ℚ)))) ≤ (1 : ℚ) :=
    min_le_left _ _
  have hx0 : (0 : ℚ) ≤ fl ((barLength : ℚ) * min 1 (max 0
      (fl ((currentMs : ℚ) / ((totalSeconds * 1000 : Int) : ℚ))))) := by
    have h := hmono (mul_nonneg hlenq hp0)
    rw [h0] at h
    exact h
  have hx1 : fl ((barLength : ℚ) * min 1 (max 0
      (fl ((currentMs : ℚ) / ((totalSeconds * 1000 : Int) : ℚ))))) ≤ (barLength : ℚ) := by
    have hle : (barLength : ℚ) * min 1 (max 0
        (fl ((currentMs : ℚ) / ((totalSeconds * 1000 : Int) : ℚ)))) ≤ (barLength : ℚ) :=
      calc (barLength : ℚ) * _ ≤ (barLength : ℚ) * 1 := mul_le_mul_of_nonneg_left hp1 hlenq
        _ = (barLength : ℚ) := mul_one _
    have h := hmono hle
    rw [hb] at h
    exact h
  obtain ⟨hr0, hr1⟩ := mathRound_bounds _ barLength hx0 hx1
  simp only [progressCells]
  refine ⟨hr0, hr1, by omega, by omega⟩

theorem jsRepeat_nat (s : String) (n : Nat) :
    jsRepeat s (n : Int) = Except.ok (String.join (List.replicate n s)) := by
  unfold jsRepeat
  rw [if_neg (by omega)]
  rfl

/-- C28: for a total duration above zero, an elapsed time that is not negative
(also one beyond the total) and `barLength = 15`, `createProgressBar` raises no
error and draws exactly 15 cells: the number of filled cells is
`round(15 * min(1, currentMs / (totalSeconds * 1000)))`, it lies between 0 and
15, the number of empty cells is not negative, and the two add up to 15.  The
statement holds for every rounding `fl` of the two inexact operations that is
monotone and leaves 0 and 15 as they are, exact arithmetic included. -/
theorem createProgressBar_cells (fl : ℚ → ℚ) (currentMs totalSeconds : Int)
    (hmono : Monotone fl) (h0 : fl 0 = 0) (h15 : fl 15 = 15)
    (htotal : 0 < totalSeconds) (hcur : 0 ≤ currentMs) :
    ∃ filled empty : Nat,
      progressCells fl currentMs totalSeconds 15 = ((filled : Int), (empty : Int)) ∧
      ((filled : Int) = mathRound (fl (15 * min 1
        (fl ((currentMs : ℚ) / ((totalSeconds * 1000 : Int) : ℚ)))))) ∧
      filled ≤ 15 ∧ filled + empty = 15 ∧
      createProgressBar fl currentMs (some totalSeconds) 15 =
        Except.ok ("`[" ++ formatDuration (some ⌊fl ((currentMs : ℚ) / 1000)⌋) ++ " / " ++
          formatDuration (some totalSeconds) ++ "] [" ++
          String.join (List.replicate filled "🔘") ++
          String.join (List.replicate empty "─") ++ "]`") := by
  have hb : fl ((15 : Int) : ℚ) = ((15 : Int) : ℚ) := by
    norm_num
    exact h15
  obtain ⟨h1, h2, h3, h4⟩ :=
    progressCells_bounds fl currentMs totalSeconds 15 hmono h0 hb (by norm_num)
  obtain ⟨filled, hf⟩ := Int.eq_ofNat_of_zero_le h1
  obtain ⟨empty, he⟩ := Int.eq_ofNat_of_zero_le h3
  have hratio : (0 : ℚ) ≤ fl ((currentMs : ℚ) / ((totalSeconds * 1000 : Int) : ℚ)) := by
    have hq : (0 : ℚ) ≤ (currentMs : ℚ) / ((totalSeconds * 1000 : Int) : ℚ) := by
      apply div_nonneg
      · exact_mod_cast hcur
      · have : (0 : Int) ≤ totalSeconds * 1000 := by omega
        exact_mod_cast this
    have h := hmono hq
    rw [h0] at h
    exact h
  refine ⟨filled, empty, Prod.ext hf he, ?_, by omega, by omega, ?_⟩
  · rw [← hf]
    simp only [progressCells, max_eq_right hratio]
    norm_num
  · have hz : ¬ (totalSeconds = 0 ∨ currentMs < 0) := by omega
    simp only [createProgressBar, if_neg hz, hf, he, jsRepeat_nat]

/-- Witness for `createProgressBar_cells`: exact arithmetic, a song of 180
seconds, after 90 seconds and after 400 seconds. -/
theorem createProgressBar_cells_witness :
    (∃ filled empty : Nat,
      progressCells id 90000 180 15 = ((filled : Int), (empty : Int)) ∧
      ((filled : Int) = mathRound (id (15 * min 1
        (id (((90000 : Int) : ℚ) / ((180 * 1000 : Int) : ℚ)))))) ∧
      filled ≤ 15 ∧ filled + empty = 15 ∧
      createProgressBar id 90000 (some 180) 15 =
        Except.ok ("`[" ++ formatDuration (some ⌊id (((90000 : Int) : ℚ) / 1000)⌋) ++ " / " ++
          formatDuration (some 180) ++ "] [" ++
          String.join (List.replicate filled "🔘") ++
          String.join (List.replicate empty "─") ++ "]`")) ∧
    (∃ filled empty : Nat,
      progressCells id 400000 180 15 = ((filled : Int), (empty : Int)) ∧
      ((filled : Int) = mathRound (id (15 * min 1
        (id (((400000 : Int) : ℚ) / ((180 * 1000 : Int) : ℚ)))))) ∧
      filled ≤ 15 ∧ filled + empty = 15 ∧
      createProgressBar id 400000 (some 180) 15 =
        Except.ok ("`[" ++ formatDuration (some ⌊id (((400000 : Int) : ℚ) / 1000)⌋) ++ " / " ++
          formatDuration (some 180) ++ "] [" ++
          String.join (List.replicate filled "🔘") ++
          String.join (List.replicate empty "─") ++ "]`")) :=
  ⟨createProgressBar_cells id 90000 180 monotone_id rfl rfl (by decide) (by decide),
    createProgressBar_cells id 400000 180 monotone_id rfl rfl (by decide) (by decide)⟩

theorem progressCells_samples :
    progressCells id 90000 180 15 = (8, 7) ∧ progressCells id 400000 180 15 = (15, 0) ∧
    progressCells id 0 180 15 = (0, 15) := by
  refine ⟨?_, ?_, ?_⟩ <;>
    · simp only [progressCells, mathRound, id]
      norm_num [Int.floor_eq_iff]

/-! ## The current song after a player error -/

set_option maxRecDepth 100000 in
/-- C23 (the code at the failing input): guild 0 is playing song A with song B
queued, reached by two `play` commands.  The player reports an error: the
listener clears the current song and schedules `playNextSong` after 500 ms.  The
player then enters Idle, and the listener of the Idle event, finding no current
song and B queued, calls `playNextSong`, which starts B.  When the scheduled
call runs, no run of `playNextSong` is under way; it finds the queue empty,
clears the current song and starts the inactivity timer, and leaves the player
as it is.  The map reached has no run of `playNextSong` under way, its player is
Playing the resource of B, and its current song is absent. -/
theorem playerError_retry_clears_currentSong :
    Reachable sampleRetried ∧
    (sampleQueuedMap 0).map (fun s => (s.currentSong, s.player.map (fun p => p.status), s.queue)) =
      some (some sampleTrackA, some AudioPlayerStatus.Playing, [sampleTrackB]) ∧
    ((playerError 0 sampleQueuedMap) 0).map (fun s => s.currentSong) = some none ∧
    idleAction AudioPlayerStatus.Playing ((playerEntersIdle 0 (playerError 0 sampleQueuedMap)) 0) =
      IdleAction.playNext ∧
    (sampleRecovered 0).map
      (fun s => (s.currentSong, s.player.map (fun p => p.status), s.queue, s.lockPlay)) =
      some (some sampleTrackB, some AudioPlayerStatus.Playing, [], false) ∧
    (playNextSong sampleLaterStart 0 sampleRecovered).1 = PlayNextResult.queueEmpty ∧
    (sampleRetried 0).map (fun s => (s.currentSong, s.player, s.lockPlay, s.timeoutId)) =
      some (none,
        some { status := AudioPlayerStatus.Playing,
               resource := some { track := sampleTrackB, volumePercent := 50 } },
        false, some { handle := 2, ms := 300000 }) := by
  refine ⟨?_, by decide, by decide, by decide, by decide, by decide, by decide⟩
  have h1 : Reachable samplePlayedMap :=
    Reachable.step _ _ Reachable.start (Step.play sampleRequest samplePlay 0 GuildMap.empty)
  have h2 : Reachable sampleQueuedMap :=
    Reachable.step _ _ h1 (Step.play sampleRequestB samplePlayB 0 samplePlayedMap)
  have h3 : Reachable (playerError 0 sampleQueuedMap) :=
    Reachable.step _ _ h2 (Step.playerError 0 sampleQueuedMap)
  have h4 : Reachable (playerEntersIdle 0 (playerError 0 sampleQueuedMap)) := by
    cases hs : (playerError 0 sampleQueuedMap) 0 with
    | none => exact absurd hs (by decide)
    | some s =>
      cases hp : s.player with
      | none =>
        have : ((playerError 0 sampleQueuedMap) 0).map (fun s => s.player.isSome) = some true := by
          decide
        rw [hs] at this
        simp [hp] at this
      | some p =>
        have hstep := Step.playerState { status := AudioPlayerStatus.Idle, resource := none } 0
          (playerError 0 sampleQueuedMap) s hs (by simp [hp])
        have heq : playerEntersIdle 0 (playerError 0 sampleQueuedMap) =
            (playerError 0 sampleQueuedMap).set 0
              { s with player := some { status := AudioPlayerStatus.Idle, resource := none } } := by
          simp [playerEntersIdle, hs, hp]
        rw [heq]
        exact Reachable.step _ _ h3 hstep
  have h5 : Reachable sampleRecovered :=
    Reachable.step _ _ h4 (Step.playerIdle AudioPlayerStatus.Playing sampleStart 0 _)
  exact Reachable.step _ _ h5 (Step.playNext sampleLaterStart 0 sampleRecovered)

/-! ## Overlapping `play` commands -/

/-- The command `play.execute` is its first part followed by its second part. -/
theorem playExecute_eq_resolve_finish (req : PlayRequest) (o : PlayOutcome) (g : GuildId)
    (m : GuildMap) :
    playExecute req o g m =
      playFinish (playResolve req o g m).1 o g (playResolve req o g m).2 := by
  rw [playExecute_eq]
  unfold playResolve playFinish
  by_cases hq : req.query = ""
  · simp only [if_pos hq]
  simp only [if_neg hq]
  cases hv : req.voiceChannel with
  | none => rfl
  | some vc =>
    simp only
    split_ifs <;> rfl

set_option maxRecDepth 100000 in
/-- C26 (the code at the failing input): guild 0 is streaming with 99 songs
queued.  Two `play` commands overlap: both pass the queue-full check of line 449
while the queue holds 99 songs, and both push their song after the search, so
the queue ends with 101 songs.  Run one after the other, the second command is
refused and the queue ends with 100 songs. -/
theorem playOverlapped_exceeds_limit :
    (playOverlapped 0 (sampleRequest, samplePlay) (sampleRequest, samplePlay)
      (sampleMapOf (sampleStreaming (List.replicate 99 sampleTrackA)))).1.map
        (fun r => decide (r = PlayReply.queueFull)) = [false, false] ∧
    ((playOverlapped 0 (sampleRequest, samplePlay) (sampleRequest, samplePlay)
      (sampleMapOf (sampleStreaming (List.replicate 99 sampleTrackA)))).2 0).map
        (fun s => s.queue.length) = some 101 ∧
    MAX_QUEUE_SIZE = 100 ∧
    (playAll 0 [(sampleRequest, samplePlay), (sampleRequest, samplePlay)]
      (sampleMapOf (sampleStreaming (List.replicate 99 sampleTrackA)))).1.map
        (fun r => decide (r = PlayReply.queueFull)) = [false, true] ∧
    ((playAll 0 [(sampleRequest, samplePlay), (sampleRequest, samplePlay)]
      (sampleMapOf (sampleStreaming (List.replicate 99 sampleTrackA)))).2 0).map
        (fun s => s.queue.length) = some 100 := by
  decide

/-! ## Timers and teardown -/

/-- The timer calls are added to the handlers without changing what they do to
the sessions. -/
theorem timers_keep_sessions (oldStatus : AudioPlayerStatus) (o : AdvanceOutcome)
    (co : CleanupOutcome) (req : PlayRequest) (po : PlayOutcome) (handle timeoutMs : Nat)
    (g : GuildId) (w : World) :
    (startInactivityTimerIn handle timeoutMs g w).sessions =
      startInactivityTimer handle timeoutMs g w.sessions ∧
    (playNextSongIn o g w).sessions = (playNextSong o g w.sessions).2 ∧
    (cleanupGuildIn co g w).sessions = cleanupGuild g w.sessions ∧
    (∀ s c, w.sessions g = some s → s.connection = some c →
      (connectionDestroyedIn co g w).sessions = connectionLost g w.sessions) ∧
    (playerIdleIn oldStatus o g w).sessions = playerIdle oldStatus o g w.sessions ∧
    (timerFiresIn handle co g w).sessions = inactivityTimeout g w.sessions ∧
    (∀ r, playExecuteIn req po g w = some r →
      (r.1, r.2.sessions) = playExecute req po g w.sessions) := by
  have hstart : (startInactivityTimerIn handle timeoutMs g w).sessions =
      startInactivityTimer handle timeoutMs g w.sessions := by
    unfold startInactivityTimerIn startInactivityTimer
    cases w.sessions g <;> rfl
  have hnext : ∀ (a : AdvanceOutcome) (v : World),
      (playNextSongIn a g v).sessions = (playNextSong a g v.sessions).2 := by
    intro a v
    unfold playNextSongIn
    cases hm : v.sessions g with
    | none => simp [playNextSong, hm]
    | some s =>
      simp only
      split <;> rfl
  have hclean : ∀ v : World, (cleanupGuildIn co g v).sessions = cleanupGuild g v.sessions := by
    intro v
    unfold cleanupGuildIn
    exact cleanupGuildRun_map co g v.sessions
  have hstartAt : ∀ (h ms : Nat) (v : World), (startInactivityTimerIn h ms g v).sessions =
      startInactivityTimer h ms g v.sessions := by
    intro h ms v
    unfold startInactivityTimerIn startInactivityTimer
    cases v.sessions g <;> rfl
  have henqueue : ∀ (song : Track) (v : World),
      ((playEnqueueIn song po g v).1, (playEnqueueIn song po g v).2.sessions) =
        playEnqueue song po g v.sessions := by
    intro song v
    unfold playEnqueueIn playEnqueue
    cases hm : v.sessions g with
    | none => rfl
    | some s =>
      simp only
      split
      · rw [hnext]
      · rfl
  refine ⟨hstart, hnext o w, hclean w, ?_, ?_, ?_, ?_⟩
  · intro s c hm hc
    unfold connectionDestroyedIn connectionLost
    simp only [hm, hc, GuildMap.has, Option.isSome_some, if_true]
    rw [hclean]
    funext k
    by_cases hk : k = g
    · simp [cleanupGuild, hm, GuildMap.delete, GuildMap.set, hk]
    · simp [cleanupGuild, hm, GuildMap.delete, GuildMap.set, hk]
  · unfold playerIdleIn playerIdle
    cases idleAction oldStatus (w.sessions g) with
    | nothing => rfl
    | playNext => exact hnext o w
    | startTimer => exact hstartAt _ _ w
  · unfold timerFiresIn inactivityTimeout
    cases hm : w.sessions g with
    | none => rfl
    | some s =>
      simp only
      cases hc : s.connection with
      | none => rfl
      | some c =>
        simp only
        split
        · rw [hclean]
        · rfl
  · intro r hr
    rw [playExecute_eq_resolve_finish]
    unfold playExecuteIn at hr
    unfold playFinish
    rcases hres : playResolve req po g w.sessions with ⟨resolved, m1⟩
    rw [hres] at hr
    cases resolved with
    | ok song =>
      simp only [Option.some.injEq] at hr
      subst hr
      exact henqueue song _
    | error e =>
      cases e <;> simp only [Option.some.injEq, reduceCtorEq] at hr <;> subst hr <;> rfl

set_option maxRecDepth 100000 in
/-- C24 (the code at the failing input): guild 0 plays song A with an empty
queue and holds a now-playing and a queue message; no timer is pending.  The
voice connection is destroyed from outside and its listener calls `cleanupGuild`.
The stopped player reports Idle inside `stop(true)`, and the run of `playNextSong`
that the listener starts comes to its end while `cleanupGuild` waits for the
deletion of the queue message: it finds the queue empty and sets timer 1.
`cleanupGuild` then deletes the entry without another `clearTimeout`, because it
does not destroy a destroyed connection: timer 1 stays pending for a guild
without a session.  A `play` command starts a new session; when its song ends,
timer 2 is set: two callbacks are pending for guild 0, and timer 1, when it
fires, removes the new session.  After the `stop` command on the same session,
whose connection `cleanupGuild` destroys itself, no timer is pending. -/
theorem connectionDestroyed_leaves_timer_pending :
    pendingFor 0 sampleWorld.timers = [] ∧
    sampleOrphaned.sessions 0 = none ∧
    pendingFor 0 sampleOrphaned.timers = [1] ∧
    (playExecuteIn sampleRequest samplePlay 0 sampleOrphaned).map (fun r => r.1) =
      some (PlayReply.added 1 sampleTrackA) ∧
    (sampleRestarted.sessions 0).map (fun s => (s.currentSong.isSome, s.timeoutId)) =
      some (true, none) ∧
    pendingFor 0 sampleRestarted.timers = [1] ∧
    pendingFor 0 sampleEnded.timers = [1, 2] ∧
    (sampleEnded.sessions 0).map (fun s => s.timeoutId) =
      some (some { handle := 2, ms := 300000 }) ∧
    (timerFiresIn 1 sampleCleanup 0 sampleEnded).sessions 0 = none ∧
    (stopExecute (some 5) 0 sampleWorld.sessions).1 = StopReply.stopping ∧
    (cleanupGuildIn sampleTeardown 0 sampleWorld).sessions 0 = none ∧
    pendingFor 0 (cleanupGuildIn sampleTeardown 0 sampleWorld).timers = [] := by
  decide

end Acordion
